import Mathlib

/-!
Verification of the cryptopix-clwe "ColorKEM" core against its
natural-language specification.

The definitions below are a shallow embedding of the C++ sources:

* `src/core/color_value.hpp` — the `ColorValue` RGBA wrapper that stores
  every ring coefficient (`to_precise_value` / `from_precise_value`);
* `src/core/shake_sampler.cpp` — the deterministic byte mixers that stand
  in for SHAKE128/SHAKE256 (`SHAKE128Sampler::squeeze`,
  `SHAKE256Sampler::squeeze`, `sample_binomial_coefficient`);
* `src/core/color_kem.cpp` — matrix expansion, key generation,
  encapsulation, decapsulation, serialization;
* `src/core/utils.hpp` (inline .cpp part) — `montgomery_reduce`,
  `mod_inverse`, `mod_pow`;
* the scalar NTT engine (`ScalarNTTEngine`) — twiddle precomputation,
  butterflies, forward/inverse NTT and NTT-based multiplication.

Machine integers are modelled as `Nat` with explicit wrap-around
(`% 2^32`, `% 2^64`) exactly where the C++ expressions wrap; signed
quantities (`int32_t` binomial samples, `int64_t` extended-Euclid
cofactors) are modelled as `Int` with C truncated division (`Int.tmod`).
The ambient randomness the code draws mid-algorithm (`rand()`,
`std::random_device`) is modelled as explicit streams `ℕ → ℕ`, indexed by
the position of the draw.

The KEM is embedded at the default parameter set the `ColorKEM`
constructor installs (`CLWEParameters()` in
`src/include/clwe/ring_operations.hpp`): security level 128 with
n = 256, q = 3329, k = 2, η = 2.
-/

namespace CLWE

/-- Prime modulus q = 3329 (`CLWEParameters::modulus`, default set). -/
def Q : ℕ := 3329

/-- Ring degree n = 256 (`CLWEParameters::degree`, default set). -/
def N : ℕ := 256

/-- Module rank k = 2 (`CLWEParameters::module_rank`, default set). -/
def KR : ℕ := 2

/-- Binomial parameter η = 2 (`CLWEParameters::eta`, default set). -/
def ETA : ℕ := 2

/-- Truncation to a `uint32_t` value. -/
def u32 (x : ℕ) : ℕ := x % 4294967296

/-- Truncation to a `uint64_t` value. -/
def u64 (x : ℕ) : ℕ := x % 18446744073709551616

/-- `ColorValue` (color_value.hpp): four `uint8_t` channels r, g, b, a. -/
structure ColorValue where
  r : ℕ
  g : ℕ
  b : ℕ
  a : ℕ
  deriving DecidableEq

/-- Default-constructed `ColorValue()` : r = g = b = 0, a = 255. -/
def cvZero : ColorValue := ⟨0, 0, 0, 255⟩

/-- `ColorValue::to_precise_value`: `(r << 32) | (g << 16) | b`. -/
def ColorValue.toPreciseValue (c : ColorValue) : ℕ :=
  (c.r <<< 32) ||| (c.g <<< 16) ||| c.b

/-- `ColorValue::from_precise_value`: keeps bytes at bit offsets 32, 16, 0
of the `uint64_t` argument and sets a = 255. -/
def ColorValue.fromPreciseValue (v : ℕ) : ColorValue :=
  ⟨(v >>> 32) &&& 255, (v >>> 16) &&& 255, v &&& 255, 255⟩

/-! ## SHAKE-like samplers (shake_sampler.cpp)

Both samplers are deterministic byte mixers over a stored state; a byte is
a function of the absolute squeeze position only, so a squeeze of `len`
bytes starting at position `pos` yields the bytes at positions
`pos, pos+1, …`. -/

/-- `SHAKE128Sampler::squeeze`, one byte at absolute position `p`; the
state is the byte string passed to `init`. -/
def shake128Byte (state : List ℕ) (p : ℕ) : ℕ :=
  let len := state.length
  let idx := p % len
  let counter := p / len
  let v := state.getD idx 0
  let v := v ^^^ (counter &&& 255)
  let v := v ^^^ ((counter >>> 8) &&& 255)
  let v := ((v <<< 5) ||| (v >>> 3)) % 256
  v ^^^ state.getD ((idx + 1) % len) 0

/-- `SHAKE256Sampler::init`: the 32-byte state is the seed (truncated to
32 bytes), padded with `(seed[i % len] + i) & 0xFF` when shorter. -/
def shake256State (seed : List ℕ) : List ℕ :=
  (List.range 32).map (fun i =>
    if i < min seed.length 32 then seed.getD i 0
    else (seed.getD (i % seed.length) 0 + i) % 256)

/-- `SHAKE256Sampler::squeeze`, one byte at absolute position `p` over a
32-byte state. -/
def shake256Byte (state : List ℕ) (p : ℕ) : ℕ :=
  let idx := p % 32
  let counter := p / 32
  let v := state.getD idx 0
  let v := v ^^^ (counter &&& 255)
  let v := v ^^^ ((counter >>> 8) &&& 255)
  let v := v ^^^ ((counter >>> 16) &&& 255)
  let v := v ^^^ ((counter >>> 24) &&& 255)
  let v := ((v <<< 3) ||| (v >>> 5)) % 256
  v ^^^ state.getD ((idx + 1) % 32) 0

/-- `SHAKE256Sampler::sample_binomial_coefficient`: η rounds, each
consuming two squeezed bytes whose low bits are ±1 Bernoulli trials.
Returns the running `int32_t` sum and the sampler position after. -/
def sampleBinomialAux (state : List ℕ) : ℕ → ℕ → ℤ → ℤ × ℕ
  | 0, pos, acc => (acc, pos)
  | e + 1, pos, acc =>
    let b1 := shake256Byte state pos
    let b2 := shake256Byte state (pos + 1)
    let acc := acc + (if b1 &&& 1 = 1 then 1 else -1) + (if b2 &&& 1 = 1 then 1 else -1)
    sampleBinomialAux state e (pos + 2) acc

/-! ## Matrix A expansion (`ColorKEM::generate_matrix_A`) -/

/-- The rejection-sampling loop of `generate_matrix_A`: round r squeezes
the 3 bytes at absolute positions `3r, 3r+1, 3r+2`, forms the two 12-bit
candidates `((b0 << 4) | (b1 >> 4)) & 0xFFF` and `((b1 << 8) | b2) &
0xFFF`, and accepts each candidate `< q` while `coeff_idx < n`.  The
state threads the C++ `coeff_idx` counter and the accepted coefficients
(consed, reversed at the end); rounds where `coeff_idx` has reached n
are the iterations the C++ `while` loop never runs.  The round bound
stands in for the unbounded `while`; the concrete evaluations below all
finish within ~140 rounds of the 256 provided. -/
def sampleUniformCoeffs (state : List ℕ) (rounds : ℕ) : List ℕ :=
  ((List.range rounds).foldl (fun st round =>
    if st.1 < N then
      let pos := 3 * round
      let b0 := shake128Byte state pos
      let b1 := shake128Byte state (pos + 1)
      let b2 := shake128Byte state (pos + 2)
      let c1 := ((b0 <<< 4) ||| (b1 >>> 4)) &&& 4095
      let s1 : ℕ × List ℕ := if c1 < Q ∧ st.1 < N then (st.1 + 1, c1 :: st.2) else st
      let c2 := ((b1 <<< 8) ||| b2) &&& 4095
      if c2 < Q ∧ s1.1 < N then (s1.1 + 1, c2 :: s1.2) else s1
    else st) ((0, []) : ℕ × List ℕ)).2.reverse

/-- The n accepted coefficients `generate_matrix_A` samples for grid
cell (i, j): the XOF state is `seed ‖ i ‖ j` (in that order). -/
def matrixCellCoeffs (seed : List ℕ) (i j : ℕ) : List ℕ :=
  sampleUniformCoeffs (seed ++ [i % 256, j % 256]) 256

/-- The storage loop of `generate_matrix_A`: `matrix[i][j]` is
overwritten with `from_precise_value(coeffs[coeff])` for each
`coeff < n` in turn, starting from the default-constructed entry. -/
def generateMatrixEntry (seed : List ℕ) (i j : ℕ) : ColorValue :=
  let coeffs := matrixCellCoeffs seed i j
  (List.range N).foldl (fun _ t => ColorValue.fromPreciseValue (coeffs.getD t 0)) cvZero

/-- `ColorKEM::generate_matrix_A`: the k×k grid of entries. -/
def generateMatrixA (seed : List ℕ) : List (List ColorValue) :=
  (List.range KR).map (fun i => (List.range KR).map (fun j => generateMatrixEntry seed i j))

/-! ## Secret / error sampling (`ColorKEM::generate_secret_key`,
`ColorKEM::generate_error_vector`)

Both routines build a 32-byte sampler seed from `rand() % 256` draws made
inside the call; `rand` is modelled as a stream `ℕ → ℕ` of raw `rand()`
values indexed by draw position, and each routine returns the stream
position after its 32 draws. -/

/-- The per-component loop shared by both routines: sample a binomial
coefficient, map it into [0, q) with C truncated `%`
(`(sample % q + q) % q` on `int32_t`), store as a `ColorValue`. -/
def binomialVector (state : List ℕ) : ℕ → ℕ → List ColorValue
  | 0, _ => []
  | c + 1, sp =>
    let s := sampleBinomialAux state ETA sp 0
    let value := ((Int.tmod s.1 (Q : ℤ) + Q) % Q).toNat
    ColorValue.fromPreciseValue value :: binomialVector state c s.2

/-- `ColorKEM::generate_secret_key` with the `rand()` stream explicit. -/
def generateSecretKey (rand : ℕ → ℕ) (pos : ℕ) : List ColorValue × ℕ :=
  let seed := (List.range 32).map (fun t => rand (pos + t) % 256)
  (binomialVector (shake256State seed) KR 0, pos + 32)

/-- `ColorKEM::generate_error_vector` — an identical body. -/
def generateErrorVector (rand : ℕ → ℕ) (pos : ℕ) : List ColorValue × ℕ :=
  let seed := (List.range 32).map (fun t => rand (pos + t) % 256)
  (binomialVector (shake256State seed) KR 0, pos + 32)

/-! ## Linear algebra over ColorValues (`ColorKEM`) -/

/-- `ColorKEM::matrix_vector_mul`: row-by-row inner products of
`to_precise_value`s, accumulated as `(sum + m*v) % q` in `uint64_t`. -/
def matrixVectorMul (matrix : List (List ColorValue)) (vec : List ColorValue) :
    List ColorValue :=
  (List.range KR).map (fun i =>
    ColorValue.fromPreciseValue
      ((List.range KR).foldl (fun sum j =>
        u64 (sum + ((matrix.getD i []).getD j cvZero).toPreciseValue *
          (vec.getD j cvZero).toPreciseValue) % Q) 0))

/-- `ColorKEM::generate_public_key`: `pk[i] = (As[i] + e[i]) % q`,
stored back through `from_precise_value`. -/
def generatePublicKey (secretKey : List ColorValue)
    (matrixA : List (List ColorValue)) (errorVector : List ColorValue) :
    List ColorValue :=
  let As := matrixVectorMul matrixA secretKey
  (List.range KR).map (fun i =>
    ColorValue.fromPreciseValue
      (u64 ((As.getD i cvZero).toPreciseValue +
        (errorVector.getD i cvZero).toPreciseValue) % Q))

/-! ## Byte conversions (`ColorKEM`) -/

/-- `ColorKEM::color_secret_to_bytes`: big-endian bytes of the
`uint32_t` truncation of `to_precise_value`. -/
def colorSecretToBytes (c : ColorValue) : List ℕ :=
  let value := u32 c.toPreciseValue
  [(value >>> 24) &&& 255, (value >>> 16) &&& 255, (value >>> 8) &&& 255, value &&& 255]

/-- `ColorKEM::bytes_to_color_secret`: rebuild the 32-bit value from four
big-endian bytes; fewer than 4 bytes yield `from_precise_value(0)`. -/
def bytesToColorSecret (bytes : List ℕ) : ColorValue :=
  if bytes.length < 4 then ColorValue.fromPreciseValue 0
  else
    ColorValue.fromPreciseValue
      ((bytes.getD 0 0 <<< 24) ||| (bytes.getD 1 0 <<< 16) |||
        (bytes.getD 2 0 <<< 8) ||| bytes.getD 3 0)

/-- `ColorKEM::encode_color_secret` — same body as
`color_secret_to_bytes`. -/
def encodeColorSecret (secret : ColorValue) : List ℕ :=
  let value := u32 secret.toPreciseValue
  [(value >>> 24) &&& 255, (value >>> 16) &&& 255, (value >>> 8) &&& 255, value &&& 255]

/-- The 4-byte chunking loop used by `encapsulate`/`decapsulate`
(`for (i = 0; i < size; i += 4) … min(i + 4, size)`); structural
recursion on a step count that the wrapper sets to the list length. -/
def chunks4Aux : ℕ → List ℕ → List (List ℕ)
  | 0, _ => []
  | _, [] => []
  | fuel + 1, l => l.take 4 :: chunks4Aux fuel (l.drop 4)

/-- 4-byte chunking of a byte string. -/
def chunks4 (l : List ℕ) : List (List ℕ) := chunks4Aux l.length l

/-! ## Key and ciphertext records (`ColorKEM` nested structs)

The `CLWEParameters` member each struct carries is the fixed default
parameter set and is omitted from the embedding. -/

/-- `ColorKEM::ColorPublicKey`. -/
structure ColorPublicKey where
  seed : List ℕ
  publicData : List ℕ
  deriving DecidableEq

/-- `ColorKEM::ColorPrivateKey`. -/
structure ColorPrivateKey where
  secretData : List ℕ
  deriving DecidableEq

/-- `ColorKEM::ColorCiphertext`. -/
structure ColorCiphertext where
  ciphertextData : List ℕ
  sharedSecretHint : List ℕ
  deriving DecidableEq

/-! ## KEM operations (`ColorKEM::keygen/encapsulate/decapsulate`) -/

/-- `ColorKEM::keygen`.  The 32 `rd() % 256` draws for the matrix seed
come from the `rd` stream; the secret and error samplers consume
`rand` positions 0–31 and 32–63 respectively. -/
def keygen (rd rand : ℕ → ℕ) : ColorPublicKey × ColorPrivateKey :=
  let matrixSeed := (List.range 32).map (fun t => rd t % 256)
  let matrixA := generateMatrixA matrixSeed
  let s := generateSecretKey rand 0
  let e := generateErrorVector rand s.2
  let pkColors := generatePublicKey s.1 matrixA e.1
  let secretData := (s.1.map colorSecretToBytes).flatten
  let publicData := (pkColors.map colorSecretToBytes).flatten
  (⟨matrixSeed, publicData⟩, ⟨secretData⟩)

/-- `ColorKEM::encrypt_message`: `c1[i] = (r[i] + e1[i]) % q` (the matrix
argument is unused by the source), `c2 = (⟨pk, r⟩ + e2 + m·⌊q/4⌋) % q`.
Returns the ciphertext colors and the `rand` position after. -/
def encryptMessage (rand : ℕ → ℕ) (pos : ℕ) (_matrixA : List (List ColorValue))
    (publicKey : List ColorValue) (message : ColorValue) :
    List ColorValue × ℕ :=
  let rv := generateSecretKey rand pos
  let e1v := generateErrorVector rand rv.2
  let e2v := generateErrorVector rand e1v.2
  let e2 := e2v.1.getD 0 cvZero
  let c1 := (List.range KR).map (fun i =>
    ColorValue.fromPreciseValue
      (u64 ((rv.1.getD i cvZero).toPreciseValue +
        (e1v.1.getD i cvZero).toPreciseValue) % Q))
  let inner := (List.range KR).foldl (fun acc i =>
    u64 (acc + (publicKey.getD i cvZero).toPreciseValue *
      (rv.1.getD i cvZero).toPreciseValue) % Q) 0
  let c2 := u64 (inner + e2.toPreciseValue + message.toPreciseValue * (Q / 4)) % Q
  (c1 ++ [ColorValue.fromPreciseValue c2], e2v.2)

/-- `ColorKEM::encapsulate` with the `rand()` stream and its position
explicit; returns the ciphertext, the shared secret and the stream
position after the call (the hidden global PRNG state). -/
def encapsulate (rand : ℕ → ℕ) (pos : ℕ) (publicKey : ColorPublicKey) :
    ColorCiphertext × ColorValue × ℕ :=
  let sharedSecret := ColorValue.fromPreciseValue (rand pos % 2)
  let matrixA := generateMatrixA publicKey.seed
  let pkColors := (chunks4 publicKey.publicData).map bytesToColorSecret
  let ctv := encryptMessage rand (pos + 1) matrixA pkColors sharedSecret
  let ciphertextData := (ctv.1.map colorSecretToBytes).flatten
  let hint := encodeColorSecret sharedSecret
  (⟨ciphertextData, hint⟩, sharedSecret, ctv.2)

/-- `ColorKEM::decrypt_message`: `v = (c2 - ⟨s, c1⟩) % q`, decode the bit
by the `v > q/2` threshold. -/
def decryptMessage (secretKey ciphertext : List ColorValue) : ColorValue :=
  let c1 := ciphertext.take KR
  let c2 := ciphertext.getD KR cvZero
  let sdot := (List.range KR).foldl (fun acc i =>
    u64 (acc + (secretKey.getD i cvZero).toPreciseValue *
      (c1.getD i cvZero).toPreciseValue) % Q) 0
  let c2v := c2.toPreciseValue
  let v := (if c2v ≥ sdot then c2v - sdot else c2v + Q - sdot) % Q
  ColorValue.fromPreciseValue (if v > Q / 2 then 1 else 0)

/-- `ColorKEM::decapsulate`: parse the stored secret key and ciphertext
bytes into colors and return `decrypt_message`'s output directly. -/
def decapsulate (_publicKey : ColorPublicKey) (privateKey : ColorPrivateKey)
    (ciphertext : ColorCiphertext) : ColorValue :=
  let skColors := (chunks4 privateKey.secretData).map bytesToColorSecret
  let ctColors := (chunks4 ciphertext.ciphertextData).map bytesToColorSecret
  decryptMessage skColors ctColors

/-! ## Serialization (`ColorKEM` nested structs) -/

/-- `ColorPublicKey::serialize`: seed then public data. -/
def pkSerialize (key : ColorPublicKey) : List ℕ := key.seed ++ key.publicData

/-- `ColorPublicKey::deserialize`: inputs of at least 32 bytes are split
into seed and public data; shorter inputs leave the default-constructed
key untouched — its `std::array` seed holds indeterminate bytes, modelled
by the `junkSeed` argument, and its data is empty.  No failure is ever
reported. -/
def pkDeserialize (junkSeed : List ℕ) (data : List ℕ) : ColorPublicKey :=
  if data.length ≥ 32 then ⟨data.take 32, data.drop 32⟩ else ⟨junkSeed, []⟩

/-- `ColorCiphertext::serialize`: ciphertext data then hint. -/
def ctSerialize (ct : ColorCiphertext) : List ℕ :=
  ct.ciphertextData ++ ct.sharedSecretHint

/-- `ColorCiphertext::deserialize`: any input is split at `size / 2`;
no length is checked and no failure is ever reported. -/
def ctDeserialize (data : List ℕ) : ColorCiphertext :=
  let split := data.length / 2
  ⟨data.take split, data.drop split⟩

/-! ## Modular arithmetic utilities (utils.hpp / utils.cpp) -/

/-- The `while (exp > 0)` loop of `mod_pow` (binary exponentiation),
with fuel covering the 32 bits of a `uint32_t` exponent. -/
def modPowLoop : ℕ → ℕ → ℕ → ℕ → ℕ → ℕ
  | 0, result, _, _, _ => result
  | fuel + 1, result, base, exp, m =>
    if exp = 0 then result
    else
      modPowLoop fuel (if exp &&& 1 = 1 then result * base % m else result)
        (base * base % m) (exp / 2) m

/-- `mod_pow(base, exp, mod)`. -/
def modPow (base exp m : ℕ) : ℕ := modPowLoop 64 1 (base % m) exp m

/-- The `while (a > 1)` loop of `mod_inverse` (extended Euclid);
`x0`, `x1` are the `int64_t` cofactors.  The loop is given fuel; every
call made by the embedded engine completes well inside it. -/
def modInverseLoop : ℕ → ℕ → ℕ → ℤ → ℤ → ℤ
  | 0, _, _, _, x1 => x1
  | fuel + 1, a, m, x0, x1 =>
    if a ≤ 1 then x1
    else modInverseLoop fuel m (a % m) (x1 - (a / m : ℕ) * x0) x0

/-- `mod_inverse(a, m)`: extended Euclid, negative cofactor lifted by
`m`, then cast back to `uint32_t`. -/
def modInverse (a m : ℕ) : ℕ :=
  if m = 1 then 0
  else
    let x1 := modInverseLoop 64 a m 0 1
    let x1 := if x1 < 0 then x1 + m else x1
    (x1 % 4294967296).toNat

/-- `montgomery_reduce(a, q)` from utils.cpp:
`t = a * 2^32 % q` (the product wraps in `uint64_t`), then
`(a + t*q) >> 32` (the sum wraps in `uint64_t`). -/
def utilsMontgomeryReduce (a q : ℕ) : ℕ :=
  let t := u64 (a * 4294967296) % q
  u64 (a + t * q) >>> 32

/-! ## Scalar NTT engine (ScalarNTTEngine, q = 3329, n = 256)

The engine the `ColorKEM` parameter set instantiates: `q_ = 3329`,
`n_ = 256`, hence `log_degree() = 8`. -/

/-- `montgomery_r_ = 2^32 % q`. -/
def montgomeryR : ℕ := 4294967296 % Q

/-- `montgomery_r_inv_ = mod_inverse(montgomery_r_, q)`. -/
def montRInv : ℕ := modInverse montgomeryR Q

/-- `ScalarNTTEngine::montgomery_reduce(val)`:
`t = val * montgomery_r_inv_` (wrapping in `uint64_t`), `k = t % 2^32`,
`res = val - k*q` (wrapping in `uint64_t`), result `res >> 32` cast to
`uint32_t`. -/
def montgomeryReduce (val : ℕ) : ℕ :=
  let t := u64 (val * montRInv)
  let k := t % 4294967296
  let res := (val + 18446744073709551616 - u64 (k * Q)) % 18446744073709551616
  res >>> 32

/-- The iterative power table of `precompute_zetas`:
`tbl[0] = 1`, `tbl[i] = tbl[i-1] * z % q`. -/
def powTable (z : ℕ) : ℕ → ℕ → List ℕ
  | 0, _ => []
  | c + 1, cur => cur :: powTable z c (cur * z % Q)

/-- `zeta = mod_pow(g, (q-1)/n, q)` with `g = 17`. -/
def zetaRoot : ℕ := modPow 17 ((Q - 1) / N) Q

/-- Forward twiddle table `zetas_`. -/
def zetas : List ℕ := powTable zetaRoot N 1

/-- Inverse twiddle table `zetas_inv_`, powers of
`mod_inverse(zeta, q)`. -/
def zetasInv : List ℕ := powTable (modInverse zetaRoot Q) N 1

/-- `ScalarNTTEngine::butterfly(a, b, zeta)` — the sum `a + b` wraps in
`uint32_t` before `% q`; the difference branch `a + q - b` wraps in
`uint32_t`; the product goes through `montgomery_reduce`. -/
def butterfly (a b zeta : ℕ) : ℕ × ℕ :=
  let sum := u32 (a + b) % Q
  let diff := if a ≥ b then a - b else u32 (a + Q + 4294967296 - b)
  let prod := montgomeryReduce (diff * zeta)
  (sum, prod)

/-- The engine's coefficient buffer (`uint32_t* poly`) is modelled as a
single natural in base 2^32: word i occupies bits [32i, 32i+32), exactly
the little-endian memory image of the C++ array.  `getW p i` reads word
i. -/
def getW (p i : ℕ) : ℕ := (p >>> (32 * i)) &&& 4294967295

/-- Write word i of the packed buffer (the written value is a
`uint32_t`). -/
def setW (p i v : ℕ) : ℕ :=
  ((p >>> (32 * (i + 1))) <<< (32 * (i + 1))) + ((v % 4294967296) <<< (32 * i)) +
    p % (1 <<< (32 * i))

/-- Pack a coefficient list into the base-2^32 buffer (word t is
element t). -/
def packPoly (l : List ℕ) : ℕ := l.foldr (fun c acc => c % 4294967296 + (acc <<< 32)) 0

/-- Read the n words of a packed buffer back into a coefficient list. -/
def unpackPoly (p : ℕ) : List ℕ := (List.range N).map (getW p)

/-- One stage's inner loop (`for (i = 0; i < k; ++i)`, `j += m`):
butterfly on `poly[i]`, `poly[i+k]` with twiddle `tbl[j] = tbl[i*m]`. -/
def nttPass (tbl : List ℕ) (m kk : ℕ) (poly : ℕ) : ℕ :=
  (List.range kk).foldl (fun p i =>
    let bf := butterfly (getW p i) (getW p (i + kk)) (tbl.getD (i * m) 0)
    setW (setW p i bf.1) (i + kk) bf.2) poly

/-- The stage loop of `ntt_forward`: `m` doubles, `k` halves. -/
def nttForwardStages : ℕ → ℕ → ℕ → ℕ → ℕ
  | 0, _, _, poly => poly
  | s + 1, m, kk, poly => nttForwardStages s (m * 2) (kk / 2) (nttPass zetas m kk poly)

/-- `ScalarNTTEngine::ntt_forward` (log_degree = 8 stages,
`m = 1`, `k = n/2` initially). -/
def nttForward (poly : List ℕ) : List ℕ :=
  unpackPoly (nttForwardStages 8 1 (N / 2) (packPoly poly))

/-- The stage loop of `ntt_inverse`: `m` halves, `k` doubles, twiddles
from `zetas_inv_`. -/
def nttInverseStages : ℕ → ℕ → ℕ → ℕ → ℕ
  | 0, _, _, poly => poly
  | s + 1, m, kk, poly => nttInverseStages s (m / 2) (kk * 2) (nttPass zetasInv m kk poly)

/-- `n_inv = mod_inverse(n, q)`. -/
def nInv : ℕ := modInverse N Q

/-- `ScalarNTTEngine::ntt_inverse`: 8 stages (`m = n/2`, `k = 1`
initially), then the scaling loop
`poly[i] = montgomery_reduce(poly[i] * n_inv)`. -/
def nttInverse (poly : List ℕ) : List ℕ :=
  let p := nttInverseStages 8 (N / 2) 1 (packPoly poly)
  (List.range N).map (fun i => montgomeryReduce (getW p i * nInv))

/-- `ScalarNTTEngine::multiply`: forward NTT of both inputs, pointwise
`montgomery_reduce(a_ntt[i] * b_ntt[i])`, inverse NTT of the result. -/
def nttMultiply (a b : List ℕ) : List ℕ :=
  let an := nttForward a
  let bn := nttForward b
  nttInverse ((List.range N).map (fun i => montgomeryReduce (an.getD i 0 * bn.getD i 0)))

/-! ## Claim-side reference definitions -/

/-- The matrix-cell rejection sampling exactly as the claim (spec §4.5)
words it, for comparison with the code's `sampleUniformCoeffs`:
candidates `d₁ = b₀ | ((b₁ & 0x0F) << 8)` and
`d₂ = (b₁ >> 4) | (b₂ << 4)`. -/
def claimUniformCoeffs (state : List ℕ) (rounds : ℕ) : List ℕ :=
  ((List.range rounds).foldl (fun st round =>
    if st.1 < N then
      let pos := 3 * round
      let b0 := shake128Byte state pos
      let b1 := shake128Byte state (pos + 1)
      let b2 := shake128Byte state (pos + 2)
      let d1 := b0 ||| ((b1 &&& 15) <<< 8)
      let s1 : ℕ × List ℕ := if d1 < Q ∧ st.1 < N then (st.1 + 1, d1 :: st.2) else st
      let d2 := (b1 >>> 4) ||| (b2 <<< 4)
      if d2 < Q ∧ s1.1 < N then (s1.1 + 1, d2 :: s1.2) else s1
    else st) ((0, []) : ℕ × List ℕ)).2.reverse

/-- The n coefficients of entry (i, j) exactly as the claim words the
derivation: XOF seeded with `ρ ‖ j ‖ i`. -/
def claimCellCoeffs (seed : List ℕ) (i j : ℕ) : List ℕ :=
  claimUniformCoeffs (seed ++ [j % 256, i % 256]) 256

/-- Coefficient t (t < n) of the schoolbook product of a and b in
Z_q[x]/(x^n + 1) (the reference the ring-homomorphism claim compares
the NTT-based multiply against):
`Σ_{i+j=t} aᵢbⱼ − Σ_{i+j=t+n} aᵢbⱼ (mod q)`; for each i < n the unique
partner is j = (t + n − i) mod n, with the negative sign exactly when
i > t (the x^n → −1 wrap). -/
def schoolbookNegacyclicCoeff (a b : List ℕ) (t : ℕ) : ℕ :=
  (((List.range N).foldl (fun acc i =>
      let j := (t + N - i) % N
      let term := (a.getD i 0 : ℤ) * (b.getD j 0 : ℤ)
      acc + (if i ≤ t then term else -term)) 0) % (Q : ℤ)).toNat

/-! ## Concrete inputs used by the counterexample runs -/

/-- The all-zero ambient randomness stream (every `rand()` /
`std::random_device` draw returns 0). -/
def rdZero : ℕ → ℕ := fun _ => 0

/-- A `rand()` stream whose draw at position 0 is 1 and whose other
draws are 0. -/
def randOneThenZero : ℕ → ℕ := fun i => if i = 0 then 1 else 0

/-- A 32-byte all-zero seed. -/
def zeroSeed : List ℕ := List.replicate 32 0

/-- The polynomial 1 (coefficients (1, 0, …, 0), all in [0, q)). -/
def deltaPoly : List ℕ := 1 :: List.replicate 255 0

/-- The polynomial 1 + x^255 (coefficients in [0, q)). -/
def onePlusXPow255 : List ℕ := 1 :: (List.replicate 254 0 ++ [1])

/-- The polynomial x (coefficients in [0, q)). -/
def xPoly : List ℕ := 0 :: 1 :: List.replicate 254 0

/-- An honest key pair produced by `keygen` under the all-zero ambient
randomness (a reachable honest run: the device bytes and `rand()` bytes
are all 0). -/
def honestKeypair : ColorPublicKey × ColorPrivateKey := keygen rdZero rdZero

/-- An honest encapsulation against `honestKeypair`'s public key, under
an ambient `rand()` stream whose first draw is 1 (so the encapsulated
shared secret is the bit 1) and whose later draws are 0. -/
def honestEncaps : ColorCiphertext × ColorValue × ℕ :=
  encapsulate randOneThenZero 0 honestKeypair.1

/-! ## Helper lemmas -/

/-- Bit i of 255 = 2^8 − 1. -/
theorem testBit_255 (i : ℕ) : Nat.testBit 255 i = decide (i < 8) := by
  rw [show (255 : ℕ) = 2 ^ 8 - 1 from rfl, Nat.testBit_two_pow_sub_one]

/-- Bitwise or stays below a power of two. -/
theorem or_lt_two_pow {a b n : ℕ} (ha : a < 2 ^ n) (hb : b < 2 ^ n) : a ||| b < 2 ^ n :=
  Nat.bitwise_lt ha hb

/-- `to_precise_value` of in-range channels is a 64-bit value. -/
theorem toPrecise_lt (c : ColorValue) (hr : c.r < 256) (hg : c.g < 256) (hb : c.b < 256) :
    c.toPreciseValue < 2 ^ 64 := by
  have h1 : c.r <<< 32 < 2 ^ 64 := by
    have := Nat.shiftLeft_lt (x := c.r) (m := 32) (show c.r < 2 ^ 8 from hr)
    exact lt_of_lt_of_le this (Nat.pow_le_pow_right (by norm_num) (by norm_num))
  have h2 : c.g <<< 16 < 2 ^ 64 := by
    have := Nat.shiftLeft_lt (x := c.g) (m := 16) (show c.g < 2 ^ 8 from hg)
    exact lt_of_lt_of_le this (Nat.pow_le_pow_right (by norm_num) (by norm_num))
  have h3 : c.b < 2 ^ 64 := lt_trans hb (by norm_num)
  exact or_lt_two_pow (or_lt_two_pow h1 h2) h3

/-- The `from_precise_value` / `to_precise_value` round trip keeps
exactly the byte lanes at bit offsets 0, 16 and 32. -/
theorem colorRoundtripMask (v : ℕ) (hv : v < 2 ^ 64) :
    (ColorValue.fromPreciseValue v).toPreciseValue = v &&& 0xFF00FF00FF := by
  apply Nat.eq_of_testBit_eq
  intro i
  rcases lt_or_ge i 64 with hi | hi
  · interval_cases i <;>
      simp [ColorValue.fromPreciseValue, ColorValue.toPreciseValue,
        Nat.testBit_or, Nat.testBit_shiftLeft, Nat.testBit_shiftRight, Nat.testBit_and,
        testBit_255] <;>
      exact fun _ => by decide
  · have h1 : (ColorValue.fromPreciseValue v).toPreciseValue < 2 ^ i := by
      refine lt_of_lt_of_le (toPrecise_lt _ ?_ ?_ ?_)
        (Nat.pow_le_pow_right (by norm_num) hi) <;>
        exact Nat.lt_succ_of_le Nat.and_le_right
    have h2 : v &&& 0xFF00FF00FF < 2 ^ i :=
      lt_of_le_of_lt Nat.and_le_left
        (lt_of_lt_of_le hv (Nat.pow_le_pow_right (by norm_num) hi))
    rw [Nat.testBit_lt_two_pow h1, Nat.testBit_lt_two_pow h2]

/-- A coefficient below q with a live bit among positions 8–15 does not
survive the round trip. -/
theorem colorRoundtripNe (c : ℕ) (hc : c < Q) (hbit : c &&& 0xFF00 ≠ 0) :
    (ColorValue.fromPreciseValue c).toPreciseValue ≠ c := by
  intro heq
  rw [colorRoundtripMask c (lt_trans hc (by decide))] at heq
  apply hbit
  calc c &&& 0xFF00 = (c &&& 0xFF00FF00FF) &&& 0xFF00 := by rw [heq]
    _ = c &&& (0xFF00FF00FF &&& 0xFF00) := by rw [Nat.and_assoc]
    _ = c &&& 0 := by rw [show (1095233372415 &&& 65280 : ℕ) = 0 from by decide]
    _ = 0 := Nat.and_zero c

/-- `decrypt_message` always yields the encoding of a single bit. -/
theorem fromPrecise_bit (p : Prop) [Decidable p] :
    (ColorValue.fromPreciseValue (if p then 1 else 0)).toPreciseValue ≤ 1 := by
  split <;> decide

/-! ## Claim theorems -/

/-- Claim C2: the claim states that `decapsulate` re-encrypts the
decrypted message with the public key, compares against the ciphertext
in constant time and returns a KDF output with implicit rejection keyed
by z.  The code does none of this: its result is independent of the
public key (there is no re-encryption), it is exactly
`decrypt_message` applied to the parsed secret key and ciphertext
(no KDF, and the secret key carries no rejection seed z), and it is the
encoding of a single plaintext bit rather than a derived key. -/
theorem decapsulate_skips_fo_transform (pk pk' : ColorPublicKey)
    (sk : ColorPrivateKey) (ct : ColorCiphertext) :
    decapsulate pk sk ct = decapsulate pk' sk ct ∧
    decapsulate pk sk ct =
      decryptMessage ((chunks4 sk.secretData).map bytesToColorSecret)
        ((chunks4 ct.ciphertextData).map bytesToColorSecret) ∧
    (decapsulate pk sk ct).toPreciseValue ≤ 1 :=
  ⟨rfl, rfl, fromPrecise_bit _⟩

/-- Claim C8: the claim states that wrong-length inputs to the key and
ciphertext parse routines surface a typed failure.  The code's parse
routines are total and never fail: a public-key input shorter than
32 bytes (declared length 40 for this parameter set) yields the
default-constructed key object (with whatever indeterminate seed the
`std::array` held), and a ciphertext input of any length — here 5 bytes
against the declared 16 — is silently split in half into an object. -/
theorem deserialize_returns_object_on_bad_length :
    pkDeserialize (List.replicate 32 7) [] = ⟨List.replicate 32 7, []⟩ ∧
    ctDeserialize [1, 2, 3, 4, 5] = ⟨[1, 2], [3, 4, 5]⟩ ∧
    (∀ data : List ℕ, ctDeserialize data =
      ⟨data.take (data.length / 2), data.drop (data.length / 2)⟩) :=
  ⟨by decide, by decide, fun _ => rfl⟩

/-- Claim C9: the `ColorValue` precise-value round trip keeps exactly
bit positions 0–7, 16–23 and 32–39 of a 64-bit value and zeroes the
rest; consequently any coefficient in [0, q) with a live bit among
positions 8–15 — such as 256 — is not preserved by the representation
`ColorKEM` stores every ring coefficient in. -/
theorem colorValue_roundtrip_masks_bits :
    (∀ v : ℕ, v < 2 ^ 64 →
      (ColorValue.fromPreciseValue v).toPreciseValue = v &&& 0xFF00FF00FF) ∧
    (∀ c : ℕ, c < Q → c &&& 0xFF00 ≠ 0 →
      (ColorValue.fromPreciseValue c).toPreciseValue ≠ c) :=
  ⟨colorRoundtripMask, colorRoundtripNe⟩

/-- Witness for C9 at v = c = 256: the round trip yields
256 &&& 0xFF00FF00FF = 0 ≠ 256. -/
theorem colorValue_roundtrip_masks_bits_witness :
    (ColorValue.fromPreciseValue 256).toPreciseValue = 256 &&& 0xFF00FF00FF ∧
    (ColorValue.fromPreciseValue 256).toPreciseValue ≠ 256 :=
  ⟨colorValue_roundtrip_masks_bits.1 256 (by decide),
    colorValue_roundtrip_masks_bits.2 256 (by decide) (by decide)⟩

/-- Claim C10: for every public key (and every ambient randomness
stream), the ciphertext `encapsulate` returns carries in its
`shared_secret_hint` field the 4-byte big-endian encoding
(`encode_color_secret`) of the shared secret returned alongside it, and
`ColorCiphertext::serialize` appends that field verbatim, so the
serialized ciphertext ends with the shared secret's byte encoding. -/
theorem ciphertext_hint_carries_shared_secret (rand : ℕ → ℕ) (pos : ℕ)
    (pk : ColorPublicKey) :
    (encapsulate rand pos pk).1.sharedSecretHint =
      encodeColorSecret (encapsulate rand pos pk).2.1 ∧
    (encodeColorSecret (encapsulate rand pos pk).2.1).length = 4 ∧
    ctSerialize (encapsulate rand pos pk).1 =
      (encapsulate rand pos pk).1.ciphertextData ++
        encodeColorSecret (encapsulate rand pos pk).2.1 :=
  ⟨rfl, rfl, rfl⟩

/-- Claim C6: the claim (and the code's own comments) state a Montgomery
reduction contract: for |x| < q·2^15 the result a satisfies −q < a < q
and a ≡ x·R⁻¹ (mod q).  The code's Montgomery radix is R = 2^32
(`montgomery_r_ = 2^32 % q = 1353`) with R⁻¹ mod q = 1929.  At x = 1 the
utils.cpp reduction returns 0 ≢ 1929 (mod q), and the scalar engine's
reduction returns the `uint32_t` 4294967295: read unsigned it is both
out of (−q, q) and ≡ 1352 ≢ 1929, and read as the signed bit pattern −1
it is ≡ 3328 ≢ 1929 (mod q). -/
theorem montgomery_reduce_contract_violation :
    montgomeryR = 1353 ∧ montRInv = 1929 ∧ montgomeryR * 1929 % Q = 1 ∧
    utilsMontgomeryReduce 1 Q = 0 ∧ (0 : ℕ) % Q ≠ 1 * 1929 % Q ∧
    montgomeryReduce 1 = 4294967295 ∧ ¬(4294967295 < Q) ∧
    4294967295 % Q ≠ 1 * 1929 % Q ∧
    (4294967295 : ℕ) = u32 (4294967296 - 1) ∧ (Q - 1) % Q ≠ 1 * 1929 % Q := by
  decide

set_option maxRecDepth 200000 in
set_option maxHeartbeats 4000000 in
/-- Claim C1: honest-run correctness fails.  In the honest run
`honestKeypair` / `honestEncaps` (all ambient randomness draws 0 except
the first `rand()` draw of encapsulation, which is 1), the encapsulated
shared secret is the encoding of the bit 1, but decapsulation returns
the encoding of the bit 0: with zero noise the ciphertext carries
m·⌊q/4⌋ = 832, and the decoder's threshold is v > ⌊q/2⌋ = 1664, so even
a noiseless honest run decodes the bit 1 to 0. -/
theorem honest_run_decapsulation_mismatch :
    honestEncaps.2.1 = ColorValue.fromPreciseValue 1 ∧
    decapsulate honestKeypair.1 honestKeypair.2 honestEncaps.1 =
      ColorValue.fromPreciseValue 0 ∧
    decapsulate honestKeypair.1 honestKeypair.2 honestEncaps.1 ≠ honestEncaps.2.1 := by
  have h1 : honestEncaps.2.1 = ColorValue.fromPreciseValue 1 := by decide
  have h2 : decapsulate honestKeypair.1 honestKeypair.2 honestEncaps.1 =
      ColorValue.fromPreciseValue 0 := by decide
  refine ⟨h1, h2, ?_⟩
  rw [h1, h2]
  decide

set_option maxRecDepth 200000 in
set_option maxHeartbeats 4000000 in
/-- Claim C5: the claim's description of matrix-A derivation fails on
the code in three ways, exhibited at the zero seed and cell (0, 1):
the code's accepted-coefficient sequence (seeded `ρ ‖ i ‖ j` with
candidates `((b0<<4)|(b1>>4)) & 0xFFF`, `((b1<<8)|b2) & 0xFFF`) differs
from the claim's sequence (seeded `ρ ‖ j ‖ i` with candidates
`b0 | ((b1&0x0F)<<8)`, `(b1>>4) | (b2<<4)`); the stored entry is the
single `ColorValue` made from the last code coefficient (353), not a
per-coefficient store of n coefficients; and the entry does not match
the claim's polynomial (its coefficient 20 is 256, whose `ColorValue`
differs from the stored entry). -/
theorem matrix_entry_divergence :
    matrixCellCoeffs zeroSeed 0 1 ≠ claimCellCoeffs zeroSeed 0 1 ∧
    (claimCellCoeffs zeroSeed 0 1).length = N ∧
    generateMatrixEntry zeroSeed 0 1 =
      ColorValue.fromPreciseValue ((matrixCellCoeffs zeroSeed 0 1).getD (N - 1) 0) ∧
    (matrixCellCoeffs zeroSeed 0 1).getD (N - 1) 0 = 353 ∧
    (claimCellCoeffs zeroSeed 0 1).getD 20 0 = 256 ∧
    generateMatrixEntry zeroSeed 0 1 ≠
      ColorValue.fromPreciseValue ((claimCellCoeffs zeroSeed 0 1).getD 20 0) := by
  have hcode : (matrixCellCoeffs zeroSeed 0 1).getD (N - 1) 0 = 353 := by decide
  have hcode20 : (matrixCellCoeffs zeroSeed 0 1).getD 20 0 = 0 := by decide
  have hclaim : (claimCellCoeffs zeroSeed 0 1).getD 20 0 = 256 := by decide
  have hentry : generateMatrixEntry zeroSeed 0 1 = ColorValue.fromPreciseValue 353 := by
    decide
  refine ⟨fun heq => ?_, by decide, ?_, hcode, hclaim, ?_⟩
  · have ht : (matrixCellCoeffs zeroSeed 0 1).getD 20 0 =
        (claimCellCoeffs zeroSeed 0 1).getD 20 0 := congrArg (fun l => l.getD 20 0) heq
    rw [hcode20, hclaim] at ht
    exact absurd ht (by decide)
  · rw [hcode, hentry]
  · rw [hclaim, hentry]
    decide

set_option maxRecDepth 200000 in
set_option maxHeartbeats 4000000 in
/-- Claim C7: seed determinism fails.  `keygen` accepts no seed at all —
its outputs are a function of the ambient entropy streams, so runs whose
device draws differ give different key pairs — and two successive
`encapsulate` calls on the same public key (the second starting at the
`rand()` position 97 where the first left off) return different shared
secrets and different ciphertexts. -/
theorem encapsulate_repeat_nondeterminism :
    keygen rdZero rdZero ≠ keygen (fun _ => 1) rdZero ∧
    (encapsulate randOneThenZero 0 honestKeypair.1).2.2 = 97 ∧
    (encapsulate randOneThenZero 0 honestKeypair.1).2.1 ≠
      (encapsulate randOneThenZero 97 honestKeypair.1).2.1 ∧
    (encapsulate randOneThenZero 0 honestKeypair.1).1 ≠
      (encapsulate randOneThenZero 97 honestKeypair.1).1 := by
  refine ⟨?_, by decide, by decide, ?_⟩
  · intro h
    have hseed := congrArg (fun p => p.1.seed) h
    exact absurd hseed (by decide)
  · intro h
    have hhint := congrArg (fun c => c.sharedSecretHint) h
    exact absurd hhint (by decide)

set_option maxRecDepth 200000 in
set_option maxHeartbeats 4000000 in
/-- Claim C3: the NTT round-trip law fails.  For the in-range polynomial
1 (coefficients (1, 0, …, 0), length n, all < q), the scalar engine's
inverse NTT of its forward NTT is not the original polynomial: its
coefficient 0 evaluates to 4294967280.  (The engine's stage loops only
touch the first 2k entries per stage and its `montgomery_reduce` wraps
into huge `uint32_t` values, so the transform is not invertible.) -/
theorem ntt_roundtrip_counterexample :
    deltaPoly.length = N ∧ deltaPoly.all (fun c => c < Q) = true ∧
    (nttInverse (nttForward deltaPoly)).getD 0 0 = 4294967280 ∧
    nttInverse (nttForward deltaPoly) ≠ deltaPoly := by
  have hf1 : nttPass zetas 1 128 1 = 4485616088931123399088346538755497735980514171927748242063745344348511233025279067379084916379930178978977469527576538153065511533418687676815673453185360689876469991732316580836357308101372725140961087330891551293564955777705533740467330255554148032443464734788772685676023337993995380567528875905340122010181739209368039621772420288118535367391131443247952280164936105734831342198188310054494882158155732632815340885278771804525171892691463651099342685823093780911393831959614525221555465258104343585765573701421699992450890683073994799745533849189012326751514233553842558768674542558996605865248659490752441612892299179305614005798816177397800173266691687317304306963215354278734315510756296149923889584076280180977753887965040948161100866517887590880660592972203172006819019479337024357497016426668059599598753322491676468296741116618493352961171496144496437001492079233392341749392335064315991252062019588614668553227954144572059817379641080749570347691279702045111828901758299780381931570624981769552996078698819141342180146275429798142074979039166351312330158544344982025938766001065843052514989127198397174888845249048261950153149264727338945326214751136208246147431621453983494955362985684040686865624069809798689045274362335325061121 := by decide
  have hf2 : nttPass zetas 2 64 4485616088931123399088346538755497735980514171927748242063745344348511233025279067379084916379930178978977469527576538153065511533418687676815673453185360689876469991732316580836357308101372725140961087330891551293564955777705533740467330255554148032443464734788772685676023337993995380567528875905340122010181739209368039621772420288118535367391131443247952280164936105734831342198188310054494882158155732632815340885278771804525171892691463651099342685823093780911393831959614525221555465258104343585765573701421699992450890683073994799745533849189012326751514233553842558768674542558996605865248659490752441612892299179305614005798816177397800173266691687317304306963215354278734315510756296149923889584076280180977753887965040948161100866517887590880660592972203172006819019479337024357497016426668059599598753322491676468296741116618493352961171496144496437001492079233392341749392335064315991252062019588614668553227954144572059817379641080749570347691279702045111828901758299780381931570624981769552996078698819141342180146275429798142074979039166351312330158544344982025938766001065843052514989127198397174888845249048261950153149264727338945326214751136208246147431621453983494955362985684040686865624069809798689045274362335325061121 = 4485616088931123399088346538755497735980514171927748242063745344348511233025279067379084916379930178978977469527576538153065511533418687676815673453185360689876469991732316580836357308101372725140961087330891551293564955777705533740467330255554148032443464734788772685676023337993995380567528875905340122010181739209368039621772420288118535367391131443247952280164936105734831342198188310054494882158155732632815340885278771804525171892691463651099342685823093780911393831959614525221555465258104343585765573701421699992450890683073994799745533849189012326751514233553842558768674542558996605865248659490752441612892437979789762603012946254023297968607411015871946357154088448841522586697383887424635799902124298930447412101667679588204153382469258767369958422171844943584031029637396737838132006345315765728903870237283470975151560118705073894107007465486765316813800072161954110088704180775131990596859431755658904620885627508139760169401234783847776542122665863991912318219650381046254124239701452974072076865070963502435605471531415032207130819077111412445464243122070888553802227608598530506848383717889051332943858584312809135570402981319927180793881066353959138214021233166201672837171163106981154292325601125519704353890468908121456641 := by decide
  have hf3 : nttPass zetas 4 32 4485616088931123399088346538755497735980514171927748242063745344348511233025279067379084916379930178978977469527576538153065511533418687676815673453185360689876469991732316580836357308101372725140961087330891551293564955777705533740467330255554148032443464734788772685676023337993995380567528875905340122010181739209368039621772420288118535367391131443247952280164936105734831342198188310054494882158155732632815340885278771804525171892691463651099342685823093780911393831959614525221555465258104343585765573701421699992450890683073994799745533849189012326751514233553842558768674542558996605865248659490752441612892437979789762603012946254023297968607411015871946357154088448841522586697383887424635799902124298930447412101667679588204153382469258767369958422171844943584031029637396737838132006345315765728903870237283470975151560118705073894107007465486765316813800072161954110088704180775131990596859431755658904620885627508139760169401234783847776542122665863991912318219650381046254124239701452974072076865070963502435605471531415032207130819077111412445464243122070888553802227608598530506848383717889051332943858584312809135570402981319927180793881066353959138214021233166201672837171163106981154292325601125519704353890468908121456641 = 4485616088931123399088346538755497735980514171927748242063745344348511233025279067379084916379930178978977469527576538153065511533418687676815673453185360689876469991732316580836357308101372725140961087330891551293564955777705533740467330255554148032443464734788772685676023337993995380567528875905340122010181739209368039621772420288118535367391131443247952280164936105734831342198188310054494882158155732632815340885278771804525171892691463651099342685823093780911393831959614525221555465258104343585765573701421699992450890683073994799745533849189012326751514233553842558768674542558996605865248659490752441612892437979789762603012946254023297968607411015871946357154088448841522586697383887424635799902124298930447412101667679588204153382469258767369958422171844943584031029637396737838132006345315765728903870237283470975151560118705073894107007465486765316813800072161954110088704180775131990596859431755658904620885628280243082237368349949408127293382313447521727180230692556782325165897280390438489822848725832491973477716849795755400408043816937750975782354263156909876102428883925891349647419739960774592859348127127375262722240027507256123605946748272164582786767094965217684683382708796464985384289151271625499761172778000433807361 := by decide
  have hf4 : nttPass zetas 8 16 4485616088931123399088346538755497735980514171927748242063745344348511233025279067379084916379930178978977469527576538153065511533418687676815673453185360689876469991732316580836357308101372725140961087330891551293564955777705533740467330255554148032443464734788772685676023337993995380567528875905340122010181739209368039621772420288118535367391131443247952280164936105734831342198188310054494882158155732632815340885278771804525171892691463651099342685823093780911393831959614525221555465258104343585765573701421699992450890683073994799745533849189012326751514233553842558768674542558996605865248659490752441612892437979789762603012946254023297968607411015871946357154088448841522586697383887424635799902124298930447412101667679588204153382469258767369958422171844943584031029637396737838132006345315765728903870237283470975151560118705073894107007465486765316813800072161954110088704180775131990596859431755658904620885628280243082237368349949408127293382313447521727180230692556782325165897280390438489822848725832491973477716849795755400408043816937750975782354263156909876102428883925891349647419739960774592859348127127375262722240027507256123605946748272164582786767094965217684683382708796464985384289151271625499761172778000433807361 = 4485616088931123399088346538755497735980514171927748242063745344348511233025279067379084916379930178978977469527576538153065511533418687676815673453185360689876469991732316580836357308101372725140961087330891551293564955777705533740467330255554148032443464734788772685676023337993995380567528875905340122010181739209368039621772420288118535367391131443247952280164936105734831342198188310054494882158155732632815340885278771804525171892691463651099342685823093780911393831959614525221555465258104343585765573701421699992450890683073994799745533849189012326751514233553842558768674542558996605865248659490752441612892437979789762603012946254023297968607411015871946357154088448841522586697383887424635799902124298930447412101667679588204153382469258767369958422171844943584031029637396737838132006345315765728903870237283470975151560118705073894107007465486765316813800072161954110088704180775131990596859431755658904620885628280243082237368349949408127293382313447521727180230692556782325165897280390438489822848725832491973477716849795755400408043816937750975782354263156909876160014980482636455417452035759581135654674404114160429805337305458964083194820028982174756592095023638569768911801744395855565138945724424832862185541418448773447681 := by decide
  have hf5 : nttPass zetas 16 8 4485616088931123399088346538755497735980514171927748242063745344348511233025279067379084916379930178978977469527576538153065511533418687676815673453185360689876469991732316580836357308101372725140961087330891551293564955777705533740467330255554148032443464734788772685676023337993995380567528875905340122010181739209368039621772420288118535367391131443247952280164936105734831342198188310054494882158155732632815340885278771804525171892691463651099342685823093780911393831959614525221555465258104343585765573701421699992450890683073994799745533849189012326751514233553842558768674542558996605865248659490752441612892437979789762603012946254023297968607411015871946357154088448841522586697383887424635799902124298930447412101667679588204153382469258767369958422171844943584031029637396737838132006345315765728903870237283470975151560118705073894107007465486765316813800072161954110088704180775131990596859431755658904620885628280243082237368349949408127293382313447521727180230692556782325165897280390438489822848725832491973477716849795755400408043816937750975782354263156909876160014980482636455417452035759581135654674404114160429805337305458964083194820028982174756592095023638569768911801744395855565138945724424832862185541418448773447681 = 4485616088931123399088346538755497735980514171927748242063745344348511233025279067379084916379930178978977469527576538153065511533418687676815673453185360689876469991732316580836357308101372725140961087330891551293564955777705533740467330255554148032443464734788772685676023337993995380567528875905340122010181739209368039621772420288118535367391131443247952280164936105734831342198188310054494882158155732632815340885278771804525171892691463651099342685823093780911393831959614525221555465258104343585765573701421699992450890683073994799745533849189012326751514233553842558768674542558996605865248659490752441612892437979789762603012946254023297968607411015871946357154088448841522586697383887424635799902124298930447412101667679588204153382469258767369958422171844943584031029637396737838132006345315765728903870237283470975151560118705073894107007465486765316813800072161954110088704180775131990596859431755658904620885628280243082237368349949408127293382313447521727180230692556782325165897280390438489822848725832491973477716849795755400408043816937750975782354263156909876160014980482636455417452035759581135654674404114160429805337305458964083194820526305411050586647941704622492161656836164098509216678499248245715887454423069019340801 := by decide
  have hf6 : nttPass zetas 32 4 4485616088931123399088346538755497735980514171927748242063745344348511233025279067379084916379930178978977469527576538153065511533418687676815673453185360689876469991732316580836357308101372725140961087330891551293564955777705533740467330255554148032443464734788772685676023337993995380567528875905340122010181739209368039621772420288118535367391131443247952280164936105734831342198188310054494882158155732632815340885278771804525171892691463651099342685823093780911393831959614525221555465258104343585765573701421699992450890683073994799745533849189012326751514233553842558768674542558996605865248659490752441612892437979789762603012946254023297968607411015871946357154088448841522586697383887424635799902124298930447412101667679588204153382469258767369958422171844943584031029637396737838132006345315765728903870237283470975151560118705073894107007465486765316813800072161954110088704180775131990596859431755658904620885628280243082237368349949408127293382313447521727180230692556782325165897280390438489822848725832491973477716849795755400408043816937750975782354263156909876160014980482636455417452035759581135654674404114160429805337305458964083194820526305411050586647941704622492161656836164098509216678499248245715887454423069019340801 = 4485616088931123399088346538755497735980514171927748242063745344348511233025279067379084916379930178978977469527576538153065511533418687676815673453185360689876469991732316580836357308101372725140961087330891551293564955777705533740467330255554148032443464734788772685676023337993995380567528875905340122010181739209368039621772420288118535367391131443247952280164936105734831342198188310054494882158155732632815340885278771804525171892691463651099342685823093780911393831959614525221555465258104343585765573701421699992450890683073994799745533849189012326751514233553842558768674542558996605865248659490752441612892437979789762603012946254023297968607411015871946357154088448841522586697383887424635799902124298930447412101667679588204153382469258767369958422171844943584031029637396737838132006345315765728903870237283470975151560118705073894107007465486765316813800072161954110088704180775131990596859431755658904620885628280243082237368349949408127293382313447521727180230692556782325165897280390438489822848725832491973477716849795755400408043816937750975782354263156909876160014980482636455417452035759581135654674404114160429805337305458964083194820526305411050586647941704622492161656837625600146207299050530992085140362835293183672321 := by decide
  have hf7 : nttPass zetas 64 2 4485616088931123399088346538755497735980514171927748242063745344348511233025279067379084916379930178978977469527576538153065511533418687676815673453185360689876469991732316580836357308101372725140961087330891551293564955777705533740467330255554148032443464734788772685676023337993995380567528875905340122010181739209368039621772420288118535367391131443247952280164936105734831342198188310054494882158155732632815340885278771804525171892691463651099342685823093780911393831959614525221555465258104343585765573701421699992450890683073994799745533849189012326751514233553842558768674542558996605865248659490752441612892437979789762603012946254023297968607411015871946357154088448841522586697383887424635799902124298930447412101667679588204153382469258767369958422171844943584031029637396737838132006345315765728903870237283470975151560118705073894107007465486765316813800072161954110088704180775131990596859431755658904620885628280243082237368349949408127293382313447521727180230692556782325165897280390438489822848725832491973477716849795755400408043816937750975782354263156909876160014980482636455417452035759581135654674404114160429805337305458964083194820526305411050586647941704622492161656837625600146207299050530992085140362835293183672321 = 4485616088931123399088346538755497735980514171927748242063745344348511233025279067379084916379930178978977469527576538153065511533418687676815673453185360689876469991732316580836357308101372725140961087330891551293564955777705533740467330255554148032443464734788772685676023337993995380567528875905340122010181739209368039621772420288118535367391131443247952280164936105734831342198188310054494882158155732632815340885278771804525171892691463651099342685823093780911393831959614525221555465258104343585765573701421699992450890683073994799745533849189012326751514233553842558768674542558996605865248659490752441612892437979789762603012946254023297968607411015871946357154088448841522586697383887424635799902124298930447412101667679588204153382469258767369958422171844943584031029637396737838132006345315765728903870237283470975151560118705073894107007465486765316813800072161954110088704180775131990596859431755658904620885628280243082237368349949408127293382313447521727180230692556782325165897280390438489822848725832491973477716849795755400408043816937750975782354263156909876160014980482636455417452035759581135654674404114160429805337305458964083194820526305411050586647941704622492161656837625600146207299050610220247636180428813018071041 := by decide
  have hf8 : nttPass zetas 128 1 4485616088931123399088346538755497735980514171927748242063745344348511233025279067379084916379930178978977469527576538153065511533418687676815673453185360689876469991732316580836357308101372725140961087330891551293564955777705533740467330255554148032443464734788772685676023337993995380567528875905340122010181739209368039621772420288118535367391131443247952280164936105734831342198188310054494882158155732632815340885278771804525171892691463651099342685823093780911393831959614525221555465258104343585765573701421699992450890683073994799745533849189012326751514233553842558768674542558996605865248659490752441612892437979789762603012946254023297968607411015871946357154088448841522586697383887424635799902124298930447412101667679588204153382469258767369958422171844943584031029637396737838132006345315765728903870237283470975151560118705073894107007465486765316813800072161954110088704180775131990596859431755658904620885628280243082237368349949408127293382313447521727180230692556782325165897280390438489822848725832491973477716849795755400408043816937750975782354263156909876160014980482636455417452035759581135654674404114160429805337305458964083194820526305411050586647941704622492161656837625600146207299050610220247636180428813018071041 = 4485616088931123399088346538755497735980514171927748242063745344348511233025279067379084916379930178978977469527576538153065511533418687676815673453185360689876469991732316580836357308101372725140961087330891551293564955777705533740467330255554148032443464734788772685676023337993995380567528875905340122010181739209368039621772420288118535367391131443247952280164936105734831342198188310054494882158155732632815340885278771804525171892691463651099342685823093780911393831959614525221555465258104343585765573701421699992450890683073994799745533849189012326751514233553842558768674542558996605865248659490752441612892437979789762603012946254023297968607411015871946357154088448841522586697383887424635799902124298930447412101667679588204153382469258767369958422171844943584031029637396737838132006345315765728903870237283470975151560118705073894107007465486765316813800072161954110088704180775131990596859431755658904620885628280243082237368349949408127293382313447521727180230692556782325165897280390438489822848725832491973477716849795755400408043816937750975782354263156909876160014980482636455417452035759581135654674404114160429805337305458964083194820526305411050586647941704622492161656837625600146207299050610220247654627172882432655361 := by decide
  have hstF : nttForwardStages 8 1 128 1 = 4485616088931123399088346538755497735980514171927748242063745344348511233025279067379084916379930178978977469527576538153065511533418687676815673453185360689876469991732316580836357308101372725140961087330891551293564955777705533740467330255554148032443464734788772685676023337993995380567528875905340122010181739209368039621772420288118535367391131443247952280164936105734831342198188310054494882158155732632815340885278771804525171892691463651099342685823093780911393831959614525221555465258104343585765573701421699992450890683073994799745533849189012326751514233553842558768674542558996605865248659490752441612892437979789762603012946254023297968607411015871946357154088448841522586697383887424635799902124298930447412101667679588204153382469258767369958422171844943584031029637396737838132006345315765728903870237283470975151560118705073894107007465486765316813800072161954110088704180775131990596859431755658904620885628280243082237368349949408127293382313447521727180230692556782325165897280390438489822848725832491973477716849795755400408043816937750975782354263156909876160014980482636455417452035759581135654674404114160429805337305458964083194820526305411050586647941704622492161656837625600146207299050610220247654627172882432655361 := by
    rw [show nttForwardStages 8 1 128 1 = nttForwardStages 7 2 64 (nttPass zetas 1 128 1) from rfl,
        hf1,
        show nttForwardStages 7 2 64 4485616088931123399088346538755497735980514171927748242063745344348511233025279067379084916379930178978977469527576538153065511533418687676815673453185360689876469991732316580836357308101372725140961087330891551293564955777705533740467330255554148032443464734788772685676023337993995380567528875905340122010181739209368039621772420288118535367391131443247952280164936105734831342198188310054494882158155732632815340885278771804525171892691463651099342685823093780911393831959614525221555465258104343585765573701421699992450890683073994799745533849189012326751514233553842558768674542558996605865248659490752441612892299179305614005798816177397800173266691687317304306963215354278734315510756296149923889584076280180977753887965040948161100866517887590880660592972203172006819019479337024357497016426668059599598753322491676468296741116618493352961171496144496437001492079233392341749392335064315991252062019588614668553227954144572059817379641080749570347691279702045111828901758299780381931570624981769552996078698819141342180146275429798142074979039166351312330158544344982025938766001065843052514989127198397174888845249048261950153149264727338945326214751136208246147431621453983494955362985684040686865624069809798689045274362335325061121 = nttForwardStages 6 4 32 (nttPass zetas 2 64 4485616088931123399088346538755497735980514171927748242063745344348511233025279067379084916379930178978977469527576538153065511533418687676815673453185360689876469991732316580836357308101372725140961087330891551293564955777705533740467330255554148032443464734788772685676023337993995380567528875905340122010181739209368039621772420288118535367391131443247952280164936105734831342198188310054494882158155732632815340885278771804525171892691463651099342685823093780911393831959614525221555465258104343585765573701421699992450890683073994799745533849189012326751514233553842558768674542558996605865248659490752441612892299179305614005798816177397800173266691687317304306963215354278734315510756296149923889584076280180977753887965040948161100866517887590880660592972203172006819019479337024357497016426668059599598753322491676468296741116618493352961171496144496437001492079233392341749392335064315991252062019588614668553227954144572059817379641080749570347691279702045111828901758299780381931570624981769552996078698819141342180146275429798142074979039166351312330158544344982025938766001065843052514989127198397174888845249048261950153149264727338945326214751136208246147431621453983494955362985684040686865624069809798689045274362335325061121) from rfl,
        hf2,
        show nttForwardStages 6 4 32 4485616088931123399088346538755497735980514171927748242063745344348511233025279067379084916379930178978977469527576538153065511533418687676815673453185360689876469991732316580836357308101372725140961087330891551293564955777705533740467330255554148032443464734788772685676023337993995380567528875905340122010181739209368039621772420288118535367391131443247952280164936105734831342198188310054494882158155732632815340885278771804525171892691463651099342685823093780911393831959614525221555465258104343585765573701421699992450890683073994799745533849189012326751514233553842558768674542558996605865248659490752441612892437979789762603012946254023297968607411015871946357154088448841522586697383887424635799902124298930447412101667679588204153382469258767369958422171844943584031029637396737838132006345315765728903870237283470975151560118705073894107007465486765316813800072161954110088704180775131990596859431755658904620885627508139760169401234783847776542122665863991912318219650381046254124239701452974072076865070963502435605471531415032207130819077111412445464243122070888553802227608598530506848383717889051332943858584312809135570402981319927180793881066353959138214021233166201672837171163106981154292325601125519704353890468908121456641 = nttForwardStages 5 8 16 (nttPass zetas 4 32 4485616088931123399088346538755497735980514171927748242063745344348511233025279067379084916379930178978977469527576538153065511533418687676815673453185360689876469991732316580836357308101372725140961087330891551293564955777705533740467330255554148032443464734788772685676023337993995380567528875905340122010181739209368039621772420288118535367391131443247952280164936105734831342198188310054494882158155732632815340885278771804525171892691463651099342685823093780911393831959614525221555465258104343585765573701421699992450890683073994799745533849189012326751514233553842558768674542558996605865248659490752441612892437979789762603012946254023297968607411015871946357154088448841522586697383887424635799902124298930447412101667679588204153382469258767369958422171844943584031029637396737838132006345315765728903870237283470975151560118705073894107007465486765316813800072161954110088704180775131990596859431755658904620885627508139760169401234783847776542122665863991912318219650381046254124239701452974072076865070963502435605471531415032207130819077111412445464243122070888553802227608598530506848383717889051332943858584312809135570402981319927180793881066353959138214021233166201672837171163106981154292325601125519704353890468908121456641) from rfl,
        hf3,
        show nttForwardStages 5 8 16 4485616088931123399088346538755497735980514171927748242063745344348511233025279067379084916379930178978977469527576538153065511533418687676815673453185360689876469991732316580836357308101372725140961087330891551293564955777705533740467330255554148032443464734788772685676023337993995380567528875905340122010181739209368039621772420288118535367391131443247952280164936105734831342198188310054494882158155732632815340885278771804525171892691463651099342685823093780911393831959614525221555465258104343585765573701421699992450890683073994799745533849189012326751514233553842558768674542558996605865248659490752441612892437979789762603012946254023297968607411015871946357154088448841522586697383887424635799902124298930447412101667679588204153382469258767369958422171844943584031029637396737838132006345315765728903870237283470975151560118705073894107007465486765316813800072161954110088704180775131990596859431755658904620885628280243082237368349949408127293382313447521727180230692556782325165897280390438489822848725832491973477716849795755400408043816937750975782354263156909876102428883925891349647419739960774592859348127127375262722240027507256123605946748272164582786767094965217684683382708796464985384289151271625499761172778000433807361 = nttForwardStages 4 16 8 (nttPass zetas 8 16 4485616088931123399088346538755497735980514171927748242063745344348511233025279067379084916379930178978977469527576538153065511533418687676815673453185360689876469991732316580836357308101372725140961087330891551293564955777705533740467330255554148032443464734788772685676023337993995380567528875905340122010181739209368039621772420288118535367391131443247952280164936105734831342198188310054494882158155732632815340885278771804525171892691463651099342685823093780911393831959614525221555465258104343585765573701421699992450890683073994799745533849189012326751514233553842558768674542558996605865248659490752441612892437979789762603012946254023297968607411015871946357154088448841522586697383887424635799902124298930447412101667679588204153382469258767369958422171844943584031029637396737838132006345315765728903870237283470975151560118705073894107007465486765316813800072161954110088704180775131990596859431755658904620885628280243082237368349949408127293382313447521727180230692556782325165897280390438489822848725832491973477716849795755400408043816937750975782354263156909876102428883925891349647419739960774592859348127127375262722240027507256123605946748272164582786767094965217684683382708796464985384289151271625499761172778000433807361) from rfl,
        hf4,
        show nttForwardStages 4 16 8 4485616088931123399088346538755497735980514171927748242063745344348511233025279067379084916379930178978977469527576538153065511533418687676815673453185360689876469991732316580836357308101372725140961087330891551293564955777705533740467330255554148032443464734788772685676023337993995380567528875905340122010181739209368039621772420288118535367391131443247952280164936105734831342198188310054494882158155732632815340885278771804525171892691463651099342685823093780911393831959614525221555465258104343585765573701421699992450890683073994799745533849189012326751514233553842558768674542558996605865248659490752441612892437979789762603012946254023297968607411015871946357154088448841522586697383887424635799902124298930447412101667679588204153382469258767369958422171844943584031029637396737838132006345315765728903870237283470975151560118705073894107007465486765316813800072161954110088704180775131990596859431755658904620885628280243082237368349949408127293382313447521727180230692556782325165897280390438489822848725832491973477716849795755400408043816937750975782354263156909876160014980482636455417452035759581135654674404114160429805337305458964083194820028982174756592095023638569768911801744395855565138945724424832862185541418448773447681 = nttForwardStages 3 32 4 (nttPass zetas 16 8 4485616088931123399088346538755497735980514171927748242063745344348511233025279067379084916379930178978977469527576538153065511533418687676815673453185360689876469991732316580836357308101372725140961087330891551293564955777705533740467330255554148032443464734788772685676023337993995380567528875905340122010181739209368039621772420288118535367391131443247952280164936105734831342198188310054494882158155732632815340885278771804525171892691463651099342685823093780911393831959614525221555465258104343585765573701421699992450890683073994799745533849189012326751514233553842558768674542558996605865248659490752441612892437979789762603012946254023297968607411015871946357154088448841522586697383887424635799902124298930447412101667679588204153382469258767369958422171844943584031029637396737838132006345315765728903870237283470975151560118705073894107007465486765316813800072161954110088704180775131990596859431755658904620885628280243082237368349949408127293382313447521727180230692556782325165897280390438489822848725832491973477716849795755400408043816937750975782354263156909876160014980482636455417452035759581135654674404114160429805337305458964083194820028982174756592095023638569768911801744395855565138945724424832862185541418448773447681) from rfl,
        hf5,
        show nttForwardStages 3 32 4 4485616088931123399088346538755497735980514171927748242063745344348511233025279067379084916379930178978977469527576538153065511533418687676815673453185360689876469991732316580836357308101372725140961087330891551293564955777705533740467330255554148032443464734788772685676023337993995380567528875905340122010181739209368039621772420288118535367391131443247952280164936105734831342198188310054494882158155732632815340885278771804525171892691463651099342685823093780911393831959614525221555465258104343585765573701421699992450890683073994799745533849189012326751514233553842558768674542558996605865248659490752441612892437979789762603012946254023297968607411015871946357154088448841522586697383887424635799902124298930447412101667679588204153382469258767369958422171844943584031029637396737838132006345315765728903870237283470975151560118705073894107007465486765316813800072161954110088704180775131990596859431755658904620885628280243082237368349949408127293382313447521727180230692556782325165897280390438489822848725832491973477716849795755400408043816937750975782354263156909876160014980482636455417452035759581135654674404114160429805337305458964083194820526305411050586647941704622492161656836164098509216678499248245715887454423069019340801 = nttForwardStages 2 64 2 (nttPass zetas 32 4 4485616088931123399088346538755497735980514171927748242063745344348511233025279067379084916379930178978977469527576538153065511533418687676815673453185360689876469991732316580836357308101372725140961087330891551293564955777705533740467330255554148032443464734788772685676023337993995380567528875905340122010181739209368039621772420288118535367391131443247952280164936105734831342198188310054494882158155732632815340885278771804525171892691463651099342685823093780911393831959614525221555465258104343585765573701421699992450890683073994799745533849189012326751514233553842558768674542558996605865248659490752441612892437979789762603012946254023297968607411015871946357154088448841522586697383887424635799902124298930447412101667679588204153382469258767369958422171844943584031029637396737838132006345315765728903870237283470975151560118705073894107007465486765316813800072161954110088704180775131990596859431755658904620885628280243082237368349949408127293382313447521727180230692556782325165897280390438489822848725832491973477716849795755400408043816937750975782354263156909876160014980482636455417452035759581135654674404114160429805337305458964083194820526305411050586647941704622492161656836164098509216678499248245715887454423069019340801) from rfl,
        hf6,
        show nttForwardStages 2 64 2 4485616088931123399088346538755497735980514171927748242063745344348511233025279067379084916379930178978977469527576538153065511533418687676815673453185360689876469991732316580836357308101372725140961087330891551293564955777705533740467330255554148032443464734788772685676023337993995380567528875905340122010181739209368039621772420288118535367391131443247952280164936105734831342198188310054494882158155732632815340885278771804525171892691463651099342685823093780911393831959614525221555465258104343585765573701421699992450890683073994799745533849189012326751514233553842558768674542558996605865248659490752441612892437979789762603012946254023297968607411015871946357154088448841522586697383887424635799902124298930447412101667679588204153382469258767369958422171844943584031029637396737838132006345315765728903870237283470975151560118705073894107007465486765316813800072161954110088704180775131990596859431755658904620885628280243082237368349949408127293382313447521727180230692556782325165897280390438489822848725832491973477716849795755400408043816937750975782354263156909876160014980482636455417452035759581135654674404114160429805337305458964083194820526305411050586647941704622492161656837625600146207299050530992085140362835293183672321 = nttForwardStages 1 128 1 (nttPass zetas 64 2 4485616088931123399088346538755497735980514171927748242063745344348511233025279067379084916379930178978977469527576538153065511533418687676815673453185360689876469991732316580836357308101372725140961087330891551293564955777705533740467330255554148032443464734788772685676023337993995380567528875905340122010181739209368039621772420288118535367391131443247952280164936105734831342198188310054494882158155732632815340885278771804525171892691463651099342685823093780911393831959614525221555465258104343585765573701421699992450890683073994799745533849189012326751514233553842558768674542558996605865248659490752441612892437979789762603012946254023297968607411015871946357154088448841522586697383887424635799902124298930447412101667679588204153382469258767369958422171844943584031029637396737838132006345315765728903870237283470975151560118705073894107007465486765316813800072161954110088704180775131990596859431755658904620885628280243082237368349949408127293382313447521727180230692556782325165897280390438489822848725832491973477716849795755400408043816937750975782354263156909876160014980482636455417452035759581135654674404114160429805337305458964083194820526305411050586647941704622492161656837625600146207299050530992085140362835293183672321) from rfl,
        hf7,
        show nttForwardStages 1 128 1 4485616088931123399088346538755497735980514171927748242063745344348511233025279067379084916379930178978977469527576538153065511533418687676815673453185360689876469991732316580836357308101372725140961087330891551293564955777705533740467330255554148032443464734788772685676023337993995380567528875905340122010181739209368039621772420288118535367391131443247952280164936105734831342198188310054494882158155732632815340885278771804525171892691463651099342685823093780911393831959614525221555465258104343585765573701421699992450890683073994799745533849189012326751514233553842558768674542558996605865248659490752441612892437979789762603012946254023297968607411015871946357154088448841522586697383887424635799902124298930447412101667679588204153382469258767369958422171844943584031029637396737838132006345315765728903870237283470975151560118705073894107007465486765316813800072161954110088704180775131990596859431755658904620885628280243082237368349949408127293382313447521727180230692556782325165897280390438489822848725832491973477716849795755400408043816937750975782354263156909876160014980482636455417452035759581135654674404114160429805337305458964083194820526305411050586647941704622492161656837625600146207299050610220247636180428813018071041 = nttForwardStages 0 256 0 (nttPass zetas 128 1 4485616088931123399088346538755497735980514171927748242063745344348511233025279067379084916379930178978977469527576538153065511533418687676815673453185360689876469991732316580836357308101372725140961087330891551293564955777705533740467330255554148032443464734788772685676023337993995380567528875905340122010181739209368039621772420288118535367391131443247952280164936105734831342198188310054494882158155732632815340885278771804525171892691463651099342685823093780911393831959614525221555465258104343585765573701421699992450890683073994799745533849189012326751514233553842558768674542558996605865248659490752441612892437979789762603012946254023297968607411015871946357154088448841522586697383887424635799902124298930447412101667679588204153382469258767369958422171844943584031029637396737838132006345315765728903870237283470975151560118705073894107007465486765316813800072161954110088704180775131990596859431755658904620885628280243082237368349949408127293382313447521727180230692556782325165897280390438489822848725832491973477716849795755400408043816937750975782354263156909876160014980482636455417452035759581135654674404114160429805337305458964083194820526305411050586647941704622492161656837625600146207299050610220247636180428813018071041) from rfl,
        hf8,
        show nttForwardStages 0 256 0 4485616088931123399088346538755497735980514171927748242063745344348511233025279067379084916379930178978977469527576538153065511533418687676815673453185360689876469991732316580836357308101372725140961087330891551293564955777705533740467330255554148032443464734788772685676023337993995380567528875905340122010181739209368039621772420288118535367391131443247952280164936105734831342198188310054494882158155732632815340885278771804525171892691463651099342685823093780911393831959614525221555465258104343585765573701421699992450890683073994799745533849189012326751514233553842558768674542558996605865248659490752441612892437979789762603012946254023297968607411015871946357154088448841522586697383887424635799902124298930447412101667679588204153382469258767369958422171844943584031029637396737838132006345315765728903870237283470975151560118705073894107007465486765316813800072161954110088704180775131990596859431755658904620885628280243082237368349949408127293382313447521727180230692556782325165897280390438489822848725832491973477716849795755400408043816937750975782354263156909876160014980482636455417452035759581135654674404114160429805337305458964083194820526305411050586647941704622492161656837625600146207299050610220247654627172882432655361 = 4485616088931123399088346538755497735980514171927748242063745344348511233025279067379084916379930178978977469527576538153065511533418687676815673453185360689876469991732316580836357308101372725140961087330891551293564955777705533740467330255554148032443464734788772685676023337993995380567528875905340122010181739209368039621772420288118535367391131443247952280164936105734831342198188310054494882158155732632815340885278771804525171892691463651099342685823093780911393831959614525221555465258104343585765573701421699992450890683073994799745533849189012326751514233553842558768674542558996605865248659490752441612892437979789762603012946254023297968607411015871946357154088448841522586697383887424635799902124298930447412101667679588204153382469258767369958422171844943584031029637396737838132006345315765728903870237283470975151560118705073894107007465486765316813800072161954110088704180775131990596859431755658904620885628280243082237368349949408127293382313447521727180230692556782325165897280390438489822848725832491973477716849795755400408043816937750975782354263156909876160014980482636455417452035759581135654674404114160429805337305458964083194820526305411050586647941704622492161656837625600146207299050610220247654627172882432655361 from rfl]
  have hfwd : nttForward deltaPoly = unpackPoly 4485616088931123399088346538755497735980514171927748242063745344348511233025279067379084916379930178978977469527576538153065511533418687676815673453185360689876469991732316580836357308101372725140961087330891551293564955777705533740467330255554148032443464734788772685676023337993995380567528875905340122010181739209368039621772420288118535367391131443247952280164936105734831342198188310054494882158155732632815340885278771804525171892691463651099342685823093780911393831959614525221555465258104343585765573701421699992450890683073994799745533849189012326751514233553842558768674542558996605865248659490752441612892437979789762603012946254023297968607411015871946357154088448841522586697383887424635799902124298930447412101667679588204153382469258767369958422171844943584031029637396737838132006345315765728903870237283470975151560118705073894107007465486765316813800072161954110088704180775131990596859431755658904620885628280243082237368349949408127293382313447521727180230692556782325165897280390438489822848725832491973477716849795755400408043816937750975782354263156909876160014980482636455417452035759581135654674404114160429805337305458964083194820526305411050586647941704622492161656837625600146207299050610220247654627172882432655361 := by
    rw [show nttForward deltaPoly = unpackPoly (nttForwardStages 8 1 (N / 2) (packPoly deltaPoly)) from rfl,
        show (N / 2 : ℕ) = 128 from rfl,
        show packPoly deltaPoly = 1 from by decide,
        hstF]
  have hpk : packPoly (unpackPoly 4485616088931123399088346538755497735980514171927748242063745344348511233025279067379084916379930178978977469527576538153065511533418687676815673453185360689876469991732316580836357308101372725140961087330891551293564955777705533740467330255554148032443464734788772685676023337993995380567528875905340122010181739209368039621772420288118535367391131443247952280164936105734831342198188310054494882158155732632815340885278771804525171892691463651099342685823093780911393831959614525221555465258104343585765573701421699992450890683073994799745533849189012326751514233553842558768674542558996605865248659490752441612892437979789762603012946254023297968607411015871946357154088448841522586697383887424635799902124298930447412101667679588204153382469258767369958422171844943584031029637396737838132006345315765728903870237283470975151560118705073894107007465486765316813800072161954110088704180775131990596859431755658904620885628280243082237368349949408127293382313447521727180230692556782325165897280390438489822848725832491973477716849795755400408043816937750975782354263156909876160014980482636455417452035759581135654674404114160429805337305458964083194820526305411050586647941704622492161656837625600146207299050610220247654627172882432655361) = 4485616088931123399088346538755497735980514171927748242063745344348511233025279067379084916379930178978977469527576538153065511533418687676815673453185360689876469991732316580836357308101372725140961087330891551293564955777705533740467330255554148032443464734788772685676023337993995380567528875905340122010181739209368039621772420288118535367391131443247952280164936105734831342198188310054494882158155732632815340885278771804525171892691463651099342685823093780911393831959614525221555465258104343585765573701421699992450890683073994799745533849189012326751514233553842558768674542558996605865248659490752441612892437979789762603012946254023297968607411015871946357154088448841522586697383887424635799902124298930447412101667679588204153382469258767369958422171844943584031029637396737838132006345315765728903870237283470975151560118705073894107007465486765316813800072161954110088704180775131990596859431755658904620885628280243082237368349949408127293382313447521727180230692556782325165897280390438489822848725832491973477716849795755400408043816937750975782354263156909876160014980482636455417452035759581135654674404114160429805337305458964083194820526305411050586647941704622492161656837625600146207299050610220247654627172882432655361 := by decide
  have hi1 : nttPass zetasInv 128 1 4485616088931123399088346538755497735980514171927748242063745344348511233025279067379084916379930178978977469527576538153065511533418687676815673453185360689876469991732316580836357308101372725140961087330891551293564955777705533740467330255554148032443464734788772685676023337993995380567528875905340122010181739209368039621772420288118535367391131443247952280164936105734831342198188310054494882158155732632815340885278771804525171892691463651099342685823093780911393831959614525221555465258104343585765573701421699992450890683073994799745533849189012326751514233553842558768674542558996605865248659490752441612892437979789762603012946254023297968607411015871946357154088448841522586697383887424635799902124298930447412101667679588204153382469258767369958422171844943584031029637396737838132006345315765728903870237283470975151560118705073894107007465486765316813800072161954110088704180775131990596859431755658904620885628280243082237368349949408127293382313447521727180230692556782325165897280390438489822848725832491973477716849795755400408043816937750975782354263156909876160014980482636455417452035759581135654674404114160429805337305458964083194820526305411050586647941704622492161656837625600146207299050610220247654627172882432655361 = 4485616088931123399088346538755497735980514171927748242063745344348511233025279067379084916379930178978977469527576538153065511533418687676815673453185360689876469991732316580836357308101372725140961087330891551293564955777705533740467330255554148032443464734788772685676023337993995380567528875905340122010181739209368039621772420288118535367391131443247952280164936105734831342198188310054494882158155732632815340885278771804525171892691463651099342685823093780911393831959614525221555465258104343585765573701421699992450890683073994799745533849189012326751514233553842558768674542558996605865248659490752441612892437979789762603012946254023297968607411015871946357154088448841522586697383887424635799902124298930447412101667679588204153382469258767369958422171844943584031029637396737838132006345315765728903870237283470975151560118705073894107007465486765316813800072161954110088704180775131990596859431755658904620885628280243082237368349949408127293382313447521727180230692556782325165897280390438489822848725832491973477716849795755400408043816937750975782354263156909876160014980482636455417452035759581135654674404114160429805337305458964083194820526305411050586647941704622492161656837625600146207299050610220247654627172865252786176 := by decide
  have hi2 : nttPass zetasInv 64 2 4485616088931123399088346538755497735980514171927748242063745344348511233025279067379084916379930178978977469527576538153065511533418687676815673453185360689876469991732316580836357308101372725140961087330891551293564955777705533740467330255554148032443464734788772685676023337993995380567528875905340122010181739209368039621772420288118535367391131443247952280164936105734831342198188310054494882158155732632815340885278771804525171892691463651099342685823093780911393831959614525221555465258104343585765573701421699992450890683073994799745533849189012326751514233553842558768674542558996605865248659490752441612892437979789762603012946254023297968607411015871946357154088448841522586697383887424635799902124298930447412101667679588204153382469258767369958422171844943584031029637396737838132006345315765728903870237283470975151560118705073894107007465486765316813800072161954110088704180775131990596859431755658904620885628280243082237368349949408127293382313447521727180230692556782325165897280390438489822848725832491973477716849795755400408043816937750975782354263156909876160014980482636455417452035759581135654674404114160429805337305458964083194820526305411050586647941704622492161656837625600146207299050610220247654627172865252786176 = 4485616088931123399088346538755497735980514171927748242063745344348511233025279067379084916379930178978977469527576538153065511533418687676815673453185360689876469991732316580836357308101372725140961087330891551293564955777705533740467330255554148032443464734788772685676023337993995380567528875905340122010181739209368039621772420288118535367391131443247952280164936105734831342198188310054494882158155732632815340885278771804525171892691463651099342685823093780911393831959614525221555465258104343585765573701421699992450890683073994799745533849189012326751514233553842558768674542558996605865248659490752441612892437979789762603012946254023297968607411015871946357154088448841522586697383887424635799902124298930447412101667679588204153382469258767369958422171844943584031029637396737838132006345315765728903870237283470975151560118705073894107007465486765316813800072161954110088704180775131990596859431755658904620885628280243082237368349949408127293382313447521727180230692556782325165897280390438489822848725832491973477716849795755400408043816937750975782354263156909876160014980482636455417452035759581135654674404114160429805337305458964083194820526305411050586647941704622492161656837625600146547581281417175511519636080031057315144 := by decide
  have hi3 : nttPass zetasInv 32 4 4485616088931123399088346538755497735980514171927748242063745344348511233025279067379084916379930178978977469527576538153065511533418687676815673453185360689876469991732316580836357308101372725140961087330891551293564955777705533740467330255554148032443464734788772685676023337993995380567528875905340122010181739209368039621772420288118535367391131443247952280164936105734831342198188310054494882158155732632815340885278771804525171892691463651099342685823093780911393831959614525221555465258104343585765573701421699992450890683073994799745533849189012326751514233553842558768674542558996605865248659490752441612892437979789762603012946254023297968607411015871946357154088448841522586697383887424635799902124298930447412101667679588204153382469258767369958422171844943584031029637396737838132006345315765728903870237283470975151560118705073894107007465486765316813800072161954110088704180775131990596859431755658904620885628280243082237368349949408127293382313447521727180230692556782325165897280390438489822848725832491973477716849795755400408043816937750975782354263156909876160014980482636455417452035759581135654674404114160429805337305458964083194820526305411050586647941704622492161656837625600146547581281417175511519636080031057315144 = 4485616088931123399088346538755497735980514171927748242063745344348511233025279067379084916379930178978977469527576538153065511533418687676815673453185360689876469991732316580836357308101372725140961087330891551293564955777705533740467330255554148032443464734788772685676023337993995380567528875905340122010181739209368039621772420288118535367391131443247952280164936105734831342198188310054494882158155732632815340885278771804525171892691463651099342685823093780911393831959614525221555465258104343585765573701421699992450890683073994799745533849189012326751514233553842558768674542558996605865248659490752441612892437979789762603012946254023297968607411015871946357154088448841522586697383887424635799902124298930447412101667679588204153382469258767369958422171844943584031029637396737838132006345315765728903870237283470975151560118705073894107007465486765316813800072161954110088704180775131990596859431755658904620885628280243082237368349949408127293382313447521727180230692556782325165897280390438489822848725832491973477716849795755400408043816937750975782354263156909876160014980482636455417452035759581135654674404114160429805337305458964083194820526305411050586716689568612948509448756627797345853470771911789625024012032566651520327 := by decide
  have hi4 : nttPass zetasInv 16 8 4485616088931123399088346538755497735980514171927748242063745344348511233025279067379084916379930178978977469527576538153065511533418687676815673453185360689876469991732316580836357308101372725140961087330891551293564955777705533740467330255554148032443464734788772685676023337993995380567528875905340122010181739209368039621772420288118535367391131443247952280164936105734831342198188310054494882158155732632815340885278771804525171892691463651099342685823093780911393831959614525221555465258104343585765573701421699992450890683073994799745533849189012326751514233553842558768674542558996605865248659490752441612892437979789762603012946254023297968607411015871946357154088448841522586697383887424635799902124298930447412101667679588204153382469258767369958422171844943584031029637396737838132006345315765728903870237283470975151560118705073894107007465486765316813800072161954110088704180775131990596859431755658904620885628280243082237368349949408127293382313447521727180230692556782325165897280390438489822848725832491973477716849795755400408043816937750975782354263156909876160014980482636455417452035759581135654674404114160429805337305458964083194820526305411050586716689568612948509448756627797345853470771911789625024012032566651520327 = 4485616088931123399088346538755497735980514171927748242063745344348511233025279067379084916379930178978977469527576538153065511533418687676815673453185360689876469991732316580836357308101372725140961087330891551293564955777705533740467330255554148032443464734788772685676023337993995380567528875905340122010181739209368039621772420288118535367391131443247952280164936105734831342198188310054494882158155732632815340885278771804525171892691463651099342685823093780911393831959614525221555465258104343585765573701421699992450890683073994799745533849189012326751514233553842558768674542558996605865248659490752441612892437979789762603012946254023297968607411015871946357154088448841522586697383887424635799902124298930447412101667679588204153382469258767369958422171844943584031029637396737838132006345315765728903870237283470975151560118705073894107007465486765316813800072161954110088704180775131990596859431755658904620885628280243082237368349949408127293382313447521727180230692556782325165897280390438489822848725832491973477716849795755400408043816937750975782354263156909876160014980496044255848954616852853729341892739731839910260444992724672023556425699961206378813047167446701221305172714353723655842646431541768408254668416560788407622 := by decide
  have hi5 : nttPass zetasInv 8 16 4485616088931123399088346538755497735980514171927748242063745344348511233025279067379084916379930178978977469527576538153065511533418687676815673453185360689876469991732316580836357308101372725140961087330891551293564955777705533740467330255554148032443464734788772685676023337993995380567528875905340122010181739209368039621772420288118535367391131443247952280164936105734831342198188310054494882158155732632815340885278771804525171892691463651099342685823093780911393831959614525221555465258104343585765573701421699992450890683073994799745533849189012326751514233553842558768674542558996605865248659490752441612892437979789762603012946254023297968607411015871946357154088448841522586697383887424635799902124298930447412101667679588204153382469258767369958422171844943584031029637396737838132006345315765728903870237283470975151560118705073894107007465486765316813800072161954110088704180775131990596859431755658904620885628280243082237368349949408127293382313447521727180230692556782325165897280390438489822848725832491973477716849795755400408043816937750975782354263156909876160014980496044255848954616852853729341892739731839910260444992724672023556425699961206378813047167446701221305172714353723655842646431541768408254668416560788407622 = 4485616088931123399088346538755497735980514171927748242063745344348511233025279067379084916379930178978977469527576538153065511533418687676815673453185360689876469991732316580836357308101372725140961087330891551293564955777705533740467330255554148032443464734788772685676023337993995380567528875905340122010181739209368039621772420288118535367391131443247952280164936105734831342198188310054494882158155732632815340885278771804525171892691463651099342685823093780911393831959614525221555465258104343585765573701421699992450890683073994799745533849189012326751514233553842558768674542558996605865248659490752441612892437979789762603012946254023297968607411015871946357154088448841522586697383887424635799902124298930447412101667679588204153382469258767369958422171844943584031029637396737838132006345315765728903870237283470975151560118705073894107007465486765316813800072161954110088704180775131990596859431755658904620885628280243082237368418551072446796920047496530654882619976036347999577359620619480093572936403070523198722034637558352097107064388425949236455539640301082055580478717022441109989262202641257877284845885612030999799409009350655750901652907499511471407946025371735844380207419620181193664270448731013636778156675169507083589 := by decide
  have hi6 : nttPass zetasInv 4 32 4485616088931123399088346538755497735980514171927748242063745344348511233025279067379084916379930178978977469527576538153065511533418687676815673453185360689876469991732316580836357308101372725140961087330891551293564955777705533740467330255554148032443464734788772685676023337993995380567528875905340122010181739209368039621772420288118535367391131443247952280164936105734831342198188310054494882158155732632815340885278771804525171892691463651099342685823093780911393831959614525221555465258104343585765573701421699992450890683073994799745533849189012326751514233553842558768674542558996605865248659490752441612892437979789762603012946254023297968607411015871946357154088448841522586697383887424635799902124298930447412101667679588204153382469258767369958422171844943584031029637396737838132006345315765728903870237283470975151560118705073894107007465486765316813800072161954110088704180775131990596859431755658904620885628280243082237368418551072446796920047496530654882619976036347999577359620619480093572936403070523198722034637558352097107064388425949236455539640301082055580478717022441109989262202641257877284845885612030999799409009350655750901652907499511471407946025371735844380207419620181193664270448731013636778156675169507083589 = 4485616088931123399088346538755497735980514171927748242063745344348511233025279067379084916379930178978977469527576538153065511533418687676815673453185360689876469991732316580836357308101372725140961087330891551293564955777705533740467330255554148032443464734788772685676023337993995380567528875905340122010181739209368039621772420288118535367391131443247952280164936105734831342198188310054494882158155732632815340885278771804525171892691463651099342685823093780911393831959614525221555465258104343585765573701421699992450890683073994799745533849189012326751514233553842558768674542558996605865248659490752441612892437979789794919998942494315570631786801838078427457327257100666169207476910390191953680436792248762222248358016429392354618508589802280681036722732131881733078247265414466849999711933476087174427294040720517026633491112174601415045911537008417155043574746969623637687022015073240449060037307425935348364123185910638563273871431163397774421285650732557992821223057614011105303589530867406477467393824050753746208854446371203514774713553189882970728781308461595396321337114408109149810367748614179535275253221554140644512941133980443230084864007872112835521147271883121141682738343057192476308800334498973174609217353235577177412 := by decide
  have hi7 : nttPass zetasInv 2 64 4485616088931123399088346538755497735980514171927748242063745344348511233025279067379084916379930178978977469527576538153065511533418687676815673453185360689876469991732316580836357308101372725140961087330891551293564955777705533740467330255554148032443464734788772685676023337993995380567528875905340122010181739209368039621772420288118535367391131443247952280164936105734831342198188310054494882158155732632815340885278771804525171892691463651099342685823093780911393831959614525221555465258104343585765573701421699992450890683073994799745533849189012326751514233553842558768674542558996605865248659490752441612892437979789794919998942494315570631786801838078427457327257100666169207476910390191953680436792248762222248358016429392354618508589802280681036722732131881733078247265414466849999711933476087174427294040720517026633491112174601415045911537008417155043574746969623637687022015073240449060037307425935348364123185910638563273871431163397774421285650732557992821223057614011105303589530867406477467393824050753746208854446371203514774713553189882970728781308461595396321337114408109149810367748614179535275253221554140644512941133980443230084864007872112835521147271883121141682738343057192476308800334498973174609217353235577177412 = 4485616089975512033931443113300832911307514772481043155677609441720101892037369413009803513938827289220241021129230902291875314402913317447700199425577361018201190516513945381675198219987908541059201336625262580676378014855237668250321515236254827075967249016873984439563193146518221078053601738834349256615556967601472313557799535572862185631596674376402987039206950517887358086780650846791535823516407322707500418320622085622491257592606539871597902632418071259835692651166146593250396856810466137833423462197951271549554827039762125661092969569819870093961148442118062792225433377018726255465634272754543159777895424566842381837525355530866370370826323898450951169391584340706921021114450819804057219974197434441736752272534247838545634440863493926700517999913234152023648937918488178029262081245367766715127347843913446089038664175316615009978818604363417666412773324743980158521121324427033946136077599153489278852024173253799538640820898589593937428992694940083146473666394657641991127411591532143793219077715342671014633740606410033249028593277114462541694273285996890461327028420535886104061833042042559668699601374402380415257399103250877003927978817566200948750090712942197354449228054261258940987905321518473332995559708951870178627 := by decide
  have hi8 : nttPass zetasInv 1 128 4485616089975512033931443113300832911307514772481043155677609441720101892037369413009803513938827289220241021129230902291875314402913317447700199425577361018201190516513945381675198219987908541059201336625262580676378014855237668250321515236254827075967249016873984439563193146518221078053601738834349256615556967601472313557799535572862185631596674376402987039206950517887358086780650846791535823516407322707500418320622085622491257592606539871597902632418071259835692651166146593250396856810466137833423462197951271549554827039762125661092969569819870093961148442118062792225433377018726255465634272754543159777895424566842381837525355530866370370826323898450951169391584340706921021114450819804057219974197434441736752272534247838545634440863493926700517999913234152023648937918488178029262081245367766715127347843913446089038664175316615009978818604363417666412773324743980158521121324427033946136077599153489278852024173253799538640820898589593937428992694940083146473666394657641991127411591532143793219077715342671014633740606410033249028593277114462541694273285996890461327028420535886104061833042042559668699601374402380415257399103250877003927978817566200948750090712942197354449228054261258940987905321518473332995559708951870178627 = 1090747973085277961909254338908852316005344496854413192309773288285643865353445005340389022402831696251915783831825033741417922694402223563548176625993679078166212020645005986609328496449410526849630006682425618794858521926692788712211323883264321479628005751926867022191322195334140848590707079905197220201476665342365058444796866411788661170230134365388307182883090534109354273869466895842294278472801932180230891171817200033540403839597772304181939483937479119507915643110738488069099184707625639276026719872462475100173678254279075882019526810900670629895670795899694063376214368123631036135583039215312555445918921806436918770661475352945878298996436986119416484091593099145963874468001388683548342993491309251618486022232150648014006320167411316823078838399999708967063704568037695995550706510159696797431180065514772343342407301601038600875881196325459502453835826423643242603703395903523683520260587407727562634654545566574072378092009868729369039010722766283788977726219638132270448339113802540649644807439608779348426025290384658550421824511909204145893520176935227289583430131714745763955083867434918939420285978969651383129716397660857669520900426893892339709392496128000661656425018068520013663645568890053589223341604743937004048095121299808096408501908607888103925977876207263455855178156410742556372537928409337784493923909093250159226034014534178734210638786023120166097205744859176290211704871961605909734054303178938398130909103808322860491424899178317778430688311630369299929650848609691839694535625909648577045088765481397021785404815974726941008265283514780198370978645466741038906931733946285498903324019228876866079994330671394323765618474160449377729213554464872708131863878648145202362737630873067643959646582239346231567394915817558587854924501619686802625216745195932150309473224848757668374830332438895121352894495744760594454072304431690973062278300049099853920094429935984946619579404931499195940598377120668087166989531347862954455611434260648760683708289845087534499360187655179227858302633129295043565257026453982692719392814099086076284939813052500350604027314472215933886579183955231607189509386155735943922500214926144758428915545629841275959356483325055218330141011032389268258886630333371213265633185103583455230645610736002930949129856000777748853461641448929818121780060368721896170143907862091693676025444074303426580655468269822967627351863351541961924488165688179730752978716155032045421370364940314419858959831694602929474 := by decide
  have hstI : nttInverseStages 8 128 1 4485616088931123399088346538755497735980514171927748242063745344348511233025279067379084916379930178978977469527576538153065511533418687676815673453185360689876469991732316580836357308101372725140961087330891551293564955777705533740467330255554148032443464734788772685676023337993995380567528875905340122010181739209368039621772420288118535367391131443247952280164936105734831342198188310054494882158155732632815340885278771804525171892691463651099342685823093780911393831959614525221555465258104343585765573701421699992450890683073994799745533849189012326751514233553842558768674542558996605865248659490752441612892437979789762603012946254023297968607411015871946357154088448841522586697383887424635799902124298930447412101667679588204153382469258767369958422171844943584031029637396737838132006345315765728903870237283470975151560118705073894107007465486765316813800072161954110088704180775131990596859431755658904620885628280243082237368349949408127293382313447521727180230692556782325165897280390438489822848725832491973477716849795755400408043816937750975782354263156909876160014980482636455417452035759581135654674404114160429805337305458964083194820526305411050586647941704622492161656837625600146207299050610220247654627172882432655361 = 1090747973085277961909254338908852316005344496854413192309773288285643865353445005340389022402831696251915783831825033741417922694402223563548176625993679078166212020645005986609328496449410526849630006682425618794858521926692788712211323883264321479628005751926867022191322195334140848590707079905197220201476665342365058444796866411788661170230134365388307182883090534109354273869466895842294278472801932180230891171817200033540403839597772304181939483937479119507915643110738488069099184707625639276026719872462475100173678254279075882019526810900670629895670795899694063376214368123631036135583039215312555445918921806436918770661475352945878298996436986119416484091593099145963874468001388683548342993491309251618486022232150648014006320167411316823078838399999708967063704568037695995550706510159696797431180065514772343342407301601038600875881196325459502453835826423643242603703395903523683520260587407727562634654545566574072378092009868729369039010722766283788977726219638132270448339113802540649644807439608779348426025290384658550421824511909204145893520176935227289583430131714745763955083867434918939420285978969651383129716397660857669520900426893892339709392496128000661656425018068520013663645568890053589223341604743937004048095121299808096408501908607888103925977876207263455855178156410742556372537928409337784493923909093250159226034014534178734210638786023120166097205744859176290211704871961605909734054303178938398130909103808322860491424899178317778430688311630369299929650848609691839694535625909648577045088765481397021785404815974726941008265283514780198370978645466741038906931733946285498903324019228876866079994330671394323765618474160449377729213554464872708131863878648145202362737630873067643959646582239346231567394915817558587854924501619686802625216745195932150309473224848757668374830332438895121352894495744760594454072304431690973062278300049099853920094429935984946619579404931499195940598377120668087166989531347862954455611434260648760683708289845087534499360187655179227858302633129295043565257026453982692719392814099086076284939813052500350604027314472215933886579183955231607189509386155735943922500214926144758428915545629841275959356483325055218330141011032389268258886630333371213265633185103583455230645610736002930949129856000777748853461641448929818121780060368721896170143907862091693676025444074303426580655468269822967627351863351541961924488165688179730752978716155032045421370364940314419858959831694602929474 := by
    rw [show nttInverseStages 8 128 1 4485616088931123399088346538755497735980514171927748242063745344348511233025279067379084916379930178978977469527576538153065511533418687676815673453185360689876469991732316580836357308101372725140961087330891551293564955777705533740467330255554148032443464734788772685676023337993995380567528875905340122010181739209368039621772420288118535367391131443247952280164936105734831342198188310054494882158155732632815340885278771804525171892691463651099342685823093780911393831959614525221555465258104343585765573701421699992450890683073994799745533849189012326751514233553842558768674542558996605865248659490752441612892437979789762603012946254023297968607411015871946357154088448841522586697383887424635799902124298930447412101667679588204153382469258767369958422171844943584031029637396737838132006345315765728903870237283470975151560118705073894107007465486765316813800072161954110088704180775131990596859431755658904620885628280243082237368349949408127293382313447521727180230692556782325165897280390438489822848725832491973477716849795755400408043816937750975782354263156909876160014980482636455417452035759581135654674404114160429805337305458964083194820526305411050586647941704622492161656837625600146207299050610220247654627172882432655361 = nttInverseStages 7 64 2 (nttPass zetasInv 128 1 4485616088931123399088346538755497735980514171927748242063745344348511233025279067379084916379930178978977469527576538153065511533418687676815673453185360689876469991732316580836357308101372725140961087330891551293564955777705533740467330255554148032443464734788772685676023337993995380567528875905340122010181739209368039621772420288118535367391131443247952280164936105734831342198188310054494882158155732632815340885278771804525171892691463651099342685823093780911393831959614525221555465258104343585765573701421699992450890683073994799745533849189012326751514233553842558768674542558996605865248659490752441612892437979789762603012946254023297968607411015871946357154088448841522586697383887424635799902124298930447412101667679588204153382469258767369958422171844943584031029637396737838132006345315765728903870237283470975151560118705073894107007465486765316813800072161954110088704180775131990596859431755658904620885628280243082237368349949408127293382313447521727180230692556782325165897280390438489822848725832491973477716849795755400408043816937750975782354263156909876160014980482636455417452035759581135654674404114160429805337305458964083194820526305411050586647941704622492161656837625600146207299050610220247654627172882432655361) from rfl,
        hi1,
        show nttInverseStages 7 64 2 4485616088931123399088346538755497735980514171927748242063745344348511233025279067379084916379930178978977469527576538153065511533418687676815673453185360689876469991732316580836357308101372725140961087330891551293564955777705533740467330255554148032443464734788772685676023337993995380567528875905340122010181739209368039621772420288118535367391131443247952280164936105734831342198188310054494882158155732632815340885278771804525171892691463651099342685823093780911393831959614525221555465258104343585765573701421699992450890683073994799745533849189012326751514233553842558768674542558996605865248659490752441612892437979789762603012946254023297968607411015871946357154088448841522586697383887424635799902124298930447412101667679588204153382469258767369958422171844943584031029637396737838132006345315765728903870237283470975151560118705073894107007465486765316813800072161954110088704180775131990596859431755658904620885628280243082237368349949408127293382313447521727180230692556782325165897280390438489822848725832491973477716849795755400408043816937750975782354263156909876160014980482636455417452035759581135654674404114160429805337305458964083194820526305411050586647941704622492161656837625600146207299050610220247654627172865252786176 = nttInverseStages 6 32 4 (nttPass zetasInv 64 2 4485616088931123399088346538755497735980514171927748242063745344348511233025279067379084916379930178978977469527576538153065511533418687676815673453185360689876469991732316580836357308101372725140961087330891551293564955777705533740467330255554148032443464734788772685676023337993995380567528875905340122010181739209368039621772420288118535367391131443247952280164936105734831342198188310054494882158155732632815340885278771804525171892691463651099342685823093780911393831959614525221555465258104343585765573701421699992450890683073994799745533849189012326751514233553842558768674542558996605865248659490752441612892437979789762603012946254023297968607411015871946357154088448841522586697383887424635799902124298930447412101667679588204153382469258767369958422171844943584031029637396737838132006345315765728903870237283470975151560118705073894107007465486765316813800072161954110088704180775131990596859431755658904620885628280243082237368349949408127293382313447521727180230692556782325165897280390438489822848725832491973477716849795755400408043816937750975782354263156909876160014980482636455417452035759581135654674404114160429805337305458964083194820526305411050586647941704622492161656837625600146207299050610220247654627172865252786176) from rfl,
        hi2,
        show nttInverseStages 6 32 4 4485616088931123399088346538755497735980514171927748242063745344348511233025279067379084916379930178978977469527576538153065511533418687676815673453185360689876469991732316580836357308101372725140961087330891551293564955777705533740467330255554148032443464734788772685676023337993995380567528875905340122010181739209368039621772420288118535367391131443247952280164936105734831342198188310054494882158155732632815340885278771804525171892691463651099342685823093780911393831959614525221555465258104343585765573701421699992450890683073994799745533849189012326751514233553842558768674542558996605865248659490752441612892437979789762603012946254023297968607411015871946357154088448841522586697383887424635799902124298930447412101667679588204153382469258767369958422171844943584031029637396737838132006345315765728903870237283470975151560118705073894107007465486765316813800072161954110088704180775131990596859431755658904620885628280243082237368349949408127293382313447521727180230692556782325165897280390438489822848725832491973477716849795755400408043816937750975782354263156909876160014980482636455417452035759581135654674404114160429805337305458964083194820526305411050586647941704622492161656837625600146547581281417175511519636080031057315144 = nttInverseStages 5 16 8 (nttPass zetasInv 32 4 4485616088931123399088346538755497735980514171927748242063745344348511233025279067379084916379930178978977469527576538153065511533418687676815673453185360689876469991732316580836357308101372725140961087330891551293564955777705533740467330255554148032443464734788772685676023337993995380567528875905340122010181739209368039621772420288118535367391131443247952280164936105734831342198188310054494882158155732632815340885278771804525171892691463651099342685823093780911393831959614525221555465258104343585765573701421699992450890683073994799745533849189012326751514233553842558768674542558996605865248659490752441612892437979789762603012946254023297968607411015871946357154088448841522586697383887424635799902124298930447412101667679588204153382469258767369958422171844943584031029637396737838132006345315765728903870237283470975151560118705073894107007465486765316813800072161954110088704180775131990596859431755658904620885628280243082237368349949408127293382313447521727180230692556782325165897280390438489822848725832491973477716849795755400408043816937750975782354263156909876160014980482636455417452035759581135654674404114160429805337305458964083194820526305411050586647941704622492161656837625600146547581281417175511519636080031057315144) from rfl,
        hi3,
        show nttInverseStages 5 16 8 4485616088931123399088346538755497735980514171927748242063745344348511233025279067379084916379930178978977469527576538153065511533418687676815673453185360689876469991732316580836357308101372725140961087330891551293564955777705533740467330255554148032443464734788772685676023337993995380567528875905340122010181739209368039621772420288118535367391131443247952280164936105734831342198188310054494882158155732632815340885278771804525171892691463651099342685823093780911393831959614525221555465258104343585765573701421699992450890683073994799745533849189012326751514233553842558768674542558996605865248659490752441612892437979789762603012946254023297968607411015871946357154088448841522586697383887424635799902124298930447412101667679588204153382469258767369958422171844943584031029637396737838132006345315765728903870237283470975151560118705073894107007465486765316813800072161954110088704180775131990596859431755658904620885628280243082237368349949408127293382313447521727180230692556782325165897280390438489822848725832491973477716849795755400408043816937750975782354263156909876160014980482636455417452035759581135654674404114160429805337305458964083194820526305411050586716689568612948509448756627797345853470771911789625024012032566651520327 = nttInverseStages 4 8 16 (nttPass zetasInv 16 8 4485616088931123399088346538755497735980514171927748242063745344348511233025279067379084916379930178978977469527576538153065511533418687676815673453185360689876469991732316580836357308101372725140961087330891551293564955777705533740467330255554148032443464734788772685676023337993995380567528875905340122010181739209368039621772420288118535367391131443247952280164936105734831342198188310054494882158155732632815340885278771804525171892691463651099342685823093780911393831959614525221555465258104343585765573701421699992450890683073994799745533849189012326751514233553842558768674542558996605865248659490752441612892437979789762603012946254023297968607411015871946357154088448841522586697383887424635799902124298930447412101667679588204153382469258767369958422171844943584031029637396737838132006345315765728903870237283470975151560118705073894107007465486765316813800072161954110088704180775131990596859431755658904620885628280243082237368349949408127293382313447521727180230692556782325165897280390438489822848725832491973477716849795755400408043816937750975782354263156909876160014980482636455417452035759581135654674404114160429805337305458964083194820526305411050586716689568612948509448756627797345853470771911789625024012032566651520327) from rfl,
        hi4,
        show nttInverseStages 4 8 16 4485616088931123399088346538755497735980514171927748242063745344348511233025279067379084916379930178978977469527576538153065511533418687676815673453185360689876469991732316580836357308101372725140961087330891551293564955777705533740467330255554148032443464734788772685676023337993995380567528875905340122010181739209368039621772420288118535367391131443247952280164936105734831342198188310054494882158155732632815340885278771804525171892691463651099342685823093780911393831959614525221555465258104343585765573701421699992450890683073994799745533849189012326751514233553842558768674542558996605865248659490752441612892437979789762603012946254023297968607411015871946357154088448841522586697383887424635799902124298930447412101667679588204153382469258767369958422171844943584031029637396737838132006345315765728903870237283470975151560118705073894107007465486765316813800072161954110088704180775131990596859431755658904620885628280243082237368349949408127293382313447521727180230692556782325165897280390438489822848725832491973477716849795755400408043816937750975782354263156909876160014980496044255848954616852853729341892739731839910260444992724672023556425699961206378813047167446701221305172714353723655842646431541768408254668416560788407622 = nttInverseStages 3 4 32 (nttPass zetasInv 8 16 4485616088931123399088346538755497735980514171927748242063745344348511233025279067379084916379930178978977469527576538153065511533418687676815673453185360689876469991732316580836357308101372725140961087330891551293564955777705533740467330255554148032443464734788772685676023337993995380567528875905340122010181739209368039621772420288118535367391131443247952280164936105734831342198188310054494882158155732632815340885278771804525171892691463651099342685823093780911393831959614525221555465258104343585765573701421699992450890683073994799745533849189012326751514233553842558768674542558996605865248659490752441612892437979789762603012946254023297968607411015871946357154088448841522586697383887424635799902124298930447412101667679588204153382469258767369958422171844943584031029637396737838132006345315765728903870237283470975151560118705073894107007465486765316813800072161954110088704180775131990596859431755658904620885628280243082237368349949408127293382313447521727180230692556782325165897280390438489822848725832491973477716849795755400408043816937750975782354263156909876160014980496044255848954616852853729341892739731839910260444992724672023556425699961206378813047167446701221305172714353723655842646431541768408254668416560788407622) from rfl,
        hi5,
        show nttInverseStages 3 4 32 4485616088931123399088346538755497735980514171927748242063745344348511233025279067379084916379930178978977469527576538153065511533418687676815673453185360689876469991732316580836357308101372725140961087330891551293564955777705533740467330255554148032443464734788772685676023337993995380567528875905340122010181739209368039621772420288118535367391131443247952280164936105734831342198188310054494882158155732632815340885278771804525171892691463651099342685823093780911393831959614525221555465258104343585765573701421699992450890683073994799745533849189012326751514233553842558768674542558996605865248659490752441612892437979789762603012946254023297968607411015871946357154088448841522586697383887424635799902124298930447412101667679588204153382469258767369958422171844943584031029637396737838132006345315765728903870237283470975151560118705073894107007465486765316813800072161954110088704180775131990596859431755658904620885628280243082237368418551072446796920047496530654882619976036347999577359620619480093572936403070523198722034637558352097107064388425949236455539640301082055580478717022441109989262202641257877284845885612030999799409009350655750901652907499511471407946025371735844380207419620181193664270448731013636778156675169507083589 = nttInverseStages 2 2 64 (nttPass zetasInv 4 32 4485616088931123399088346538755497735980514171927748242063745344348511233025279067379084916379930178978977469527576538153065511533418687676815673453185360689876469991732316580836357308101372725140961087330891551293564955777705533740467330255554148032443464734788772685676023337993995380567528875905340122010181739209368039621772420288118535367391131443247952280164936105734831342198188310054494882158155732632815340885278771804525171892691463651099342685823093780911393831959614525221555465258104343585765573701421699992450890683073994799745533849189012326751514233553842558768674542558996605865248659490752441612892437979789762603012946254023297968607411015871946357154088448841522586697383887424635799902124298930447412101667679588204153382469258767369958422171844943584031029637396737838132006345315765728903870237283470975151560118705073894107007465486765316813800072161954110088704180775131990596859431755658904620885628280243082237368418551072446796920047496530654882619976036347999577359620619480093572936403070523198722034637558352097107064388425949236455539640301082055580478717022441109989262202641257877284845885612030999799409009350655750901652907499511471407946025371735844380207419620181193664270448731013636778156675169507083589) from rfl,
        hi6,
        show nttInverseStages 2 2 64 4485616088931123399088346538755497735980514171927748242063745344348511233025279067379084916379930178978977469527576538153065511533418687676815673453185360689876469991732316580836357308101372725140961087330891551293564955777705533740467330255554148032443464734788772685676023337993995380567528875905340122010181739209368039621772420288118535367391131443247952280164936105734831342198188310054494882158155732632815340885278771804525171892691463651099342685823093780911393831959614525221555465258104343585765573701421699992450890683073994799745533849189012326751514233553842558768674542558996605865248659490752441612892437979789794919998942494315570631786801838078427457327257100666169207476910390191953680436792248762222248358016429392354618508589802280681036722732131881733078247265414466849999711933476087174427294040720517026633491112174601415045911537008417155043574746969623637687022015073240449060037307425935348364123185910638563273871431163397774421285650732557992821223057614011105303589530867406477467393824050753746208854446371203514774713553189882970728781308461595396321337114408109149810367748614179535275253221554140644512941133980443230084864007872112835521147271883121141682738343057192476308800334498973174609217353235577177412 = nttInverseStages 1 1 128 (nttPass zetasInv 2 64 4485616088931123399088346538755497735980514171927748242063745344348511233025279067379084916379930178978977469527576538153065511533418687676815673453185360689876469991732316580836357308101372725140961087330891551293564955777705533740467330255554148032443464734788772685676023337993995380567528875905340122010181739209368039621772420288118535367391131443247952280164936105734831342198188310054494882158155732632815340885278771804525171892691463651099342685823093780911393831959614525221555465258104343585765573701421699992450890683073994799745533849189012326751514233553842558768674542558996605865248659490752441612892437979789794919998942494315570631786801838078427457327257100666169207476910390191953680436792248762222248358016429392354618508589802280681036722732131881733078247265414466849999711933476087174427294040720517026633491112174601415045911537008417155043574746969623637687022015073240449060037307425935348364123185910638563273871431163397774421285650732557992821223057614011105303589530867406477467393824050753746208854446371203514774713553189882970728781308461595396321337114408109149810367748614179535275253221554140644512941133980443230084864007872112835521147271883121141682738343057192476308800334498973174609217353235577177412) from rfl,
        hi7,
        show nttInverseStages 1 1 128 4485616089975512033931443113300832911307514772481043155677609441720101892037369413009803513938827289220241021129230902291875314402913317447700199425577361018201190516513945381675198219987908541059201336625262580676378014855237668250321515236254827075967249016873984439563193146518221078053601738834349256615556967601472313557799535572862185631596674376402987039206950517887358086780650846791535823516407322707500418320622085622491257592606539871597902632418071259835692651166146593250396856810466137833423462197951271549554827039762125661092969569819870093961148442118062792225433377018726255465634272754543159777895424566842381837525355530866370370826323898450951169391584340706921021114450819804057219974197434441736752272534247838545634440863493926700517999913234152023648937918488178029262081245367766715127347843913446089038664175316615009978818604363417666412773324743980158521121324427033946136077599153489278852024173253799538640820898589593937428992694940083146473666394657641991127411591532143793219077715342671014633740606410033249028593277114462541694273285996890461327028420535886104061833042042559668699601374402380415257399103250877003927978817566200948750090712942197354449228054261258940987905321518473332995559708951870178627 = nttInverseStages 0 0 256 (nttPass zetasInv 1 128 4485616089975512033931443113300832911307514772481043155677609441720101892037369413009803513938827289220241021129230902291875314402913317447700199425577361018201190516513945381675198219987908541059201336625262580676378014855237668250321515236254827075967249016873984439563193146518221078053601738834349256615556967601472313557799535572862185631596674376402987039206950517887358086780650846791535823516407322707500418320622085622491257592606539871597902632418071259835692651166146593250396856810466137833423462197951271549554827039762125661092969569819870093961148442118062792225433377018726255465634272754543159777895424566842381837525355530866370370826323898450951169391584340706921021114450819804057219974197434441736752272534247838545634440863493926700517999913234152023648937918488178029262081245367766715127347843913446089038664175316615009978818604363417666412773324743980158521121324427033946136077599153489278852024173253799538640820898589593937428992694940083146473666394657641991127411591532143793219077715342671014633740606410033249028593277114462541694273285996890461327028420535886104061833042042559668699601374402380415257399103250877003927978817566200948750090712942197354449228054261258940987905321518473332995559708951870178627) from rfl,
        hi8,
        show nttInverseStages 0 0 256 1090747973085277961909254338908852316005344496854413192309773288285643865353445005340389022402831696251915783831825033741417922694402223563548176625993679078166212020645005986609328496449410526849630006682425618794858521926692788712211323883264321479628005751926867022191322195334140848590707079905197220201476665342365058444796866411788661170230134365388307182883090534109354273869466895842294278472801932180230891171817200033540403839597772304181939483937479119507915643110738488069099184707625639276026719872462475100173678254279075882019526810900670629895670795899694063376214368123631036135583039215312555445918921806436918770661475352945878298996436986119416484091593099145963874468001388683548342993491309251618486022232150648014006320167411316823078838399999708967063704568037695995550706510159696797431180065514772343342407301601038600875881196325459502453835826423643242603703395903523683520260587407727562634654545566574072378092009868729369039010722766283788977726219638132270448339113802540649644807439608779348426025290384658550421824511909204145893520176935227289583430131714745763955083867434918939420285978969651383129716397660857669520900426893892339709392496128000661656425018068520013663645568890053589223341604743937004048095121299808096408501908607888103925977876207263455855178156410742556372537928409337784493923909093250159226034014534178734210638786023120166097205744859176290211704871961605909734054303178938398130909103808322860491424899178317778430688311630369299929650848609691839694535625909648577045088765481397021785404815974726941008265283514780198370978645466741038906931733946285498903324019228876866079994330671394323765618474160449377729213554464872708131863878648145202362737630873067643959646582239346231567394915817558587854924501619686802625216745195932150309473224848757668374830332438895121352894495744760594454072304431690973062278300049099853920094429935984946619579404931499195940598377120668087166989531347862954455611434260648760683708289845087534499360187655179227858302633129295043565257026453982692719392814099086076284939813052500350604027314472215933886579183955231607189509386155735943922500214926144758428915545629841275959356483325055218330141011032389268258886630333371213265633185103583455230645610736002930949129856000777748853461641448929818121780060368721896170143907862091693676025444074303426580655468269822967627351863351541961924488165688179730752978716155032045421370364940314419858959831694602929474 = 1090747973085277961909254338908852316005344496854413192309773288285643865353445005340389022402831696251915783831825033741417922694402223563548176625993679078166212020645005986609328496449410526849630006682425618794858521926692788712211323883264321479628005751926867022191322195334140848590707079905197220201476665342365058444796866411788661170230134365388307182883090534109354273869466895842294278472801932180230891171817200033540403839597772304181939483937479119507915643110738488069099184707625639276026719872462475100173678254279075882019526810900670629895670795899694063376214368123631036135583039215312555445918921806436918770661475352945878298996436986119416484091593099145963874468001388683548342993491309251618486022232150648014006320167411316823078838399999708967063704568037695995550706510159696797431180065514772343342407301601038600875881196325459502453835826423643242603703395903523683520260587407727562634654545566574072378092009868729369039010722766283788977726219638132270448339113802540649644807439608779348426025290384658550421824511909204145893520176935227289583430131714745763955083867434918939420285978969651383129716397660857669520900426893892339709392496128000661656425018068520013663645568890053589223341604743937004048095121299808096408501908607888103925977876207263455855178156410742556372537928409337784493923909093250159226034014534178734210638786023120166097205744859176290211704871961605909734054303178938398130909103808322860491424899178317778430688311630369299929650848609691839694535625909648577045088765481397021785404815974726941008265283514780198370978645466741038906931733946285498903324019228876866079994330671394323765618474160449377729213554464872708131863878648145202362737630873067643959646582239346231567394915817558587854924501619686802625216745195932150309473224848757668374830332438895121352894495744760594454072304431690973062278300049099853920094429935984946619579404931499195940598377120668087166989531347862954455611434260648760683708289845087534499360187655179227858302633129295043565257026453982692719392814099086076284939813052500350604027314472215933886579183955231607189509386155735943922500214926144758428915545629841275959356483325055218330141011032389268258886630333371213265633185103583455230645610736002930949129856000777748853461641448929818121780060368721896170143907862091693676025444074303426580655468269822967627351863351541961924488165688179730752978716155032045421370364940314419858959831694602929474 from rfl]
  have hval : (nttInverse (nttForward deltaPoly)).getD 0 0 = 4294967280 := by
    rw [hfwd,
        show nttInverse (unpackPoly 4485616088931123399088346538755497735980514171927748242063745344348511233025279067379084916379930178978977469527576538153065511533418687676815673453185360689876469991732316580836357308101372725140961087330891551293564955777705533740467330255554148032443464734788772685676023337993995380567528875905340122010181739209368039621772420288118535367391131443247952280164936105734831342198188310054494882158155732632815340885278771804525171892691463651099342685823093780911393831959614525221555465258104343585765573701421699992450890683073994799745533849189012326751514233553842558768674542558996605865248659490752441612892437979789762603012946254023297968607411015871946357154088448841522586697383887424635799902124298930447412101667679588204153382469258767369958422171844943584031029637396737838132006345315765728903870237283470975151560118705073894107007465486765316813800072161954110088704180775131990596859431755658904620885628280243082237368349949408127293382313447521727180230692556782325165897280390438489822848725832491973477716849795755400408043816937750975782354263156909876160014980482636455417452035759581135654674404114160429805337305458964083194820526305411050586647941704622492161656837625600146207299050610220247654627172882432655361) = (List.range N).map (fun i => montgomeryReduce (getW (nttInverseStages 8 (N / 2) 1 (packPoly (unpackPoly 4485616088931123399088346538755497735980514171927748242063745344348511233025279067379084916379930178978977469527576538153065511533418687676815673453185360689876469991732316580836357308101372725140961087330891551293564955777705533740467330255554148032443464734788772685676023337993995380567528875905340122010181739209368039621772420288118535367391131443247952280164936105734831342198188310054494882158155732632815340885278771804525171892691463651099342685823093780911393831959614525221555465258104343585765573701421699992450890683073994799745533849189012326751514233553842558768674542558996605865248659490752441612892437979789762603012946254023297968607411015871946357154088448841522586697383887424635799902124298930447412101667679588204153382469258767369958422171844943584031029637396737838132006345315765728903870237283470975151560118705073894107007465486765316813800072161954110088704180775131990596859431755658904620885628280243082237368349949408127293382313447521727180230692556782325165897280390438489822848725832491973477716849795755400408043816937750975782354263156909876160014980482636455417452035759581135654674404114160429805337305458964083194820526305411050586647941704622492161656837625600146207299050610220247654627172882432655361))) i * nInv)) from rfl,
        show (N / 2 : ℕ) = 128 from rfl,
        hpk,
        hstI]
    decide
  refine ⟨by decide, by decide, hval, fun heq => ?_⟩
  have ht : (nttInverse (nttForward deltaPoly)).getD 0 0 = deltaPoly.getD 0 0 :=
    congrArg (fun l => l.getD 0 0) heq
  rw [hval] at ht
  exact absurd ht (by decide)

set_option maxRecDepth 200000 in
set_option maxHeartbeats 4000000 in
/-- Claim C4: the ring-homomorphism law fails, already at the claim's
own instance: for a = 1 + x^255 and b = x the schoolbook negacyclic
product has x^0 coefficient q − 1 = 3328 (the x^n → −1 reduction), but
the NTT-based multiply returns 4294967250 there. -/
theorem ntt_negacyclic_multiply_counterexample :
    schoolbookNegacyclicCoeff onePlusXPow255 xPoly 0 = Q - 1 ∧
    (nttMultiply onePlusXPow255 xPoly).getD 0 0 = 4294967250 ∧
    (nttMultiply onePlusXPow255 xPoly).getD 0 0 ≠
      schoolbookNegacyclicCoeff onePlusXPow255 xPoly 0 := by
  have h1 : schoolbookNegacyclicCoeff onePlusXPow255 xPoly 0 = Q - 1 := by decide
  have ha1 : nttPass zetas 1 128 253959590480526892808960807680567461635978930163251397300472666087961134465671911653192768461350814258669803802891873119657363467891044929533027989109408762091516121021051190220427193033520180070702184833025475544103394854490022305427419616352274618348549178926227595005186758842325428462773772258731974510557600676593248651807896167124751958727702972314681682233682116203189058294367065666154379885259537353803828624266875119904503285986954480878386295765134516927042832235529144558011963385894172644793461943611567227187340061153062900179483173811097093664225483750850859036913606547974310935394617290133906409957566145366464966589013820697162650928559813234411405940632368120190600494275840000581839921883379323801828124836880340080397530665094832617993799077208967732962572916586967178245567954569965775464340338915820760562103871888343281360942669511080491894606399561808621315406839899866006115769168537790180957639231156735547674770996078950822941720896619621830901964668811025903406551098780297381200501489785048308894914518183685748689495639033468584799671927006188439595407186259961615836814501245113804491053692873161209354178079107193237754599526443944530579513166693639688419156557130640124814016998465136897972346277192113892530961558224680861122657080362026749123319474400601778314882330282640551673320205045384778918166188026947486093616748136387582937920506769421751025467828224418859793668888279302296743199532743863017432012617408461780933747986632136117261467118549278837405056550039357940388887368529759295786050938344349419616242116721948101083515909133197449835730085339934665262617332216393938000760515119232273920300181983103080561355014317081651380641470427557057573029778718916371977675169203184698024146779604310641722079124058352596379601523789256530882449925788854367414260959723911672257709497634479072547920971720085687307795781976586458820533372540246818692292434003040854438968291179138446290384961460705270345132941707123037137698958250000087550277031464743911584538341952073848128874189822432607294087321463166480878055026741692117902201273702867507825131746571184644872779900804510655772828875070737885848852872852543700674703336011463200675610629457718008107999042556952243079477598831846112175121924185468918024459510301907439975350312607752989896186711958151294389599428620496426531636210164990087433173418702319264601785133278987898995074362232217996182647350762799988827570756308057067584355583085599820405828222977 = 1090747747569161675217892032641668726541182782220427402983697711067487549444505831669583228446651778279913104548696814454327743983725805126094327438610787439902317823005560069372391168415297249940861703580653213333845255152621986899367207860804712514742283415952654517924244911674659024763546214179481869609893449498181641819427065349899216648226433099363409549010318465686495137806463014262741177810457480730104748528564762736320737042357483589946879711391576118116865517921364589242984872876884845580069942478022427529600304485627431764621681287450656115812138138943144680436937388496970315210907940832586052166883520926944678846671078084773203480466297811382270348143767861348993138758278612751944102546944908283887839411994031644557505762038312578567973187872882505395690815901944943425504268662595782166550916060344968400237960567820691911678041217760628009379935949951698228716947508362981044054107223859631441579585955912018219891873425398356009890120309991542680829422816488813516092411556204163805116200643059784164929947764885143826690834630834032178017996064122174072219609635007735089013084957013757167553320273140212960121676237541390958717090150625752529729838253054460205086463448308835640003450374977871518229421487271299451377042284973183018199668257683729300787644141190248413948915249235917415737653945054437638149707485389681531385981414404402976585862683300507186132012767829365574750827816606136942676121441741091932006443917725509440235356406301216111281998191550480514848001589432372062046887510938809135594080803961179312612619692304956464667469668282838237369838455535957915938932607215065365998153507946434082093699028373151830130263798957445910965031058209899408700005276917837712713103483036682971769325035614229865937261890753300215115930210009407424691430979539932152766625345614258259535605345445523630724510230194745288316772918629852892776427963507252841691412115988724012970295757181203029532716153905922008366622513102408435054641213820147869684041635063560309523455165109095224516898522862642189122001863910106621000890754242812506953061834241357848461047044766561331702379903742022825449466455197420665797476418439633138378645681936643383989612846741869599801400322664379843455208678059975894917852956700528872365192367990884223708768030559152085619616173796790498076946278748908336657089899655775369003908180894943271301503953734886448719778672222645023735226492077988849339247507168111441350141182619644353236018502651351138305 := by decide
  have ha2 : nttPass zetas 2 64 1090747747569161675217892032641668726541182782220427402983697711067487549444505831669583228446651778279913104548696814454327743983725805126094327438610787439902317823005560069372391168415297249940861703580653213333845255152621986899367207860804712514742283415952654517924244911674659024763546214179481869609893449498181641819427065349899216648226433099363409549010318465686495137806463014262741177810457480730104748528564762736320737042357483589946879711391576118116865517921364589242984872876884845580069942478022427529600304485627431764621681287450656115812138138943144680436937388496970315210907940832586052166883520926944678846671078084773203480466297811382270348143767861348993138758278612751944102546944908283887839411994031644557505762038312578567973187872882505395690815901944943425504268662595782166550916060344968400237960567820691911678041217760628009379935949951698228716947508362981044054107223859631441579585955912018219891873425398356009890120309991542680829422816488813516092411556204163805116200643059784164929947764885143826690834630834032178017996064122174072219609635007735089013084957013757167553320273140212960121676237541390958717090150625752529729838253054460205086463448308835640003450374977871518229421487271299451377042284973183018199668257683729300787644141190248413948915249235917415737653945054437638149707485389681531385981414404402976585862683300507186132012767829365574750827816606136942676121441741091932006443917725509440235356406301216111281998191550480514848001589432372062046887510938809135594080803961179312612619692304956464667469668282838237369838455535957915938932607215065365998153507946434082093699028373151830130263798957445910965031058209899408700005276917837712713103483036682971769325035614229865937261890753300215115930210009407424691430979539932152766625345614258259535605345445523630724510230194745288316772918629852892776427963507252841691412115988724012970295757181203029532716153905922008366622513102408435054641213820147869684041635063560309523455165109095224516898522862642189122001863910106621000890754242812506953061834241357848461047044766561331702379903742022825449466455197420665797476418439633138378645681936643383989612846741869599801400322664379843455208678059975894917852956700528872365192367990884223708768030559152085619616173796790498076946278748908336657089899655775369003908180894943271301503953734886448719778672222645023735226492077988849339247507168111441350141182619644353236018502651351138305 = 1090747747569161675217892032641668726541182782220427402983697711067487549444505831669583228446651778279913104548696814454327743983725805126094327438610787439902317823005560069372391168415297249940861703580653213333845255152621986899367207860804712514742283415952654517924244911674659024763546214179481869609893449498181641819427065349899216648226433099363409549010318465686495137806463014262741177810457480730104748528564762736320737042357483589946879711391576118116865517921364589242984872876884845580069942478022427529600304485627431764621681287450656115812138138943144680436937388496970315210907940832586052166883520926944678846671078084773203480466297811382270348143767861348993138758278612751944102546944908283887839411994031644557505762038312578567973187872882505395690815901944943425504268662595782166550916060344968400237960567820691911678041217760628009379935949951698228716947508362981044054107223859631441579585955912018219891873425398356009890120309991542680829422816488813516092411556204163805116200643059784164929947764885143826690834630834032178017996064122174072219609635007735089013084957013757167553320273140212960121676237541390958717090150625752529729838253054460205086463448308835640003450374977871518229421487272343839711089366904559663187819501251097235727796055186440630700971089300718921069389725285747600451509950896167389487068274025059184360572309414761748354184413579334360804037728838502934548605952876908475307551423454453279668993177726274359921362978258177803672940315489132513245649261719939732671481718567495438136793029721155943432390365699786395452901582556404529876065777028453249365197566383846959372991281529144981824704195894152893939914581660422780514011631123799212699374031019619581990397080205270937029149322278473697187703957155228698836892063168128418684649615115096864885139636739338617098253451858846755334597674007501000065116608734181137145444387656562704508001258902708294146552441083727297651221386517159240999477222095426935902413535546677793968252268504786403791777131674036822272751453199565004327312379167289206989117993169948974949009501422253780089769851239074756026640713437105366866710537526168637084274066480535314179216897020339109268011403667281796539080866271515301407079272597769975253853514255039399998916563987275512607924463633427240874283323539627346529564408859552441073322631905892115453271482215419905554870804293798426751481209515449046387830802557304840358437130172225916588001671455524782081 := by decide
  have ha3 : nttPass zetas 4 32 1090747747569161675217892032641668726541182782220427402983697711067487549444505831669583228446651778279913104548696814454327743983725805126094327438610787439902317823005560069372391168415297249940861703580653213333845255152621986899367207860804712514742283415952654517924244911674659024763546214179481869609893449498181641819427065349899216648226433099363409549010318465686495137806463014262741177810457480730104748528564762736320737042357483589946879711391576118116865517921364589242984872876884845580069942478022427529600304485627431764621681287450656115812138138943144680436937388496970315210907940832586052166883520926944678846671078084773203480466297811382270348143767861348993138758278612751944102546944908283887839411994031644557505762038312578567973187872882505395690815901944943425504268662595782166550916060344968400237960567820691911678041217760628009379935949951698228716947508362981044054107223859631441579585955912018219891873425398356009890120309991542680829422816488813516092411556204163805116200643059784164929947764885143826690834630834032178017996064122174072219609635007735089013084957013757167553320273140212960121676237541390958717090150625752529729838253054460205086463448308835640003450374977871518229421487272343839711089366904559663187819501251097235727796055186440630700971089300718921069389725285747600451509950896167389487068274025059184360572309414761748354184413579334360804037728838502934548605952876908475307551423454453279668993177726274359921362978258177803672940315489132513245649261719939732671481718567495438136793029721155943432390365699786395452901582556404529876065777028453249365197566383846959372991281529144981824704195894152893939914581660422780514011631123799212699374031019619581990397080205270937029149322278473697187703957155228698836892063168128418684649615115096864885139636739338617098253451858846755334597674007501000065116608734181137145444387656562704508001258902708294146552441083727297651221386517159240999477222095426935902413535546677793968252268504786403791777131674036822272751453199565004327312379167289206989117993169948974949009501422253780089769851239074756026640713437105366866710537526168637084274066480535314179216897020339109268011403667281796539080866271515301407079272597769975253853514255039399998916563987275512607924463633427240874283323539627346529564408859552441073322631905892115453271482215419905554870804293798426751481209515449046387830802557304840358437130172225916588001671455524782081 = 1090747747569161675217892032641668726541182782220427402983697711067487549444505831669583228446651778279913104548696814454327743983725805126094327438610787439902317823005560069372391168415297249940861703580653213333845255152621986899367207860804712514742283415952654517924244911674659024763546214179481869609893449498181641819427065349899216648226433099363409549010318465686495137806463014262741177810457480730104748528564762736320737042357483589946879711391576118116865517921364589242984872876884845580069942478022427529600304485627431764621681287450656115812138138943144680436937388496970315210907940832586052166883520926944678846671078084773203480466297811382270348143767861348993138758278612751944102546944908283887839411994031644557505762038312578567973187872882505395690815901944943425504268662595782166550916060344968400237960567820691911678041217760628009379935949951698228716947508362981044054107223859631441579585955912018219891873425398356009890120309991542680829422816488813516092411556204163805116200643059784164929947764885143826690834630834032178017996064122174072219609635007735089013084957013757167553320273140212960121676237541390958717090150625752529729838253054460205086463448308835640003450374977871518229421487272343839711089366904559663187819501251097235727796055186440630700971089300718921069389725285747600451509950896167389487068274025059184360572309414761748354184413579334360804037728838502934548605952876908475307551423454453279668993177726274359921362978258177803672940315489132513245649261719939732671481718567495438136793029721155943432390365699786395452901582556404529876065777028453249365197566383846959372991281529144981824704195894152893939914581660422780514011631123799212699374031019619581990397080205270937029149322278473697187703957155228698836892063168128418684649615115096864885139636739338617098253451858846787651600479733541446360161992067813516272960745293045831361122907406086446392114867390398130478568316852594308634451587187932057137545607931906118060385610299597492110374559381588477380830418973929203944515133633738523818265162181030919849619283612257168444976529787292536362271394566221962280227085335289726354964187345423155408546448019794567253303168753298275377828544815700605182039049412757983475126342567014290907874276348389589552836712253722630378371012060316428011356584971856853149682420198307235822749976437370030123306757954615950405884656905229362431706944738206582724393134130187588235061874879761481729 := by decide
  have ha4 : nttPass zetas 8 16 1090747747569161675217892032641668726541182782220427402983697711067487549444505831669583228446651778279913104548696814454327743983725805126094327438610787439902317823005560069372391168415297249940861703580653213333845255152621986899367207860804712514742283415952654517924244911674659024763546214179481869609893449498181641819427065349899216648226433099363409549010318465686495137806463014262741177810457480730104748528564762736320737042357483589946879711391576118116865517921364589242984872876884845580069942478022427529600304485627431764621681287450656115812138138943144680436937388496970315210907940832586052166883520926944678846671078084773203480466297811382270348143767861348993138758278612751944102546944908283887839411994031644557505762038312578567973187872882505395690815901944943425504268662595782166550916060344968400237960567820691911678041217760628009379935949951698228716947508362981044054107223859631441579585955912018219891873425398356009890120309991542680829422816488813516092411556204163805116200643059784164929947764885143826690834630834032178017996064122174072219609635007735089013084957013757167553320273140212960121676237541390958717090150625752529729838253054460205086463448308835640003450374977871518229421487272343839711089366904559663187819501251097235727796055186440630700971089300718921069389725285747600451509950896167389487068274025059184360572309414761748354184413579334360804037728838502934548605952876908475307551423454453279668993177726274359921362978258177803672940315489132513245649261719939732671481718567495438136793029721155943432390365699786395452901582556404529876065777028453249365197566383846959372991281529144981824704195894152893939914581660422780514011631123799212699374031019619581990397080205270937029149322278473697187703957155228698836892063168128418684649615115096864885139636739338617098253451858846787651600479733541446360161992067813516272960745293045831361122907406086446392114867390398130478568316852594308634451587187932057137545607931906118060385610299597492110374559381588477380830418973929203944515133633738523818265162181030919849619283612257168444976529787292536362271394566221962280227085335289726354964187345423155408546448019794567253303168753298275377828544815700605182039049412757983475126342567014290907874276348389589552836712253722630378371012060316428011356584971856853149682420198307235822749976437370030123306757954615950405884656905229362431706944738206582724393134130187588235061874879761481729 = 1090747747569161675217892032641668726541182782220427402983697711067487549444505831669583228446651778279913104548696814454327743983725805126094327438610787439902317823005560069372391168415297249940861703580653213333845255152621986899367207860804712514742283415952654517924244911674659024763546214179481869609893449498181641819427065349899216648226433099363409549010318465686495137806463014262741177810457480730104748528564762736320737042357483589946879711391576118116865517921364589242984872876884845580069942478022427529600304485627431764621681287450656115812138138943144680436937388496970315210907940832586052166883520926944678846671078084773203480466297811382270348143767861348993138758278612751944102546944908283887839411994031644557505762038312578567973187872882505395690815901944943425504268662595782166550916060344968400237960567820691911678041217760628009379935949951698228716947508362981044054107223859631441579585955912018219891873425398356009890120309991542680829422816488813516092411556204163805116200643059784164929947764885143826690834630834032178017996064122174072219609635007735089013084957013757167553320273140212960121676237541390958717090150625752529729838253054460205086463448308835640003450374977871518229421487272343839711089366904559663187819501251097235727796055186440630700971089300718921069389725285747600451509950896167389487068274025059184360572309414761748354184413579334360804037728838502934548605952876908475307551423454453279668993177726274359921362978258177803672940315489132513245649261719939732671481718567495438136793029721155943432390365699786395452901582556404529876065777028453249365197566383846959372991281529144981824704195894152893939914581660422780514011631123799212699374031019619581990397080205270937029149322278473697187703957155228698836892063168128418684649615115096864885139636739338617098253451858846787651600479733541446360161992067813516272960745293045831361122907406086446392114867390398130478568316852594308634451587187932057137545607931906118060385610299597492110374559381588477380830418973929203944515133633738523818265162181030919849619283612257168444976529787292536362271394566221962280227085335289726534733477894673623600442128046473334174437109317457182079679841630651529934712824402302588677506082064644941743922202564676330094988800104364380370817096370600164988263060663272570942824552682543384068965441866340433903209807994107444376336553283429344900898652927595181603089404278398322071388059844248338433 := by decide
  have ha5 : nttPass zetas 16 8 1090747747569161675217892032641668726541182782220427402983697711067487549444505831669583228446651778279913104548696814454327743983725805126094327438610787439902317823005560069372391168415297249940861703580653213333845255152621986899367207860804712514742283415952654517924244911674659024763546214179481869609893449498181641819427065349899216648226433099363409549010318465686495137806463014262741177810457480730104748528564762736320737042357483589946879711391576118116865517921364589242984872876884845580069942478022427529600304485627431764621681287450656115812138138943144680436937388496970315210907940832586052166883520926944678846671078084773203480466297811382270348143767861348993138758278612751944102546944908283887839411994031644557505762038312578567973187872882505395690815901944943425504268662595782166550916060344968400237960567820691911678041217760628009379935949951698228716947508362981044054107223859631441579585955912018219891873425398356009890120309991542680829422816488813516092411556204163805116200643059784164929947764885143826690834630834032178017996064122174072219609635007735089013084957013757167553320273140212960121676237541390958717090150625752529729838253054460205086463448308835640003450374977871518229421487272343839711089366904559663187819501251097235727796055186440630700971089300718921069389725285747600451509950896167389487068274025059184360572309414761748354184413579334360804037728838502934548605952876908475307551423454453279668993177726274359921362978258177803672940315489132513245649261719939732671481718567495438136793029721155943432390365699786395452901582556404529876065777028453249365197566383846959372991281529144981824704195894152893939914581660422780514011631123799212699374031019619581990397080205270937029149322278473697187703957155228698836892063168128418684649615115096864885139636739338617098253451858846787651600479733541446360161992067813516272960745293045831361122907406086446392114867390398130478568316852594308634451587187932057137545607931906118060385610299597492110374559381588477380830418973929203944515133633738523818265162181030919849619283612257168444976529787292536362271394566221962280227085335289726534733477894673623600442128046473334174437109317457182079679841630651529934712824402302588677506082064644941743922202564676330094988800104364380370817096370600164988263060663272570942824552682543384068965441866340433903209807994107444376336553283429344900898652927595181603089404278398322071388059844248338433 = 1090747747569161675217892032641668726541182782220427402983697711067487549444505831669583228446651778279913104548696814454327743983725805126094327438610787439902317823005560069372391168415297249940861703580653213333845255152621986899367207860804712514742283415952654517924244911674659024763546214179481869609893449498181641819427065349899216648226433099363409549010318465686495137806463014262741177810457480730104748528564762736320737042357483589946879711391576118116865517921364589242984872876884845580069942478022427529600304485627431764621681287450656115812138138943144680436937388496970315210907940832586052166883520926944678846671078084773203480466297811382270348143767861348993138758278612751944102546944908283887839411994031644557505762038312578567973187872882505395690815901944943425504268662595782166550916060344968400237960567820691911678041217760628009379935949951698228716947508362981044054107223859631441579585955912018219891873425398356009890120309991542680829422816488813516092411556204163805116200643059784164929947764885143826690834630834032178017996064122174072219609635007735089013084957013757167553320273140212960121676237541390958717090150625752529729838253054460205086463448308835640003450374977871518229421487272343839711089366904559663187819501251097235727796055186440630700971089300718921069389725285747600451509950896167389487068274025059184360572309414761748354184413579334360804037728838502934548605952876908475307551423454453279668993177726274359921362978258177803672940315489132513245649261719939732671481718567495438136793029721155943432390365699786395452901582556404529876065777028453249365197566383846959372991281529144981824704195894152893939914581660422780514011631123799212699374031019619581990397080205270937029149322278473697187703957155228698836892063168128418684649615115096864885139636739338617098253451858846787651600479733541446360161992067813516272960745293045831361122907406086446392114867390398130478568316852594308634451587187932057137545607931906118060385610299597492110374559381588477380830418973929203944515133633738523818265162181030919849619283612257168444976529787292536362271394566221962280227085335289726534733477894673623600442128046473334174437109317457182079679841630651529934712824402302588677506082064644941743922202564676330094988800104364380370817096384007971454105587664646239423061298037027752493465306334192525593987455283117939841221296771172076392305836747080868055366900483802444290233773408460472321 := by decide
  have ha6 : nttPass zetas 32 4 1090747747569161675217892032641668726541182782220427402983697711067487549444505831669583228446651778279913104548696814454327743983725805126094327438610787439902317823005560069372391168415297249940861703580653213333845255152621986899367207860804712514742283415952654517924244911674659024763546214179481869609893449498181641819427065349899216648226433099363409549010318465686495137806463014262741177810457480730104748528564762736320737042357483589946879711391576118116865517921364589242984872876884845580069942478022427529600304485627431764621681287450656115812138138943144680436937388496970315210907940832586052166883520926944678846671078084773203480466297811382270348143767861348993138758278612751944102546944908283887839411994031644557505762038312578567973187872882505395690815901944943425504268662595782166550916060344968400237960567820691911678041217760628009379935949951698228716947508362981044054107223859631441579585955912018219891873425398356009890120309991542680829422816488813516092411556204163805116200643059784164929947764885143826690834630834032178017996064122174072219609635007735089013084957013757167553320273140212960121676237541390958717090150625752529729838253054460205086463448308835640003450374977871518229421487272343839711089366904559663187819501251097235727796055186440630700971089300718921069389725285747600451509950896167389487068274025059184360572309414761748354184413579334360804037728838502934548605952876908475307551423454453279668993177726274359921362978258177803672940315489132513245649261719939732671481718567495438136793029721155943432390365699786395452901582556404529876065777028453249365197566383846959372991281529144981824704195894152893939914581660422780514011631123799212699374031019619581990397080205270937029149322278473697187703957155228698836892063168128418684649615115096864885139636739338617098253451858846787651600479733541446360161992067813516272960745293045831361122907406086446392114867390398130478568316852594308634451587187932057137545607931906118060385610299597492110374559381588477380830418973929203944515133633738523818265162181030919849619283612257168444976529787292536362271394566221962280227085335289726534733477894673623600442128046473334174437109317457182079679841630651529934712824402302588677506082064644941743922202564676330094988800104364380370817096384007971454105587664646239423061298037027752493465306334192525593987455283117939841221296771172076392305836747080868055366900483802444290233773408460472321 = 1090747747569161675217892032641668726541182782220427402983697711067487549444505831669583228446651778279913104548696814454327743983725805126094327438610787439902317823005560069372391168415297249940861703580653213333845255152621986899367207860804712514742283415952654517924244911674659024763546214179481869609893449498181641819427065349899216648226433099363409549010318465686495137806463014262741177810457480730104748528564762736320737042357483589946879711391576118116865517921364589242984872876884845580069942478022427529600304485627431764621681287450656115812138138943144680436937388496970315210907940832586052166883520926944678846671078084773203480466297811382270348143767861348993138758278612751944102546944908283887839411994031644557505762038312578567973187872882505395690815901944943425504268662595782166550916060344968400237960567820691911678041217760628009379935949951698228716947508362981044054107223859631441579585955912018219891873425398356009890120309991542680829422816488813516092411556204163805116200643059784164929947764885143826690834630834032178017996064122174072219609635007735089013084957013757167553320273140212960121676237541390958717090150625752529729838253054460205086463448308835640003450374977871518229421487272343839711089366904559663187819501251097235727796055186440630700971089300718921069389725285747600451509950896167389487068274025059184360572309414761748354184413579334360804037728838502934548605952876908475307551423454453279668993177726274359921362978258177803672940315489132513245649261719939732671481718567495438136793029721155943432390365699786395452901582556404529876065777028453249365197566383846959372991281529144981824704195894152893939914581660422780514011631123799212699374031019619581990397080205270937029149322278473697187703957155228698836892063168128418684649615115096864885139636739338617098253451858846787651600479733541446360161992067813516272960745293045831361122907406086446392114867390398130478568316852594308634451587187932057137545607931906118060385610299597492110374559381588477380830418973929203944515133633738523818265162181030919849619283612257168444976529787292536362271394566221962280227085335289726534733477894673623600442128046473334174437109317457182079679841630651529934712824402302588677506082064644941743922202564676330094988800104364380370817096384007971454105587664646239423061298037027752493465306334192525593987455283118055633305115138087402684692118826457867370206716420312084859921829313638301697 := by decide
  have ha7 : nttPass zetas 64 2 1090747747569161675217892032641668726541182782220427402983697711067487549444505831669583228446651778279913104548696814454327743983725805126094327438610787439902317823005560069372391168415297249940861703580653213333845255152621986899367207860804712514742283415952654517924244911674659024763546214179481869609893449498181641819427065349899216648226433099363409549010318465686495137806463014262741177810457480730104748528564762736320737042357483589946879711391576118116865517921364589242984872876884845580069942478022427529600304485627431764621681287450656115812138138943144680436937388496970315210907940832586052166883520926944678846671078084773203480466297811382270348143767861348993138758278612751944102546944908283887839411994031644557505762038312578567973187872882505395690815901944943425504268662595782166550916060344968400237960567820691911678041217760628009379935949951698228716947508362981044054107223859631441579585955912018219891873425398356009890120309991542680829422816488813516092411556204163805116200643059784164929947764885143826690834630834032178017996064122174072219609635007735089013084957013757167553320273140212960121676237541390958717090150625752529729838253054460205086463448308835640003450374977871518229421487272343839711089366904559663187819501251097235727796055186440630700971089300718921069389725285747600451509950896167389487068274025059184360572309414761748354184413579334360804037728838502934548605952876908475307551423454453279668993177726274359921362978258177803672940315489132513245649261719939732671481718567495438136793029721155943432390365699786395452901582556404529876065777028453249365197566383846959372991281529144981824704195894152893939914581660422780514011631123799212699374031019619581990397080205270937029149322278473697187703957155228698836892063168128418684649615115096864885139636739338617098253451858846787651600479733541446360161992067813516272960745293045831361122907406086446392114867390398130478568316852594308634451587187932057137545607931906118060385610299597492110374559381588477380830418973929203944515133633738523818265162181030919849619283612257168444976529787292536362271394566221962280227085335289726534733477894673623600442128046473334174437109317457182079679841630651529934712824402302588677506082064644941743922202564676330094988800104364380370817096384007971454105587664646239423061298037027752493465306334192525593987455283118055633305115138087402684692118826457867370206716420312084859921829313638301697 = 1090747747569161675217892032641668726541182782220427402983697711067487549444505831669583228446651778279913104548696814454327743983725805126094327438610787439902317823005560069372391168415297249940861703580653213333845255152621986899367207860804712514742283415952654517924244911674659024763546214179481869609893449498181641819427065349899216648226433099363409549010318465686495137806463014262741177810457480730104748528564762736320737042357483589946879711391576118116865517921364589242984872876884845580069942478022427529600304485627431764621681287450656115812138138943144680436937388496970315210907940832586052166883520926944678846671078084773203480466297811382270348143767861348993138758278612751944102546944908283887839411994031644557505762038312578567973187872882505395690815901944943425504268662595782166550916060344968400237960567820691911678041217760628009379935949951698228716947508362981044054107223859631441579585955912018219891873425398356009890120309991542680829422816488813516092411556204163805116200643059784164929947764885143826690834630834032178017996064122174072219609635007735089013084957013757167553320273140212960121676237541390958717090150625752529729838253054460205086463448308835640003450374977871518229421487272343839711089366904559663187819501251097235727796055186440630700971089300718921069389725285747600451509950896167389487068274025059184360572309414761748354184413579334360804037728838502934548605952876908475307551423454453279668993177726274359921362978258177803672940315489132513245649261719939732671481718567495438136793029721155943432390365699786395452901582556404529876065777028453249365197566383846959372991281529144981824704195894152893939914581660422780514011631123799212699374031019619581990397080205270937029149322278473697187703957155228698836892063168128418684649615115096864885139636739338617098253451858846787651600479733541446360161992067813516272960745293045831361122907406086446392114867390398130478568316852594308634451587187932057137545607931906118060385610299597492110374559381588477380830418973929203944515133633738523818265162181030919849619283612257168444976529787292536362271394566221962280227085335289726534733477894673623600442128046473334174437109317457182079679841630651529934712824402302588677506082064644941743922202564676330094988800104364380370817096384007971454105587664646239423061298037027752493465306334192525593987455283118055633305115138087402684692118826457867710488929163246295546448735639464574977 := by decide
  have ha8 : nttPass zetas 128 1 1090747747569161675217892032641668726541182782220427402983697711067487549444505831669583228446651778279913104548696814454327743983725805126094327438610787439902317823005560069372391168415297249940861703580653213333845255152621986899367207860804712514742283415952654517924244911674659024763546214179481869609893449498181641819427065349899216648226433099363409549010318465686495137806463014262741177810457480730104748528564762736320737042357483589946879711391576118116865517921364589242984872876884845580069942478022427529600304485627431764621681287450656115812138138943144680436937388496970315210907940832586052166883520926944678846671078084773203480466297811382270348143767861348993138758278612751944102546944908283887839411994031644557505762038312578567973187872882505395690815901944943425504268662595782166550916060344968400237960567820691911678041217760628009379935949951698228716947508362981044054107223859631441579585955912018219891873425398356009890120309991542680829422816488813516092411556204163805116200643059784164929947764885143826690834630834032178017996064122174072219609635007735089013084957013757167553320273140212960121676237541390958717090150625752529729838253054460205086463448308835640003450374977871518229421487272343839711089366904559663187819501251097235727796055186440630700971089300718921069389725285747600451509950896167389487068274025059184360572309414761748354184413579334360804037728838502934548605952876908475307551423454453279668993177726274359921362978258177803672940315489132513245649261719939732671481718567495438136793029721155943432390365699786395452901582556404529876065777028453249365197566383846959372991281529144981824704195894152893939914581660422780514011631123799212699374031019619581990397080205270937029149322278473697187703957155228698836892063168128418684649615115096864885139636739338617098253451858846787651600479733541446360161992067813516272960745293045831361122907406086446392114867390398130478568316852594308634451587187932057137545607931906118060385610299597492110374559381588477380830418973929203944515133633738523818265162181030919849619283612257168444976529787292536362271394566221962280227085335289726534733477894673623600442128046473334174437109317457182079679841630651529934712824402302588677506082064644941743922202564676330094988800104364380370817096384007971454105587664646239423061298037027752493465306334192525593987455283118055633305115138087402684692118826457867710488929163246295546448735639464574977 = 1090747747569161675217892032641668726541182782220427402983697711067487549444505831669583228446651778279913104548696814454327743983725805126094327438610787439902317823005560069372391168415297249940861703580653213333845255152621986899367207860804712514742283415952654517924244911674659024763546214179481869609893449498181641819427065349899216648226433099363409549010318465686495137806463014262741177810457480730104748528564762736320737042357483589946879711391576118116865517921364589242984872876884845580069942478022427529600304485627431764621681287450656115812138138943144680436937388496970315210907940832586052166883520926944678846671078084773203480466297811382270348143767861348993138758278612751944102546944908283887839411994031644557505762038312578567973187872882505395690815901944943425504268662595782166550916060344968400237960567820691911678041217760628009379935949951698228716947508362981044054107223859631441579585955912018219891873425398356009890120309991542680829422816488813516092411556204163805116200643059784164929947764885143826690834630834032178017996064122174072219609635007735089013084957013757167553320273140212960121676237541390958717090150625752529729838253054460205086463448308835640003450374977871518229421487272343839711089366904559663187819501251097235727796055186440630700971089300718921069389725285747600451509950896167389487068274025059184360572309414761748354184413579334360804037728838502934548605952876908475307551423454453279668993177726274359921362978258177803672940315489132513245649261719939732671481718567495438136793029721155943432390365699786395452901582556404529876065777028453249365197566383846959372991281529144981824704195894152893939914581660422780514011631123799212699374031019619581990397080205270937029149322278473697187703957155228698836892063168128418684649615115096864885139636739338617098253451858846787651600479733541446360161992067813516272960745293045831361122907406086446392114867390398130478568316852594308634451587187932057137545607931906118060385610299597492110374559381588477380830418973929203944515133633738523818265162181030919849619283612257168444976529787292536362271394566221962280227085335289726534733477894673623600442128046473334174437109317457182079679841630651529934712824402302588677506082064644941743922202564676330094988800104364380370817096384007971454105587664646239423061298037027752493465306334192525593987455283118055633305115138087402684692118826457867710488929163246295546448735635169607682 := by decide
  have hstA : nttForwardStages 8 1 128 253959590480526892808960807680567461635978930163251397300472666087961134465671911653192768461350814258669803802891873119657363467891044929533027989109408762091516121021051190220427193033520180070702184833025475544103394854490022305427419616352274618348549178926227595005186758842325428462773772258731974510557600676593248651807896167124751958727702972314681682233682116203189058294367065666154379885259537353803828624266875119904503285986954480878386295765134516927042832235529144558011963385894172644793461943611567227187340061153062900179483173811097093664225483750850859036913606547974310935394617290133906409957566145366464966589013820697162650928559813234411405940632368120190600494275840000581839921883379323801828124836880340080397530665094832617993799077208967732962572916586967178245567954569965775464340338915820760562103871888343281360942669511080491894606399561808621315406839899866006115769168537790180957639231156735547674770996078950822941720896619621830901964668811025903406551098780297381200501489785048308894914518183685748689495639033468584799671927006188439595407186259961615836814501245113804491053692873161209354178079107193237754599526443944530579513166693639688419156557130640124814016998465136897972346277192113892530961558224680861122657080362026749123319474400601778314882330282640551673320205045384778918166188026947486093616748136387582937920506769421751025467828224418859793668888279302296743199532743863017432012617408461780933747986632136117261467118549278837405056550039357940388887368529759295786050938344349419616242116721948101083515909133197449835730085339934665262617332216393938000760515119232273920300181983103080561355014317081651380641470427557057573029778718916371977675169203184698024146779604310641722079124058352596379601523789256530882449925788854367414260959723911672257709497634479072547920971720085687307795781976586458820533372540246818692292434003040854438968291179138446290384961460705270345132941707123037137698958250000087550277031464743911584538341952073848128874189822432607294087321463166480878055026741692117902201273702867507825131746571184644872779900804510655772828875070737885848852872852543700674703336011463200675610629457718008107999042556952243079477598831846112175121924185468918024459510301907439975350312607752989896186711958151294389599428620496426531636210164990087433173418702319264601785133278987898995074362232217996182647350762799988827570756308057067584355583085599820405828222977 = 1090747747569161675217892032641668726541182782220427402983697711067487549444505831669583228446651778279913104548696814454327743983725805126094327438610787439902317823005560069372391168415297249940861703580653213333845255152621986899367207860804712514742283415952654517924244911674659024763546214179481869609893449498181641819427065349899216648226433099363409549010318465686495137806463014262741177810457480730104748528564762736320737042357483589946879711391576118116865517921364589242984872876884845580069942478022427529600304485627431764621681287450656115812138138943144680436937388496970315210907940832586052166883520926944678846671078084773203480466297811382270348143767861348993138758278612751944102546944908283887839411994031644557505762038312578567973187872882505395690815901944943425504268662595782166550916060344968400237960567820691911678041217760628009379935949951698228716947508362981044054107223859631441579585955912018219891873425398356009890120309991542680829422816488813516092411556204163805116200643059784164929947764885143826690834630834032178017996064122174072219609635007735089013084957013757167553320273140212960121676237541390958717090150625752529729838253054460205086463448308835640003450374977871518229421487272343839711089366904559663187819501251097235727796055186440630700971089300718921069389725285747600451509950896167389487068274025059184360572309414761748354184413579334360804037728838502934548605952876908475307551423454453279668993177726274359921362978258177803672940315489132513245649261719939732671481718567495438136793029721155943432390365699786395452901582556404529876065777028453249365197566383846959372991281529144981824704195894152893939914581660422780514011631123799212699374031019619581990397080205270937029149322278473697187703957155228698836892063168128418684649615115096864885139636739338617098253451858846787651600479733541446360161992067813516272960745293045831361122907406086446392114867390398130478568316852594308634451587187932057137545607931906118060385610299597492110374559381588477380830418973929203944515133633738523818265162181030919849619283612257168444976529787292536362271394566221962280227085335289726534733477894673623600442128046473334174437109317457182079679841630651529934712824402302588677506082064644941743922202564676330094988800104364380370817096384007971454105587664646239423061298037027752493465306334192525593987455283118055633305115138087402684692118826457867710488929163246295546448735635169607682 := by
    rw [show nttForwardStages 8 1 128 253959590480526892808960807680567461635978930163251397300472666087961134465671911653192768461350814258669803802891873119657363467891044929533027989109408762091516121021051190220427193033520180070702184833025475544103394854490022305427419616352274618348549178926227595005186758842325428462773772258731974510557600676593248651807896167124751958727702972314681682233682116203189058294367065666154379885259537353803828624266875119904503285986954480878386295765134516927042832235529144558011963385894172644793461943611567227187340061153062900179483173811097093664225483750850859036913606547974310935394617290133906409957566145366464966589013820697162650928559813234411405940632368120190600494275840000581839921883379323801828124836880340080397530665094832617993799077208967732962572916586967178245567954569965775464340338915820760562103871888343281360942669511080491894606399561808621315406839899866006115769168537790180957639231156735547674770996078950822941720896619621830901964668811025903406551098780297381200501489785048308894914518183685748689495639033468584799671927006188439595407186259961615836814501245113804491053692873161209354178079107193237754599526443944530579513166693639688419156557130640124814016998465136897972346277192113892530961558224680861122657080362026749123319474400601778314882330282640551673320205045384778918166188026947486093616748136387582937920506769421751025467828224418859793668888279302296743199532743863017432012617408461780933747986632136117261467118549278837405056550039357940388887368529759295786050938344349419616242116721948101083515909133197449835730085339934665262617332216393938000760515119232273920300181983103080561355014317081651380641470427557057573029778718916371977675169203184698024146779604310641722079124058352596379601523789256530882449925788854367414260959723911672257709497634479072547920971720085687307795781976586458820533372540246818692292434003040854438968291179138446290384961460705270345132941707123037137698958250000087550277031464743911584538341952073848128874189822432607294087321463166480878055026741692117902201273702867507825131746571184644872779900804510655772828875070737885848852872852543700674703336011463200675610629457718008107999042556952243079477598831846112175121924185468918024459510301907439975350312607752989896186711958151294389599428620496426531636210164990087433173418702319264601785133278987898995074362232217996182647350762799988827570756308057067584355583085599820405828222977 = nttForwardStages 7 2 64 (nttPass zetas 1 128 253959590480526892808960807680567461635978930163251397300472666087961134465671911653192768461350814258669803802891873119657363467891044929533027989109408762091516121021051190220427193033520180070702184833025475544103394854490022305427419616352274618348549178926227595005186758842325428462773772258731974510557600676593248651807896167124751958727702972314681682233682116203189058294367065666154379885259537353803828624266875119904503285986954480878386295765134516927042832235529144558011963385894172644793461943611567227187340061153062900179483173811097093664225483750850859036913606547974310935394617290133906409957566145366464966589013820697162650928559813234411405940632368120190600494275840000581839921883379323801828124836880340080397530665094832617993799077208967732962572916586967178245567954569965775464340338915820760562103871888343281360942669511080491894606399561808621315406839899866006115769168537790180957639231156735547674770996078950822941720896619621830901964668811025903406551098780297381200501489785048308894914518183685748689495639033468584799671927006188439595407186259961615836814501245113804491053692873161209354178079107193237754599526443944530579513166693639688419156557130640124814016998465136897972346277192113892530961558224680861122657080362026749123319474400601778314882330282640551673320205045384778918166188026947486093616748136387582937920506769421751025467828224418859793668888279302296743199532743863017432012617408461780933747986632136117261467118549278837405056550039357940388887368529759295786050938344349419616242116721948101083515909133197449835730085339934665262617332216393938000760515119232273920300181983103080561355014317081651380641470427557057573029778718916371977675169203184698024146779604310641722079124058352596379601523789256530882449925788854367414260959723911672257709497634479072547920971720085687307795781976586458820533372540246818692292434003040854438968291179138446290384961460705270345132941707123037137698958250000087550277031464743911584538341952073848128874189822432607294087321463166480878055026741692117902201273702867507825131746571184644872779900804510655772828875070737885848852872852543700674703336011463200675610629457718008107999042556952243079477598831846112175121924185468918024459510301907439975350312607752989896186711958151294389599428620496426531636210164990087433173418702319264601785133278987898995074362232217996182647350762799988827570756308057067584355583085599820405828222977) from rfl,
        ha1,
        show nttForwardStages 7 2 64 1090747747569161675217892032641668726541182782220427402983697711067487549444505831669583228446651778279913104548696814454327743983725805126094327438610787439902317823005560069372391168415297249940861703580653213333845255152621986899367207860804712514742283415952654517924244911674659024763546214179481869609893449498181641819427065349899216648226433099363409549010318465686495137806463014262741177810457480730104748528564762736320737042357483589946879711391576118116865517921364589242984872876884845580069942478022427529600304485627431764621681287450656115812138138943144680436937388496970315210907940832586052166883520926944678846671078084773203480466297811382270348143767861348993138758278612751944102546944908283887839411994031644557505762038312578567973187872882505395690815901944943425504268662595782166550916060344968400237960567820691911678041217760628009379935949951698228716947508362981044054107223859631441579585955912018219891873425398356009890120309991542680829422816488813516092411556204163805116200643059784164929947764885143826690834630834032178017996064122174072219609635007735089013084957013757167553320273140212960121676237541390958717090150625752529729838253054460205086463448308835640003450374977871518229421487271299451377042284973183018199668257683729300787644141190248413948915249235917415737653945054437638149707485389681531385981414404402976585862683300507186132012767829365574750827816606136942676121441741091932006443917725509440235356406301216111281998191550480514848001589432372062046887510938809135594080803961179312612619692304956464667469668282838237369838455535957915938932607215065365998153507946434082093699028373151830130263798957445910965031058209899408700005276917837712713103483036682971769325035614229865937261890753300215115930210009407424691430979539932152766625345614258259535605345445523630724510230194745288316772918629852892776427963507252841691412115988724012970295757181203029532716153905922008366622513102408435054641213820147869684041635063560309523455165109095224516898522862642189122001863910106621000890754242812506953061834241357848461047044766561331702379903742022825449466455197420665797476418439633138378645681936643383989612846741869599801400322664379843455208678059975894917852956700528872365192367990884223708768030559152085619616173796790498076946278748908336657089899655775369003908180894943271301503953734886448719778672222645023735226492077988849339247507168111441350141182619644353236018502651351138305 = nttForwardStages 6 4 32 (nttPass zetas 2 64 1090747747569161675217892032641668726541182782220427402983697711067487549444505831669583228446651778279913104548696814454327743983725805126094327438610787439902317823005560069372391168415297249940861703580653213333845255152621986899367207860804712514742283415952654517924244911674659024763546214179481869609893449498181641819427065349899216648226433099363409549010318465686495137806463014262741177810457480730104748528564762736320737042357483589946879711391576118116865517921364589242984872876884845580069942478022427529600304485627431764621681287450656115812138138943144680436937388496970315210907940832586052166883520926944678846671078084773203480466297811382270348143767861348993138758278612751944102546944908283887839411994031644557505762038312578567973187872882505395690815901944943425504268662595782166550916060344968400237960567820691911678041217760628009379935949951698228716947508362981044054107223859631441579585955912018219891873425398356009890120309991542680829422816488813516092411556204163805116200643059784164929947764885143826690834630834032178017996064122174072219609635007735089013084957013757167553320273140212960121676237541390958717090150625752529729838253054460205086463448308835640003450374977871518229421487271299451377042284973183018199668257683729300787644141190248413948915249235917415737653945054437638149707485389681531385981414404402976585862683300507186132012767829365574750827816606136942676121441741091932006443917725509440235356406301216111281998191550480514848001589432372062046887510938809135594080803961179312612619692304956464667469668282838237369838455535957915938932607215065365998153507946434082093699028373151830130263798957445910965031058209899408700005276917837712713103483036682971769325035614229865937261890753300215115930210009407424691430979539932152766625345614258259535605345445523630724510230194745288316772918629852892776427963507252841691412115988724012970295757181203029532716153905922008366622513102408435054641213820147869684041635063560309523455165109095224516898522862642189122001863910106621000890754242812506953061834241357848461047044766561331702379903742022825449466455197420665797476418439633138378645681936643383989612846741869599801400322664379843455208678059975894917852956700528872365192367990884223708768030559152085619616173796790498076946278748908336657089899655775369003908180894943271301503953734886448719778672222645023735226492077988849339247507168111441350141182619644353236018502651351138305) from rfl,
        ha2,
        show nttForwardStages 6 4 32 1090747747569161675217892032641668726541182782220427402983697711067487549444505831669583228446651778279913104548696814454327743983725805126094327438610787439902317823005560069372391168415297249940861703580653213333845255152621986899367207860804712514742283415952654517924244911674659024763546214179481869609893449498181641819427065349899216648226433099363409549010318465686495137806463014262741177810457480730104748528564762736320737042357483589946879711391576118116865517921364589242984872876884845580069942478022427529600304485627431764621681287450656115812138138943144680436937388496970315210907940832586052166883520926944678846671078084773203480466297811382270348143767861348993138758278612751944102546944908283887839411994031644557505762038312578567973187872882505395690815901944943425504268662595782166550916060344968400237960567820691911678041217760628009379935949951698228716947508362981044054107223859631441579585955912018219891873425398356009890120309991542680829422816488813516092411556204163805116200643059784164929947764885143826690834630834032178017996064122174072219609635007735089013084957013757167553320273140212960121676237541390958717090150625752529729838253054460205086463448308835640003450374977871518229421487272343839711089366904559663187819501251097235727796055186440630700971089300718921069389725285747600451509950896167389487068274025059184360572309414761748354184413579334360804037728838502934548605952876908475307551423454453279668993177726274359921362978258177803672940315489132513245649261719939732671481718567495438136793029721155943432390365699786395452901582556404529876065777028453249365197566383846959372991281529144981824704195894152893939914581660422780514011631123799212699374031019619581990397080205270937029149322278473697187703957155228698836892063168128418684649615115096864885139636739338617098253451858846755334597674007501000065116608734181137145444387656562704508001258902708294146552441083727297651221386517159240999477222095426935902413535546677793968252268504786403791777131674036822272751453199565004327312379167289206989117993169948974949009501422253780089769851239074756026640713437105366866710537526168637084274066480535314179216897020339109268011403667281796539080866271515301407079272597769975253853514255039399998916563987275512607924463633427240874283323539627346529564408859552441073322631905892115453271482215419905554870804293798426751481209515449046387830802557304840358437130172225916588001671455524782081 = nttForwardStages 5 8 16 (nttPass zetas 4 32 1090747747569161675217892032641668726541182782220427402983697711067487549444505831669583228446651778279913104548696814454327743983725805126094327438610787439902317823005560069372391168415297249940861703580653213333845255152621986899367207860804712514742283415952654517924244911674659024763546214179481869609893449498181641819427065349899216648226433099363409549010318465686495137806463014262741177810457480730104748528564762736320737042357483589946879711391576118116865517921364589242984872876884845580069942478022427529600304485627431764621681287450656115812138138943144680436937388496970315210907940832586052166883520926944678846671078084773203480466297811382270348143767861348993138758278612751944102546944908283887839411994031644557505762038312578567973187872882505395690815901944943425504268662595782166550916060344968400237960567820691911678041217760628009379935949951698228716947508362981044054107223859631441579585955912018219891873425398356009890120309991542680829422816488813516092411556204163805116200643059784164929947764885143826690834630834032178017996064122174072219609635007735089013084957013757167553320273140212960121676237541390958717090150625752529729838253054460205086463448308835640003450374977871518229421487272343839711089366904559663187819501251097235727796055186440630700971089300718921069389725285747600451509950896167389487068274025059184360572309414761748354184413579334360804037728838502934548605952876908475307551423454453279668993177726274359921362978258177803672940315489132513245649261719939732671481718567495438136793029721155943432390365699786395452901582556404529876065777028453249365197566383846959372991281529144981824704195894152893939914581660422780514011631123799212699374031019619581990397080205270937029149322278473697187703957155228698836892063168128418684649615115096864885139636739338617098253451858846755334597674007501000065116608734181137145444387656562704508001258902708294146552441083727297651221386517159240999477222095426935902413535546677793968252268504786403791777131674036822272751453199565004327312379167289206989117993169948974949009501422253780089769851239074756026640713437105366866710537526168637084274066480535314179216897020339109268011403667281796539080866271515301407079272597769975253853514255039399998916563987275512607924463633427240874283323539627346529564408859552441073322631905892115453271482215419905554870804293798426751481209515449046387830802557304840358437130172225916588001671455524782081) from rfl,
        ha3,
        show nttForwardStages 5 8 16 1090747747569161675217892032641668726541182782220427402983697711067487549444505831669583228446651778279913104548696814454327743983725805126094327438610787439902317823005560069372391168415297249940861703580653213333845255152621986899367207860804712514742283415952654517924244911674659024763546214179481869609893449498181641819427065349899216648226433099363409549010318465686495137806463014262741177810457480730104748528564762736320737042357483589946879711391576118116865517921364589242984872876884845580069942478022427529600304485627431764621681287450656115812138138943144680436937388496970315210907940832586052166883520926944678846671078084773203480466297811382270348143767861348993138758278612751944102546944908283887839411994031644557505762038312578567973187872882505395690815901944943425504268662595782166550916060344968400237960567820691911678041217760628009379935949951698228716947508362981044054107223859631441579585955912018219891873425398356009890120309991542680829422816488813516092411556204163805116200643059784164929947764885143826690834630834032178017996064122174072219609635007735089013084957013757167553320273140212960121676237541390958717090150625752529729838253054460205086463448308835640003450374977871518229421487272343839711089366904559663187819501251097235727796055186440630700971089300718921069389725285747600451509950896167389487068274025059184360572309414761748354184413579334360804037728838502934548605952876908475307551423454453279668993177726274359921362978258177803672940315489132513245649261719939732671481718567495438136793029721155943432390365699786395452901582556404529876065777028453249365197566383846959372991281529144981824704195894152893939914581660422780514011631123799212699374031019619581990397080205270937029149322278473697187703957155228698836892063168128418684649615115096864885139636739338617098253451858846787651600479733541446360161992067813516272960745293045831361122907406086446392114867390398130478568316852594308634451587187932057137545607931906118060385610299597492110374559381588477380830418973929203944515133633738523818265162181030919849619283612257168444976529787292536362271394566221962280227085335289726354964187345423155408546448019794567253303168753298275377828544815700605182039049412757983475126342567014290907874276348389589552836712253722630378371012060316428011356584971856853149682420198307235822749976437370030123306757954615950405884656905229362431706944738206582724393134130187588235061874879761481729 = nttForwardStages 4 16 8 (nttPass zetas 8 16 1090747747569161675217892032641668726541182782220427402983697711067487549444505831669583228446651778279913104548696814454327743983725805126094327438610787439902317823005560069372391168415297249940861703580653213333845255152621986899367207860804712514742283415952654517924244911674659024763546214179481869609893449498181641819427065349899216648226433099363409549010318465686495137806463014262741177810457480730104748528564762736320737042357483589946879711391576118116865517921364589242984872876884845580069942478022427529600304485627431764621681287450656115812138138943144680436937388496970315210907940832586052166883520926944678846671078084773203480466297811382270348143767861348993138758278612751944102546944908283887839411994031644557505762038312578567973187872882505395690815901944943425504268662595782166550916060344968400237960567820691911678041217760628009379935949951698228716947508362981044054107223859631441579585955912018219891873425398356009890120309991542680829422816488813516092411556204163805116200643059784164929947764885143826690834630834032178017996064122174072219609635007735089013084957013757167553320273140212960121676237541390958717090150625752529729838253054460205086463448308835640003450374977871518229421487272343839711089366904559663187819501251097235727796055186440630700971089300718921069389725285747600451509950896167389487068274025059184360572309414761748354184413579334360804037728838502934548605952876908475307551423454453279668993177726274359921362978258177803672940315489132513245649261719939732671481718567495438136793029721155943432390365699786395452901582556404529876065777028453249365197566383846959372991281529144981824704195894152893939914581660422780514011631123799212699374031019619581990397080205270937029149322278473697187703957155228698836892063168128418684649615115096864885139636739338617098253451858846787651600479733541446360161992067813516272960745293045831361122907406086446392114867390398130478568316852594308634451587187932057137545607931906118060385610299597492110374559381588477380830418973929203944515133633738523818265162181030919849619283612257168444976529787292536362271394566221962280227085335289726354964187345423155408546448019794567253303168753298275377828544815700605182039049412757983475126342567014290907874276348389589552836712253722630378371012060316428011356584971856853149682420198307235822749976437370030123306757954615950405884656905229362431706944738206582724393134130187588235061874879761481729) from rfl,
        ha4,
        show nttForwardStages 4 16 8 1090747747569161675217892032641668726541182782220427402983697711067487549444505831669583228446651778279913104548696814454327743983725805126094327438610787439902317823005560069372391168415297249940861703580653213333845255152621986899367207860804712514742283415952654517924244911674659024763546214179481869609893449498181641819427065349899216648226433099363409549010318465686495137806463014262741177810457480730104748528564762736320737042357483589946879711391576118116865517921364589242984872876884845580069942478022427529600304485627431764621681287450656115812138138943144680436937388496970315210907940832586052166883520926944678846671078084773203480466297811382270348143767861348993138758278612751944102546944908283887839411994031644557505762038312578567973187872882505395690815901944943425504268662595782166550916060344968400237960567820691911678041217760628009379935949951698228716947508362981044054107223859631441579585955912018219891873425398356009890120309991542680829422816488813516092411556204163805116200643059784164929947764885143826690834630834032178017996064122174072219609635007735089013084957013757167553320273140212960121676237541390958717090150625752529729838253054460205086463448308835640003450374977871518229421487272343839711089366904559663187819501251097235727796055186440630700971089300718921069389725285747600451509950896167389487068274025059184360572309414761748354184413579334360804037728838502934548605952876908475307551423454453279668993177726274359921362978258177803672940315489132513245649261719939732671481718567495438136793029721155943432390365699786395452901582556404529876065777028453249365197566383846959372991281529144981824704195894152893939914581660422780514011631123799212699374031019619581990397080205270937029149322278473697187703957155228698836892063168128418684649615115096864885139636739338617098253451858846787651600479733541446360161992067813516272960745293045831361122907406086446392114867390398130478568316852594308634451587187932057137545607931906118060385610299597492110374559381588477380830418973929203944515133633738523818265162181030919849619283612257168444976529787292536362271394566221962280227085335289726534733477894673623600442128046473334174437109317457182079679841630651529934712824402302588677506082064644941743922202564676330094988800104364380370817096370600164988263060663272570942824552682543384068965441866340433903209807994107444376336553283429344900898652927595181603089404278398322071388059844248338433 = nttForwardStages 3 32 4 (nttPass zetas 16 8 1090747747569161675217892032641668726541182782220427402983697711067487549444505831669583228446651778279913104548696814454327743983725805126094327438610787439902317823005560069372391168415297249940861703580653213333845255152621986899367207860804712514742283415952654517924244911674659024763546214179481869609893449498181641819427065349899216648226433099363409549010318465686495137806463014262741177810457480730104748528564762736320737042357483589946879711391576118116865517921364589242984872876884845580069942478022427529600304485627431764621681287450656115812138138943144680436937388496970315210907940832586052166883520926944678846671078084773203480466297811382270348143767861348993138758278612751944102546944908283887839411994031644557505762038312578567973187872882505395690815901944943425504268662595782166550916060344968400237960567820691911678041217760628009379935949951698228716947508362981044054107223859631441579585955912018219891873425398356009890120309991542680829422816488813516092411556204163805116200643059784164929947764885143826690834630834032178017996064122174072219609635007735089013084957013757167553320273140212960121676237541390958717090150625752529729838253054460205086463448308835640003450374977871518229421487272343839711089366904559663187819501251097235727796055186440630700971089300718921069389725285747600451509950896167389487068274025059184360572309414761748354184413579334360804037728838502934548605952876908475307551423454453279668993177726274359921362978258177803672940315489132513245649261719939732671481718567495438136793029721155943432390365699786395452901582556404529876065777028453249365197566383846959372991281529144981824704195894152893939914581660422780514011631123799212699374031019619581990397080205270937029149322278473697187703957155228698836892063168128418684649615115096864885139636739338617098253451858846787651600479733541446360161992067813516272960745293045831361122907406086446392114867390398130478568316852594308634451587187932057137545607931906118060385610299597492110374559381588477380830418973929203944515133633738523818265162181030919849619283612257168444976529787292536362271394566221962280227085335289726534733477894673623600442128046473334174437109317457182079679841630651529934712824402302588677506082064644941743922202564676330094988800104364380370817096370600164988263060663272570942824552682543384068965441866340433903209807994107444376336553283429344900898652927595181603089404278398322071388059844248338433) from rfl,
        ha5,
        show nttForwardStages 3 32 4 1090747747569161675217892032641668726541182782220427402983697711067487549444505831669583228446651778279913104548696814454327743983725805126094327438610787439902317823005560069372391168415297249940861703580653213333845255152621986899367207860804712514742283415952654517924244911674659024763546214179481869609893449498181641819427065349899216648226433099363409549010318465686495137806463014262741177810457480730104748528564762736320737042357483589946879711391576118116865517921364589242984872876884845580069942478022427529600304485627431764621681287450656115812138138943144680436937388496970315210907940832586052166883520926944678846671078084773203480466297811382270348143767861348993138758278612751944102546944908283887839411994031644557505762038312578567973187872882505395690815901944943425504268662595782166550916060344968400237960567820691911678041217760628009379935949951698228716947508362981044054107223859631441579585955912018219891873425398356009890120309991542680829422816488813516092411556204163805116200643059784164929947764885143826690834630834032178017996064122174072219609635007735089013084957013757167553320273140212960121676237541390958717090150625752529729838253054460205086463448308835640003450374977871518229421487272343839711089366904559663187819501251097235727796055186440630700971089300718921069389725285747600451509950896167389487068274025059184360572309414761748354184413579334360804037728838502934548605952876908475307551423454453279668993177726274359921362978258177803672940315489132513245649261719939732671481718567495438136793029721155943432390365699786395452901582556404529876065777028453249365197566383846959372991281529144981824704195894152893939914581660422780514011631123799212699374031019619581990397080205270937029149322278473697187703957155228698836892063168128418684649615115096864885139636739338617098253451858846787651600479733541446360161992067813516272960745293045831361122907406086446392114867390398130478568316852594308634451587187932057137545607931906118060385610299597492110374559381588477380830418973929203944515133633738523818265162181030919849619283612257168444976529787292536362271394566221962280227085335289726534733477894673623600442128046473334174437109317457182079679841630651529934712824402302588677506082064644941743922202564676330094988800104364380370817096384007971454105587664646239423061298037027752493465306334192525593987455283117939841221296771172076392305836747080868055366900483802444290233773408460472321 = nttForwardStages 2 64 2 (nttPass zetas 32 4 1090747747569161675217892032641668726541182782220427402983697711067487549444505831669583228446651778279913104548696814454327743983725805126094327438610787439902317823005560069372391168415297249940861703580653213333845255152621986899367207860804712514742283415952654517924244911674659024763546214179481869609893449498181641819427065349899216648226433099363409549010318465686495137806463014262741177810457480730104748528564762736320737042357483589946879711391576118116865517921364589242984872876884845580069942478022427529600304485627431764621681287450656115812138138943144680436937388496970315210907940832586052166883520926944678846671078084773203480466297811382270348143767861348993138758278612751944102546944908283887839411994031644557505762038312578567973187872882505395690815901944943425504268662595782166550916060344968400237960567820691911678041217760628009379935949951698228716947508362981044054107223859631441579585955912018219891873425398356009890120309991542680829422816488813516092411556204163805116200643059784164929947764885143826690834630834032178017996064122174072219609635007735089013084957013757167553320273140212960121676237541390958717090150625752529729838253054460205086463448308835640003450374977871518229421487272343839711089366904559663187819501251097235727796055186440630700971089300718921069389725285747600451509950896167389487068274025059184360572309414761748354184413579334360804037728838502934548605952876908475307551423454453279668993177726274359921362978258177803672940315489132513245649261719939732671481718567495438136793029721155943432390365699786395452901582556404529876065777028453249365197566383846959372991281529144981824704195894152893939914581660422780514011631123799212699374031019619581990397080205270937029149322278473697187703957155228698836892063168128418684649615115096864885139636739338617098253451858846787651600479733541446360161992067813516272960745293045831361122907406086446392114867390398130478568316852594308634451587187932057137545607931906118060385610299597492110374559381588477380830418973929203944515133633738523818265162181030919849619283612257168444976529787292536362271394566221962280227085335289726534733477894673623600442128046473334174437109317457182079679841630651529934712824402302588677506082064644941743922202564676330094988800104364380370817096384007971454105587664646239423061298037027752493465306334192525593987455283117939841221296771172076392305836747080868055366900483802444290233773408460472321) from rfl,
        ha6,
        show nttForwardStages 2 64 2 1090747747569161675217892032641668726541182782220427402983697711067487549444505831669583228446651778279913104548696814454327743983725805126094327438610787439902317823005560069372391168415297249940861703580653213333845255152621986899367207860804712514742283415952654517924244911674659024763546214179481869609893449498181641819427065349899216648226433099363409549010318465686495137806463014262741177810457480730104748528564762736320737042357483589946879711391576118116865517921364589242984872876884845580069942478022427529600304485627431764621681287450656115812138138943144680436937388496970315210907940832586052166883520926944678846671078084773203480466297811382270348143767861348993138758278612751944102546944908283887839411994031644557505762038312578567973187872882505395690815901944943425504268662595782166550916060344968400237960567820691911678041217760628009379935949951698228716947508362981044054107223859631441579585955912018219891873425398356009890120309991542680829422816488813516092411556204163805116200643059784164929947764885143826690834630834032178017996064122174072219609635007735089013084957013757167553320273140212960121676237541390958717090150625752529729838253054460205086463448308835640003450374977871518229421487272343839711089366904559663187819501251097235727796055186440630700971089300718921069389725285747600451509950896167389487068274025059184360572309414761748354184413579334360804037728838502934548605952876908475307551423454453279668993177726274359921362978258177803672940315489132513245649261719939732671481718567495438136793029721155943432390365699786395452901582556404529876065777028453249365197566383846959372991281529144981824704195894152893939914581660422780514011631123799212699374031019619581990397080205270937029149322278473697187703957155228698836892063168128418684649615115096864885139636739338617098253451858846787651600479733541446360161992067813516272960745293045831361122907406086446392114867390398130478568316852594308634451587187932057137545607931906118060385610299597492110374559381588477380830418973929203944515133633738523818265162181030919849619283612257168444976529787292536362271394566221962280227085335289726534733477894673623600442128046473334174437109317457182079679841630651529934712824402302588677506082064644941743922202564676330094988800104364380370817096384007971454105587664646239423061298037027752493465306334192525593987455283118055633305115138087402684692118826457867370206716420312084859921829313638301697 = nttForwardStages 1 128 1 (nttPass zetas 64 2 1090747747569161675217892032641668726541182782220427402983697711067487549444505831669583228446651778279913104548696814454327743983725805126094327438610787439902317823005560069372391168415297249940861703580653213333845255152621986899367207860804712514742283415952654517924244911674659024763546214179481869609893449498181641819427065349899216648226433099363409549010318465686495137806463014262741177810457480730104748528564762736320737042357483589946879711391576118116865517921364589242984872876884845580069942478022427529600304485627431764621681287450656115812138138943144680436937388496970315210907940832586052166883520926944678846671078084773203480466297811382270348143767861348993138758278612751944102546944908283887839411994031644557505762038312578567973187872882505395690815901944943425504268662595782166550916060344968400237960567820691911678041217760628009379935949951698228716947508362981044054107223859631441579585955912018219891873425398356009890120309991542680829422816488813516092411556204163805116200643059784164929947764885143826690834630834032178017996064122174072219609635007735089013084957013757167553320273140212960121676237541390958717090150625752529729838253054460205086463448308835640003450374977871518229421487272343839711089366904559663187819501251097235727796055186440630700971089300718921069389725285747600451509950896167389487068274025059184360572309414761748354184413579334360804037728838502934548605952876908475307551423454453279668993177726274359921362978258177803672940315489132513245649261719939732671481718567495438136793029721155943432390365699786395452901582556404529876065777028453249365197566383846959372991281529144981824704195894152893939914581660422780514011631123799212699374031019619581990397080205270937029149322278473697187703957155228698836892063168128418684649615115096864885139636739338617098253451858846787651600479733541446360161992067813516272960745293045831361122907406086446392114867390398130478568316852594308634451587187932057137545607931906118060385610299597492110374559381588477380830418973929203944515133633738523818265162181030919849619283612257168444976529787292536362271394566221962280227085335289726534733477894673623600442128046473334174437109317457182079679841630651529934712824402302588677506082064644941743922202564676330094988800104364380370817096384007971454105587664646239423061298037027752493465306334192525593987455283118055633305115138087402684692118826457867370206716420312084859921829313638301697) from rfl,
        ha7,
        show nttForwardStages 1 128 1 1090747747569161675217892032641668726541182782220427402983697711067487549444505831669583228446651778279913104548696814454327743983725805126094327438610787439902317823005560069372391168415297249940861703580653213333845255152621986899367207860804712514742283415952654517924244911674659024763546214179481869609893449498181641819427065349899216648226433099363409549010318465686495137806463014262741177810457480730104748528564762736320737042357483589946879711391576118116865517921364589242984872876884845580069942478022427529600304485627431764621681287450656115812138138943144680436937388496970315210907940832586052166883520926944678846671078084773203480466297811382270348143767861348993138758278612751944102546944908283887839411994031644557505762038312578567973187872882505395690815901944943425504268662595782166550916060344968400237960567820691911678041217760628009379935949951698228716947508362981044054107223859631441579585955912018219891873425398356009890120309991542680829422816488813516092411556204163805116200643059784164929947764885143826690834630834032178017996064122174072219609635007735089013084957013757167553320273140212960121676237541390958717090150625752529729838253054460205086463448308835640003450374977871518229421487272343839711089366904559663187819501251097235727796055186440630700971089300718921069389725285747600451509950896167389487068274025059184360572309414761748354184413579334360804037728838502934548605952876908475307551423454453279668993177726274359921362978258177803672940315489132513245649261719939732671481718567495438136793029721155943432390365699786395452901582556404529876065777028453249365197566383846959372991281529144981824704195894152893939914581660422780514011631123799212699374031019619581990397080205270937029149322278473697187703957155228698836892063168128418684649615115096864885139636739338617098253451858846787651600479733541446360161992067813516272960745293045831361122907406086446392114867390398130478568316852594308634451587187932057137545607931906118060385610299597492110374559381588477380830418973929203944515133633738523818265162181030919849619283612257168444976529787292536362271394566221962280227085335289726534733477894673623600442128046473334174437109317457182079679841630651529934712824402302588677506082064644941743922202564676330094988800104364380370817096384007971454105587664646239423061298037027752493465306334192525593987455283118055633305115138087402684692118826457867710488929163246295546448735639464574977 = nttForwardStages 0 256 0 (nttPass zetas 128 1 1090747747569161675217892032641668726541182782220427402983697711067487549444505831669583228446651778279913104548696814454327743983725805126094327438610787439902317823005560069372391168415297249940861703580653213333845255152621986899367207860804712514742283415952654517924244911674659024763546214179481869609893449498181641819427065349899216648226433099363409549010318465686495137806463014262741177810457480730104748528564762736320737042357483589946879711391576118116865517921364589242984872876884845580069942478022427529600304485627431764621681287450656115812138138943144680436937388496970315210907940832586052166883520926944678846671078084773203480466297811382270348143767861348993138758278612751944102546944908283887839411994031644557505762038312578567973187872882505395690815901944943425504268662595782166550916060344968400237960567820691911678041217760628009379935949951698228716947508362981044054107223859631441579585955912018219891873425398356009890120309991542680829422816488813516092411556204163805116200643059784164929947764885143826690834630834032178017996064122174072219609635007735089013084957013757167553320273140212960121676237541390958717090150625752529729838253054460205086463448308835640003450374977871518229421487272343839711089366904559663187819501251097235727796055186440630700971089300718921069389725285747600451509950896167389487068274025059184360572309414761748354184413579334360804037728838502934548605952876908475307551423454453279668993177726274359921362978258177803672940315489132513245649261719939732671481718567495438136793029721155943432390365699786395452901582556404529876065777028453249365197566383846959372991281529144981824704195894152893939914581660422780514011631123799212699374031019619581990397080205270937029149322278473697187703957155228698836892063168128418684649615115096864885139636739338617098253451858846787651600479733541446360161992067813516272960745293045831361122907406086446392114867390398130478568316852594308634451587187932057137545607931906118060385610299597492110374559381588477380830418973929203944515133633738523818265162181030919849619283612257168444976529787292536362271394566221962280227085335289726534733477894673623600442128046473334174437109317457182079679841630651529934712824402302588677506082064644941743922202564676330094988800104364380370817096384007971454105587664646239423061298037027752493465306334192525593987455283118055633305115138087402684692118826457867710488929163246295546448735639464574977) from rfl,
        ha8,
        show nttForwardStages 0 256 0 1090747747569161675217892032641668726541182782220427402983697711067487549444505831669583228446651778279913104548696814454327743983725805126094327438610787439902317823005560069372391168415297249940861703580653213333845255152621986899367207860804712514742283415952654517924244911674659024763546214179481869609893449498181641819427065349899216648226433099363409549010318465686495137806463014262741177810457480730104748528564762736320737042357483589946879711391576118116865517921364589242984872876884845580069942478022427529600304485627431764621681287450656115812138138943144680436937388496970315210907940832586052166883520926944678846671078084773203480466297811382270348143767861348993138758278612751944102546944908283887839411994031644557505762038312578567973187872882505395690815901944943425504268662595782166550916060344968400237960567820691911678041217760628009379935949951698228716947508362981044054107223859631441579585955912018219891873425398356009890120309991542680829422816488813516092411556204163805116200643059784164929947764885143826690834630834032178017996064122174072219609635007735089013084957013757167553320273140212960121676237541390958717090150625752529729838253054460205086463448308835640003450374977871518229421487272343839711089366904559663187819501251097235727796055186440630700971089300718921069389725285747600451509950896167389487068274025059184360572309414761748354184413579334360804037728838502934548605952876908475307551423454453279668993177726274359921362978258177803672940315489132513245649261719939732671481718567495438136793029721155943432390365699786395452901582556404529876065777028453249365197566383846959372991281529144981824704195894152893939914581660422780514011631123799212699374031019619581990397080205270937029149322278473697187703957155228698836892063168128418684649615115096864885139636739338617098253451858846787651600479733541446360161992067813516272960745293045831361122907406086446392114867390398130478568316852594308634451587187932057137545607931906118060385610299597492110374559381588477380830418973929203944515133633738523818265162181030919849619283612257168444976529787292536362271394566221962280227085335289726534733477894673623600442128046473334174437109317457182079679841630651529934712824402302588677506082064644941743922202564676330094988800104364380370817096384007971454105587664646239423061298037027752493465306334192525593987455283118055633305115138087402684692118826457867710488929163246295546448735635169607682 = 1090747747569161675217892032641668726541182782220427402983697711067487549444505831669583228446651778279913104548696814454327743983725805126094327438610787439902317823005560069372391168415297249940861703580653213333845255152621986899367207860804712514742283415952654517924244911674659024763546214179481869609893449498181641819427065349899216648226433099363409549010318465686495137806463014262741177810457480730104748528564762736320737042357483589946879711391576118116865517921364589242984872876884845580069942478022427529600304485627431764621681287450656115812138138943144680436937388496970315210907940832586052166883520926944678846671078084773203480466297811382270348143767861348993138758278612751944102546944908283887839411994031644557505762038312578567973187872882505395690815901944943425504268662595782166550916060344968400237960567820691911678041217760628009379935949951698228716947508362981044054107223859631441579585955912018219891873425398356009890120309991542680829422816488813516092411556204163805116200643059784164929947764885143826690834630834032178017996064122174072219609635007735089013084957013757167553320273140212960121676237541390958717090150625752529729838253054460205086463448308835640003450374977871518229421487272343839711089366904559663187819501251097235727796055186440630700971089300718921069389725285747600451509950896167389487068274025059184360572309414761748354184413579334360804037728838502934548605952876908475307551423454453279668993177726274359921362978258177803672940315489132513245649261719939732671481718567495438136793029721155943432390365699786395452901582556404529876065777028453249365197566383846959372991281529144981824704195894152893939914581660422780514011631123799212699374031019619581990397080205270937029149322278473697187703957155228698836892063168128418684649615115096864885139636739338617098253451858846787651600479733541446360161992067813516272960745293045831361122907406086446392114867390398130478568316852594308634451587187932057137545607931906118060385610299597492110374559381588477380830418973929203944515133633738523818265162181030919849619283612257168444976529787292536362271394566221962280227085335289726534733477894673623600442128046473334174437109317457182079679841630651529934712824402302588677506082064644941743922202564676330094988800104364380370817096384007971454105587664646239423061298037027752493465306334192525593987455283118055633305115138087402684692118826457867710488929163246295546448735635169607682 from rfl]
  have hfa : nttForward onePlusXPow255 = unpackPoly 1090747747569161675217892032641668726541182782220427402983697711067487549444505831669583228446651778279913104548696814454327743983725805126094327438610787439902317823005560069372391168415297249940861703580653213333845255152621986899367207860804712514742283415952654517924244911674659024763546214179481869609893449498181641819427065349899216648226433099363409549010318465686495137806463014262741177810457480730104748528564762736320737042357483589946879711391576118116865517921364589242984872876884845580069942478022427529600304485627431764621681287450656115812138138943144680436937388496970315210907940832586052166883520926944678846671078084773203480466297811382270348143767861348993138758278612751944102546944908283887839411994031644557505762038312578567973187872882505395690815901944943425504268662595782166550916060344968400237960567820691911678041217760628009379935949951698228716947508362981044054107223859631441579585955912018219891873425398356009890120309991542680829422816488813516092411556204163805116200643059784164929947764885143826690834630834032178017996064122174072219609635007735089013084957013757167553320273140212960121676237541390958717090150625752529729838253054460205086463448308835640003450374977871518229421487272343839711089366904559663187819501251097235727796055186440630700971089300718921069389725285747600451509950896167389487068274025059184360572309414761748354184413579334360804037728838502934548605952876908475307551423454453279668993177726274359921362978258177803672940315489132513245649261719939732671481718567495438136793029721155943432390365699786395452901582556404529876065777028453249365197566383846959372991281529144981824704195894152893939914581660422780514011631123799212699374031019619581990397080205270937029149322278473697187703957155228698836892063168128418684649615115096864885139636739338617098253451858846787651600479733541446360161992067813516272960745293045831361122907406086446392114867390398130478568316852594308634451587187932057137545607931906118060385610299597492110374559381588477380830418973929203944515133633738523818265162181030919849619283612257168444976529787292536362271394566221962280227085335289726534733477894673623600442128046473334174437109317457182079679841630651529934712824402302588677506082064644941743922202564676330094988800104364380370817096384007971454105587664646239423061298037027752493465306334192525593987455283118055633305115138087402684692118826457867710488929163246295546448735635169607682 := by
    rw [show nttForward onePlusXPow255 = unpackPoly (nttForwardStages 8 1 (N / 2) (packPoly onePlusXPow255)) from rfl,
        show (N / 2 : ℕ) = 128 from rfl,
        show packPoly onePlusXPow255 = 253959590480526892808960807680567461635978930163251397300472666087961134465671911653192768461350814258669803802891873119657363467891044929533027989109408762091516121021051190220427193033520180070702184833025475544103394854490022305427419616352274618348549178926227595005186758842325428462773772258731974510557600676593248651807896167124751958727702972314681682233682116203189058294367065666154379885259537353803828624266875119904503285986954480878386295765134516927042832235529144558011963385894172644793461943611567227187340061153062900179483173811097093664225483750850859036913606547974310935394617290133906409957566145366464966589013820697162650928559813234411405940632368120190600494275840000581839921883379323801828124836880340080397530665094832617993799077208967732962572916586967178245567954569965775464340338915820760562103871888343281360942669511080491894606399561808621315406839899866006115769168537790180957639231156735547674770996078950822941720896619621830901964668811025903406551098780297381200501489785048308894914518183685748689495639033468584799671927006188439595407186259961615836814501245113804491053692873161209354178079107193237754599526443944530579513166693639688419156557130640124814016998465136897972346277192113892530961558224680861122657080362026749123319474400601778314882330282640551673320205045384778918166188026947486093616748136387582937920506769421751025467828224418859793668888279302296743199532743863017432012617408461780933747986632136117261467118549278837405056550039357940388887368529759295786050938344349419616242116721948101083515909133197449835730085339934665262617332216393938000760515119232273920300181983103080561355014317081651380641470427557057573029778718916371977675169203184698024146779604310641722079124058352596379601523789256530882449925788854367414260959723911672257709497634479072547920971720085687307795781976586458820533372540246818692292434003040854438968291179138446290384961460705270345132941707123037137698958250000087550277031464743911584538341952073848128874189822432607294087321463166480878055026741692117902201273702867507825131746571184644872779900804510655772828875070737885848852872852543700674703336011463200675610629457718008107999042556952243079477598831846112175121924185468918024459510301907439975350312607752989896186711958151294389599428620496426531636210164990087433173418702319264601785133278987898995074362232217996182647350762799988827570756308057067584355583085599820405828222977 from by decide,
        hstA]
  have hb1 : nttPass zetas 1 128 4294967296 = 19265574399884986505649292318168160270791100414997061420077565310137985047399464019357317174908052456249377912227802773635845969314039300275755273786645044128534840116687854831332421408685924400745090544819434337683248359011510611329449882624171345155260945288059040800671027293635137361847331012241430730770572249126856858787089776093581798700298813391605842678429498326462939087779145503492316161598185489306991917334854836298318454797044847992718470897519836072092835326031081105284524935250391795729972316033485324382608771607439401360495209189368473390912419133007088660269254137943607904657022171254960746883906879657980758347776049325727224338300042274496100677347547880398804500910596343661579515827603291082634497651998659600562934597983328599858794704297519856312752934540889313807483800728337290246537657688550803823990384181896815037155429978703867395477653467560528163709690219549999080922540833067594539471998398684793782549502522697801417998187925105079318453987214441701278825644862483414110545458072899742366927682383831385838485469340556883517772810382558283152198095273938846139335325481140708401641368694104266567422284403452694880698546484628475381426625561091265991113354835150016442405588518816144206547237916727492620305416847360 := by decide
  have hb2 : nttPass zetas 2 64 19265574399884986505649292318168160270791100414997061420077565310137985047399464019357317174908052456249377912227802773635845969314039300275755273786645044128534840116687854831332421408685924400745090544819434337683248359011510611329449882624171345155260945288059040800671027293635137361847331012241430730770572249126856858787089776093581798700298813391605842678429498326462939087779145503492316161598185489306991917334854836298318454797044847992718470897519836072092835326031081105284524935250391795729972316033485324382608771607439401360495209189368473390912419133007088660269254137943607904657022171254960746883906879657980758347776049325727224338300042274496100677347547880398804500910596343661579515827603291082634497651998659600562934597983328599858794704297519856312752934540889313807483800728337290246537657688550803823990384181896815037155429978703867395477653467560528163709690219549999080922540833067594539471998398684793782549502522697801417998187925105079318453987214441701278825644862483414110545458072899742366927682383831385838485469340556883517772810382558283152198095273938846139335325481140708401641368694104266567422284403452694880698546484628475381426625561091265991113354835150016442405588518816144206547237916727492620305416847360 = 19265574399884986505649292318168160270791100414997061420077565310137985047399464019357317174908052456249377912227802773635845969314039300275755273786645044128534840116687854831332421408685924400745090544819434337683248359011510611329449882624171345155260945288059040800671027293635137361847331012241430730770572249126856858787089776093581798700298813391605842678429498326462939087779145503492316161598185489306991917334854836298318454797044847992718470897519836072092835326031081105284524935250391795729972316033485324382608771607439401360495209189368473390912419133007088660269254137943607904657022171254960746883907475801520290337278291057042905858477338926883735237877328402058124304042259354589501658745901377333436633220624547119788451753989088473353911790519981839669433418109781740257220034310209724958364056734815953612489917357885221943227348500151456508316348043841514346646833428082696143518567598387726209436480374624540184267550066072987813993772838468963095341379176896419864543722635795861662515920676065271908825776231292784915960728042241112548093767689643476846803334729736546427631090408747952419732548677282419170686169774512976414864427448069803908661897367281557624134216624591136867548044421989565272886182606018624911800927256576 := by decide
  have hb3 : nttPass zetas 4 32 19265574399884986505649292318168160270791100414997061420077565310137985047399464019357317174908052456249377912227802773635845969314039300275755273786645044128534840116687854831332421408685924400745090544819434337683248359011510611329449882624171345155260945288059040800671027293635137361847331012241430730770572249126856858787089776093581798700298813391605842678429498326462939087779145503492316161598185489306991917334854836298318454797044847992718470897519836072092835326031081105284524935250391795729972316033485324382608771607439401360495209189368473390912419133007088660269254137943607904657022171254960746883907475801520290337278291057042905858477338926883735237877328402058124304042259354589501658745901377333436633220624547119788451753989088473353911790519981839669433418109781740257220034310209724958364056734815953612489917357885221943227348500151456508316348043841514346646833428082696143518567598387726209436480374624540184267550066072987813993772838468963095341379176896419864543722635795861662515920676065271908825776231292784915960728042241112548093767689643476846803334729736546427631090408747952419732548677282419170686169774512976414864427448069803908661897367281557624134216624591136867548044421989565272886182606018624911800927256576 = 19265574399884986505649292318168160270791100414997061420077565310137985047399464019357317174908052456249377912227802773635845969314039300275755273786645044128534840116687854831332421408685924400745090544819434337683248359011510611329449882624171345155260945288059040800671027293635137361847331012241430730770572249126856858787089776093581798700298813391605842678429498326462939087779145503492316161598185489306991917334854836298318454797044847992718470897519836072092835326031081105284524935250391795729972316033485324382608771607439401360495209189368473390912419133007088660269254137943607904657022171254960746883907475801520290337278291057042905858477338926883735237877328402058124304042259354589501658745901377333436633220624547119788451753989088473353911790519981839669433418109781740257220034310209724958364056734815953612489917357885221943227348500151456508316348043841514346646833428082696143518567598387726209436480377940698699366113948169325860029346231072138578427354491160656754185274406017546785613011228423679284548129254243140144709565439966056855682767556840403675715832192292530693088731391794555324761085301095700112506630773504428320257210483224190766967720781170097912115284269234913002381469625173517220039060823081553987010599845888 := by decide
  have hb4 : nttPass zetas 8 16 19265574399884986505649292318168160270791100414997061420077565310137985047399464019357317174908052456249377912227802773635845969314039300275755273786645044128534840116687854831332421408685924400745090544819434337683248359011510611329449882624171345155260945288059040800671027293635137361847331012241430730770572249126856858787089776093581798700298813391605842678429498326462939087779145503492316161598185489306991917334854836298318454797044847992718470897519836072092835326031081105284524935250391795729972316033485324382608771607439401360495209189368473390912419133007088660269254137943607904657022171254960746883907475801520290337278291057042905858477338926883735237877328402058124304042259354589501658745901377333436633220624547119788451753989088473353911790519981839669433418109781740257220034310209724958364056734815953612489917357885221943227348500151456508316348043841514346646833428082696143518567598387726209436480377940698699366113948169325860029346231072138578427354491160656754185274406017546785613011228423679284548129254243140144709565439966056855682767556840403675715832192292530693088731391794555324761085301095700112506630773504428320257210483224190766967720781170097912115284269234913002381469625173517220039060823081553987010599845888 = 19265574399884986505649292318168160270791100414997061420077565310137985047399464019357317174908052456249377912227802773635845969314039300275755273786645044128534840116687854831332421408685924400745090544819434337683248359011510611329449882624171345155260945288059040800671027293635137361847331012241430730770572249126856858787089776093581798700298813391605842678429498326462939087779145503492316161598185489306991917334854836298318454797044847992718470897519836072092835326031081105284524935250391795729972316033485324382608771607439401360495209189368473390912419133007088660269254137943607904657022171254960746883907475801520290337278291057042905858477338926883735237877328402058124304042259354589501658745901377333436633220624547119788451753989088473353911790519981839669433418109781740257220034310209724958364056734815953612489917357885221943227348500151456508316348043841514346646833428082696143518567598387726209436480377940698699366113948169325860029346231072138578427354491160656754185274406017546785613011228423679284548129254243140144709565439966056855682767556840403675963162593650463034008928085414252728999455514609847706192164763789946202704879308329317078548796384595435977598262433262046232500622244772464112122124098260840445588057096192 := by decide
  have hb5 : nttPass zetas 16 8 19265574399884986505649292318168160270791100414997061420077565310137985047399464019357317174908052456249377912227802773635845969314039300275755273786645044128534840116687854831332421408685924400745090544819434337683248359011510611329449882624171345155260945288059040800671027293635137361847331012241430730770572249126856858787089776093581798700298813391605842678429498326462939087779145503492316161598185489306991917334854836298318454797044847992718470897519836072092835326031081105284524935250391795729972316033485324382608771607439401360495209189368473390912419133007088660269254137943607904657022171254960746883907475801520290337278291057042905858477338926883735237877328402058124304042259354589501658745901377333436633220624547119788451753989088473353911790519981839669433418109781740257220034310209724958364056734815953612489917357885221943227348500151456508316348043841514346646833428082696143518567598387726209436480377940698699366113948169325860029346231072138578427354491160656754185274406017546785613011228423679284548129254243140144709565439966056855682767556840403675963162593650463034008928085414252728999455514609847706192164763789946202704879308329317078548796384595435977598262433262046232500622244772464112122124098260840445588057096192 = 19265574399884986505649292318168160270791100414997061420077565310137985047399464019357317174908052456249377912227802773635845969314039300275755273786645044128534840116687854831332421408685924400745090544819434337683248359011510611329449882624171345155260945288059040800671027293635137361847331012241430730770572249126856858787089776093581798700298813391605842678429498326462939087779145503492316161598185489306991917334854836298318454797044847992718470897519836072092835326031081105284524935250391795729972316033485324382608771607439401360495209189368473390912419133007088660269254137943607904657022171254960746883907475801520290337278291057042905858477338926883735237877328402058124304042259354589501658745901377333436633220624547119788451753989088473353911790519981839669433418109781740257220034310209724958364056734815953612489917357885221943227348500151456508316348043841514346646833428082696143518567598387726209436480377940698699366113948169325860029346231072138578427354491160656754185274406017546785613011228423679284548129254243140144709565439966056855682767556840403675963162593650463034008928085414252728999455514609847706192164763789946202704881444316350512842696730683931370239136301862368086872638205075484732021965413103905405883266367488 := by decide
  have hb6 : nttPass zetas 32 4 19265574399884986505649292318168160270791100414997061420077565310137985047399464019357317174908052456249377912227802773635845969314039300275755273786645044128534840116687854831332421408685924400745090544819434337683248359011510611329449882624171345155260945288059040800671027293635137361847331012241430730770572249126856858787089776093581798700298813391605842678429498326462939087779145503492316161598185489306991917334854836298318454797044847992718470897519836072092835326031081105284524935250391795729972316033485324382608771607439401360495209189368473390912419133007088660269254137943607904657022171254960746883907475801520290337278291057042905858477338926883735237877328402058124304042259354589501658745901377333436633220624547119788451753989088473353911790519981839669433418109781740257220034310209724958364056734815953612489917357885221943227348500151456508316348043841514346646833428082696143518567598387726209436480377940698699366113948169325860029346231072138578427354491160656754185274406017546785613011228423679284548129254243140144709565439966056855682767556840403675963162593650463034008928085414252728999455514609847706192164763789946202704881444316350512842696730683931370239136301862368086872638205075484732021965413103905405883266367488 = 19265574399884986505649292318168160270791100414997061420077565310137985047399464019357317174908052456249377912227802773635845969314039300275755273786645044128534840116687854831332421408685924400745090544819434337683248359011510611329449882624171345155260945288059040800671027293635137361847331012241430730770572249126856858787089776093581798700298813391605842678429498326462939087779145503492316161598185489306991917334854836298318454797044847992718470897519836072092835326031081105284524935250391795729972316033485324382608771607439401360495209189368473390912419133007088660269254137943607904657022171254960746883907475801520290337278291057042905858477338926883735237877328402058124304042259354589501658745901377333436633220624547119788451753989088473353911790519981839669433418109781740257220034310209724958364056734815953612489917357885221943227348500151456508316348043841514346646833428082696143518567598387726209436480377940698699366113948169325860029346231072138578427354491160656754185274406017546785613011228423679284548129254243140144709565439966056855682767556840403675963162593650463034008928085414252728999455514609847706192164763789946202704881444316350512842696730683931370239136308139469819336315694249468318822262163773694811035435794432 := by decide
  have hb7 : nttPass zetas 64 2 19265574399884986505649292318168160270791100414997061420077565310137985047399464019357317174908052456249377912227802773635845969314039300275755273786645044128534840116687854831332421408685924400745090544819434337683248359011510611329449882624171345155260945288059040800671027293635137361847331012241430730770572249126856858787089776093581798700298813391605842678429498326462939087779145503492316161598185489306991917334854836298318454797044847992718470897519836072092835326031081105284524935250391795729972316033485324382608771607439401360495209189368473390912419133007088660269254137943607904657022171254960746883907475801520290337278291057042905858477338926883735237877328402058124304042259354589501658745901377333436633220624547119788451753989088473353911790519981839669433418109781740257220034310209724958364056734815953612489917357885221943227348500151456508316348043841514346646833428082696143518567598387726209436480377940698699366113948169325860029346231072138578427354491160656754185274406017546785613011228423679284548129254243140144709565439966056855682767556840403675963162593650463034008928085414252728999455514609847706192164763789946202704881444316350512842696730683931370239136308139469819336315694249468318822262163773694811035435794432 = 19265574399884986505649292318168160270791100414997061420077565310137985047399464019357317174908052456249377912227802773635845969314039300275755273786645044128534840116687854831332421408685924400745090544819434337683248359011510611329449882624171345155260945288059040800671027293635137361847331012241430730770572249126856858787089776093581798700298813391605842678429498326462939087779145503492316161598185489306991917334854836298318454797044847992718470897519836072092835326031081105284524935250391795729972316033485324382608771607439401360495209189368473390912419133007088660269254137943607904657022171254960746883907475801520290337278291057042905858477338926883735237877328402058124304042259354589501658745901377333436633220624547119788451753989088473353911790519981839669433418109781740257220034310209724958364056734815953612489917357885221943227348500151456508316348043841514346646833428082696143518567598387726209436480377940698699366113948169325860029346231072138578427354491160656754185274406017546785613011228423679284548129254243140144709565439966056855682767556840403675963162593650463034008928085414252728999455514609847706192164763789946202704881444316350512842696730683931370239136308139469819336315694589750685505516139694276405686572154880 := by decide
  have hb8 : nttPass zetas 128 1 19265574399884986505649292318168160270791100414997061420077565310137985047399464019357317174908052456249377912227802773635845969314039300275755273786645044128534840116687854831332421408685924400745090544819434337683248359011510611329449882624171345155260945288059040800671027293635137361847331012241430730770572249126856858787089776093581798700298813391605842678429498326462939087779145503492316161598185489306991917334854836298318454797044847992718470897519836072092835326031081105284524935250391795729972316033485324382608771607439401360495209189368473390912419133007088660269254137943607904657022171254960746883907475801520290337278291057042905858477338926883735237877328402058124304042259354589501658745901377333436633220624547119788451753989088473353911790519981839669433418109781740257220034310209724958364056734815953612489917357885221943227348500151456508316348043841514346646833428082696143518567598387726209436480377940698699366113948169325860029346231072138578427354491160656754185274406017546785613011228423679284548129254243140144709565439966056855682767556840403675963162593650463034008928085414252728999455514609847706192164763789946202704881444316350512842696730683931370239136308139469819336315694589750685505516139694276405686572154880 = 19265574399884986505649292318168160270791100414997061420077565310137985047399464019357317174908052456249377912227802773635845969314039300275755273786645044128534840116687854831332421408685924400745090544819434337683248359011510611329449882624171345155260945288059040800671027293635137361847331012241430730770572249126856858787089776093581798700298813391605842678429498326462939087779145503492316161598185489306991917334854836298318454797044847992718470897519836072092835326031081105284524935250391795729972316033485324382608771607439401360495209189368473390912419133007088660269254137943607904657022171254960746883907475801520290337278291057042905858477338926883735237877328402058124304042259354589501658745901377333436633220624547119788451753989088473353911790519981839669433418109781740257220034310209724958364056734815953612489917357885221943227348500151456508316348043841514346646833428082696143518567598387726209436480377940698699366113948169325860029346231072138578427354491160656754185274406017546785613011228423679284548129254243140144709565439966056855682767556840403675963162593650463034008928085414252728999455514609847706192164763789946202704881444316350512842696730683931370239136308139469819336315694589750685505516139712723149734511902721 := by decide
  have hstB : nttForwardStages 8 1 128 4294967296 = 19265574399884986505649292318168160270791100414997061420077565310137985047399464019357317174908052456249377912227802773635845969314039300275755273786645044128534840116687854831332421408685924400745090544819434337683248359011510611329449882624171345155260945288059040800671027293635137361847331012241430730770572249126856858787089776093581798700298813391605842678429498326462939087779145503492316161598185489306991917334854836298318454797044847992718470897519836072092835326031081105284524935250391795729972316033485324382608771607439401360495209189368473390912419133007088660269254137943607904657022171254960746883907475801520290337278291057042905858477338926883735237877328402058124304042259354589501658745901377333436633220624547119788451753989088473353911790519981839669433418109781740257220034310209724958364056734815953612489917357885221943227348500151456508316348043841514346646833428082696143518567598387726209436480377940698699366113948169325860029346231072138578427354491160656754185274406017546785613011228423679284548129254243140144709565439966056855682767556840403675963162593650463034008928085414252728999455514609847706192164763789946202704881444316350512842696730683931370239136308139469819336315694589750685505516139712723149734511902721 := by
    rw [show nttForwardStages 8 1 128 4294967296 = nttForwardStages 7 2 64 (nttPass zetas 1 128 4294967296) from rfl,
        hb1,
        show nttForwardStages 7 2 64 19265574399884986505649292318168160270791100414997061420077565310137985047399464019357317174908052456249377912227802773635845969314039300275755273786645044128534840116687854831332421408685924400745090544819434337683248359011510611329449882624171345155260945288059040800671027293635137361847331012241430730770572249126856858787089776093581798700298813391605842678429498326462939087779145503492316161598185489306991917334854836298318454797044847992718470897519836072092835326031081105284524935250391795729972316033485324382608771607439401360495209189368473390912419133007088660269254137943607904657022171254960746883906879657980758347776049325727224338300042274496100677347547880398804500910596343661579515827603291082634497651998659600562934597983328599858794704297519856312752934540889313807483800728337290246537657688550803823990384181896815037155429978703867395477653467560528163709690219549999080922540833067594539471998398684793782549502522697801417998187925105079318453987214441701278825644862483414110545458072899742366927682383831385838485469340556883517772810382558283152198095273938846139335325481140708401641368694104266567422284403452694880698546484628475381426625561091265991113354835150016442405588518816144206547237916727492620305416847360 = nttForwardStages 6 4 32 (nttPass zetas 2 64 19265574399884986505649292318168160270791100414997061420077565310137985047399464019357317174908052456249377912227802773635845969314039300275755273786645044128534840116687854831332421408685924400745090544819434337683248359011510611329449882624171345155260945288059040800671027293635137361847331012241430730770572249126856858787089776093581798700298813391605842678429498326462939087779145503492316161598185489306991917334854836298318454797044847992718470897519836072092835326031081105284524935250391795729972316033485324382608771607439401360495209189368473390912419133007088660269254137943607904657022171254960746883906879657980758347776049325727224338300042274496100677347547880398804500910596343661579515827603291082634497651998659600562934597983328599858794704297519856312752934540889313807483800728337290246537657688550803823990384181896815037155429978703867395477653467560528163709690219549999080922540833067594539471998398684793782549502522697801417998187925105079318453987214441701278825644862483414110545458072899742366927682383831385838485469340556883517772810382558283152198095273938846139335325481140708401641368694104266567422284403452694880698546484628475381426625561091265991113354835150016442405588518816144206547237916727492620305416847360) from rfl,
        hb2,
        show nttForwardStages 6 4 32 19265574399884986505649292318168160270791100414997061420077565310137985047399464019357317174908052456249377912227802773635845969314039300275755273786645044128534840116687854831332421408685924400745090544819434337683248359011510611329449882624171345155260945288059040800671027293635137361847331012241430730770572249126856858787089776093581798700298813391605842678429498326462939087779145503492316161598185489306991917334854836298318454797044847992718470897519836072092835326031081105284524935250391795729972316033485324382608771607439401360495209189368473390912419133007088660269254137943607904657022171254960746883907475801520290337278291057042905858477338926883735237877328402058124304042259354589501658745901377333436633220624547119788451753989088473353911790519981839669433418109781740257220034310209724958364056734815953612489917357885221943227348500151456508316348043841514346646833428082696143518567598387726209436480374624540184267550066072987813993772838468963095341379176896419864543722635795861662515920676065271908825776231292784915960728042241112548093767689643476846803334729736546427631090408747952419732548677282419170686169774512976414864427448069803908661897367281557624134216624591136867548044421989565272886182606018624911800927256576 = nttForwardStages 5 8 16 (nttPass zetas 4 32 19265574399884986505649292318168160270791100414997061420077565310137985047399464019357317174908052456249377912227802773635845969314039300275755273786645044128534840116687854831332421408685924400745090544819434337683248359011510611329449882624171345155260945288059040800671027293635137361847331012241430730770572249126856858787089776093581798700298813391605842678429498326462939087779145503492316161598185489306991917334854836298318454797044847992718470897519836072092835326031081105284524935250391795729972316033485324382608771607439401360495209189368473390912419133007088660269254137943607904657022171254960746883907475801520290337278291057042905858477338926883735237877328402058124304042259354589501658745901377333436633220624547119788451753989088473353911790519981839669433418109781740257220034310209724958364056734815953612489917357885221943227348500151456508316348043841514346646833428082696143518567598387726209436480374624540184267550066072987813993772838468963095341379176896419864543722635795861662515920676065271908825776231292784915960728042241112548093767689643476846803334729736546427631090408747952419732548677282419170686169774512976414864427448069803908661897367281557624134216624591136867548044421989565272886182606018624911800927256576) from rfl,
        hb3,
        show nttForwardStages 5 8 16 19265574399884986505649292318168160270791100414997061420077565310137985047399464019357317174908052456249377912227802773635845969314039300275755273786645044128534840116687854831332421408685924400745090544819434337683248359011510611329449882624171345155260945288059040800671027293635137361847331012241430730770572249126856858787089776093581798700298813391605842678429498326462939087779145503492316161598185489306991917334854836298318454797044847992718470897519836072092835326031081105284524935250391795729972316033485324382608771607439401360495209189368473390912419133007088660269254137943607904657022171254960746883907475801520290337278291057042905858477338926883735237877328402058124304042259354589501658745901377333436633220624547119788451753989088473353911790519981839669433418109781740257220034310209724958364056734815953612489917357885221943227348500151456508316348043841514346646833428082696143518567598387726209436480377940698699366113948169325860029346231072138578427354491160656754185274406017546785613011228423679284548129254243140144709565439966056855682767556840403675715832192292530693088731391794555324761085301095700112506630773504428320257210483224190766967720781170097912115284269234913002381469625173517220039060823081553987010599845888 = nttForwardStages 4 16 8 (nttPass zetas 8 16 19265574399884986505649292318168160270791100414997061420077565310137985047399464019357317174908052456249377912227802773635845969314039300275755273786645044128534840116687854831332421408685924400745090544819434337683248359011510611329449882624171345155260945288059040800671027293635137361847331012241430730770572249126856858787089776093581798700298813391605842678429498326462939087779145503492316161598185489306991917334854836298318454797044847992718470897519836072092835326031081105284524935250391795729972316033485324382608771607439401360495209189368473390912419133007088660269254137943607904657022171254960746883907475801520290337278291057042905858477338926883735237877328402058124304042259354589501658745901377333436633220624547119788451753989088473353911790519981839669433418109781740257220034310209724958364056734815953612489917357885221943227348500151456508316348043841514346646833428082696143518567598387726209436480377940698699366113948169325860029346231072138578427354491160656754185274406017546785613011228423679284548129254243140144709565439966056855682767556840403675715832192292530693088731391794555324761085301095700112506630773504428320257210483224190766967720781170097912115284269234913002381469625173517220039060823081553987010599845888) from rfl,
        hb4,
        show nttForwardStages 4 16 8 19265574399884986505649292318168160270791100414997061420077565310137985047399464019357317174908052456249377912227802773635845969314039300275755273786645044128534840116687854831332421408685924400745090544819434337683248359011510611329449882624171345155260945288059040800671027293635137361847331012241430730770572249126856858787089776093581798700298813391605842678429498326462939087779145503492316161598185489306991917334854836298318454797044847992718470897519836072092835326031081105284524935250391795729972316033485324382608771607439401360495209189368473390912419133007088660269254137943607904657022171254960746883907475801520290337278291057042905858477338926883735237877328402058124304042259354589501658745901377333436633220624547119788451753989088473353911790519981839669433418109781740257220034310209724958364056734815953612489917357885221943227348500151456508316348043841514346646833428082696143518567598387726209436480377940698699366113948169325860029346231072138578427354491160656754185274406017546785613011228423679284548129254243140144709565439966056855682767556840403675963162593650463034008928085414252728999455514609847706192164763789946202704879308329317078548796384595435977598262433262046232500622244772464112122124098260840445588057096192 = nttForwardStages 3 32 4 (nttPass zetas 16 8 19265574399884986505649292318168160270791100414997061420077565310137985047399464019357317174908052456249377912227802773635845969314039300275755273786645044128534840116687854831332421408685924400745090544819434337683248359011510611329449882624171345155260945288059040800671027293635137361847331012241430730770572249126856858787089776093581798700298813391605842678429498326462939087779145503492316161598185489306991917334854836298318454797044847992718470897519836072092835326031081105284524935250391795729972316033485324382608771607439401360495209189368473390912419133007088660269254137943607904657022171254960746883907475801520290337278291057042905858477338926883735237877328402058124304042259354589501658745901377333436633220624547119788451753989088473353911790519981839669433418109781740257220034310209724958364056734815953612489917357885221943227348500151456508316348043841514346646833428082696143518567598387726209436480377940698699366113948169325860029346231072138578427354491160656754185274406017546785613011228423679284548129254243140144709565439966056855682767556840403675963162593650463034008928085414252728999455514609847706192164763789946202704879308329317078548796384595435977598262433262046232500622244772464112122124098260840445588057096192) from rfl,
        hb5,
        show nttForwardStages 3 32 4 19265574399884986505649292318168160270791100414997061420077565310137985047399464019357317174908052456249377912227802773635845969314039300275755273786645044128534840116687854831332421408685924400745090544819434337683248359011510611329449882624171345155260945288059040800671027293635137361847331012241430730770572249126856858787089776093581798700298813391605842678429498326462939087779145503492316161598185489306991917334854836298318454797044847992718470897519836072092835326031081105284524935250391795729972316033485324382608771607439401360495209189368473390912419133007088660269254137943607904657022171254960746883907475801520290337278291057042905858477338926883735237877328402058124304042259354589501658745901377333436633220624547119788451753989088473353911790519981839669433418109781740257220034310209724958364056734815953612489917357885221943227348500151456508316348043841514346646833428082696143518567598387726209436480377940698699366113948169325860029346231072138578427354491160656754185274406017546785613011228423679284548129254243140144709565439966056855682767556840403675963162593650463034008928085414252728999455514609847706192164763789946202704881444316350512842696730683931370239136301862368086872638205075484732021965413103905405883266367488 = nttForwardStages 2 64 2 (nttPass zetas 32 4 19265574399884986505649292318168160270791100414997061420077565310137985047399464019357317174908052456249377912227802773635845969314039300275755273786645044128534840116687854831332421408685924400745090544819434337683248359011510611329449882624171345155260945288059040800671027293635137361847331012241430730770572249126856858787089776093581798700298813391605842678429498326462939087779145503492316161598185489306991917334854836298318454797044847992718470897519836072092835326031081105284524935250391795729972316033485324382608771607439401360495209189368473390912419133007088660269254137943607904657022171254960746883907475801520290337278291057042905858477338926883735237877328402058124304042259354589501658745901377333436633220624547119788451753989088473353911790519981839669433418109781740257220034310209724958364056734815953612489917357885221943227348500151456508316348043841514346646833428082696143518567598387726209436480377940698699366113948169325860029346231072138578427354491160656754185274406017546785613011228423679284548129254243140144709565439966056855682767556840403675963162593650463034008928085414252728999455514609847706192164763789946202704881444316350512842696730683931370239136301862368086872638205075484732021965413103905405883266367488) from rfl,
        hb6,
        show nttForwardStages 2 64 2 19265574399884986505649292318168160270791100414997061420077565310137985047399464019357317174908052456249377912227802773635845969314039300275755273786645044128534840116687854831332421408685924400745090544819434337683248359011510611329449882624171345155260945288059040800671027293635137361847331012241430730770572249126856858787089776093581798700298813391605842678429498326462939087779145503492316161598185489306991917334854836298318454797044847992718470897519836072092835326031081105284524935250391795729972316033485324382608771607439401360495209189368473390912419133007088660269254137943607904657022171254960746883907475801520290337278291057042905858477338926883735237877328402058124304042259354589501658745901377333436633220624547119788451753989088473353911790519981839669433418109781740257220034310209724958364056734815953612489917357885221943227348500151456508316348043841514346646833428082696143518567598387726209436480377940698699366113948169325860029346231072138578427354491160656754185274406017546785613011228423679284548129254243140144709565439966056855682767556840403675963162593650463034008928085414252728999455514609847706192164763789946202704881444316350512842696730683931370239136308139469819336315694249468318822262163773694811035435794432 = nttForwardStages 1 128 1 (nttPass zetas 64 2 19265574399884986505649292318168160270791100414997061420077565310137985047399464019357317174908052456249377912227802773635845969314039300275755273786645044128534840116687854831332421408685924400745090544819434337683248359011510611329449882624171345155260945288059040800671027293635137361847331012241430730770572249126856858787089776093581798700298813391605842678429498326462939087779145503492316161598185489306991917334854836298318454797044847992718470897519836072092835326031081105284524935250391795729972316033485324382608771607439401360495209189368473390912419133007088660269254137943607904657022171254960746883907475801520290337278291057042905858477338926883735237877328402058124304042259354589501658745901377333436633220624547119788451753989088473353911790519981839669433418109781740257220034310209724958364056734815953612489917357885221943227348500151456508316348043841514346646833428082696143518567598387726209436480377940698699366113948169325860029346231072138578427354491160656754185274406017546785613011228423679284548129254243140144709565439966056855682767556840403675963162593650463034008928085414252728999455514609847706192164763789946202704881444316350512842696730683931370239136308139469819336315694249468318822262163773694811035435794432) from rfl,
        hb7,
        show nttForwardStages 1 128 1 19265574399884986505649292318168160270791100414997061420077565310137985047399464019357317174908052456249377912227802773635845969314039300275755273786645044128534840116687854831332421408685924400745090544819434337683248359011510611329449882624171345155260945288059040800671027293635137361847331012241430730770572249126856858787089776093581798700298813391605842678429498326462939087779145503492316161598185489306991917334854836298318454797044847992718470897519836072092835326031081105284524935250391795729972316033485324382608771607439401360495209189368473390912419133007088660269254137943607904657022171254960746883907475801520290337278291057042905858477338926883735237877328402058124304042259354589501658745901377333436633220624547119788451753989088473353911790519981839669433418109781740257220034310209724958364056734815953612489917357885221943227348500151456508316348043841514346646833428082696143518567598387726209436480377940698699366113948169325860029346231072138578427354491160656754185274406017546785613011228423679284548129254243140144709565439966056855682767556840403675963162593650463034008928085414252728999455514609847706192164763789946202704881444316350512842696730683931370239136308139469819336315694589750685505516139694276405686572154880 = nttForwardStages 0 256 0 (nttPass zetas 128 1 19265574399884986505649292318168160270791100414997061420077565310137985047399464019357317174908052456249377912227802773635845969314039300275755273786645044128534840116687854831332421408685924400745090544819434337683248359011510611329449882624171345155260945288059040800671027293635137361847331012241430730770572249126856858787089776093581798700298813391605842678429498326462939087779145503492316161598185489306991917334854836298318454797044847992718470897519836072092835326031081105284524935250391795729972316033485324382608771607439401360495209189368473390912419133007088660269254137943607904657022171254960746883907475801520290337278291057042905858477338926883735237877328402058124304042259354589501658745901377333436633220624547119788451753989088473353911790519981839669433418109781740257220034310209724958364056734815953612489917357885221943227348500151456508316348043841514346646833428082696143518567598387726209436480377940698699366113948169325860029346231072138578427354491160656754185274406017546785613011228423679284548129254243140144709565439966056855682767556840403675963162593650463034008928085414252728999455514609847706192164763789946202704881444316350512842696730683931370239136308139469819336315694589750685505516139694276405686572154880) from rfl,
        hb8,
        show nttForwardStages 0 256 0 19265574399884986505649292318168160270791100414997061420077565310137985047399464019357317174908052456249377912227802773635845969314039300275755273786645044128534840116687854831332421408685924400745090544819434337683248359011510611329449882624171345155260945288059040800671027293635137361847331012241430730770572249126856858787089776093581798700298813391605842678429498326462939087779145503492316161598185489306991917334854836298318454797044847992718470897519836072092835326031081105284524935250391795729972316033485324382608771607439401360495209189368473390912419133007088660269254137943607904657022171254960746883907475801520290337278291057042905858477338926883735237877328402058124304042259354589501658745901377333436633220624547119788451753989088473353911790519981839669433418109781740257220034310209724958364056734815953612489917357885221943227348500151456508316348043841514346646833428082696143518567598387726209436480377940698699366113948169325860029346231072138578427354491160656754185274406017546785613011228423679284548129254243140144709565439966056855682767556840403675963162593650463034008928085414252728999455514609847706192164763789946202704881444316350512842696730683931370239136308139469819336315694589750685505516139712723149734511902721 = 19265574399884986505649292318168160270791100414997061420077565310137985047399464019357317174908052456249377912227802773635845969314039300275755273786645044128534840116687854831332421408685924400745090544819434337683248359011510611329449882624171345155260945288059040800671027293635137361847331012241430730770572249126856858787089776093581798700298813391605842678429498326462939087779145503492316161598185489306991917334854836298318454797044847992718470897519836072092835326031081105284524935250391795729972316033485324382608771607439401360495209189368473390912419133007088660269254137943607904657022171254960746883907475801520290337278291057042905858477338926883735237877328402058124304042259354589501658745901377333436633220624547119788451753989088473353911790519981839669433418109781740257220034310209724958364056734815953612489917357885221943227348500151456508316348043841514346646833428082696143518567598387726209436480377940698699366113948169325860029346231072138578427354491160656754185274406017546785613011228423679284548129254243140144709565439966056855682767556840403675963162593650463034008928085414252728999455514609847706192164763789946202704881444316350512842696730683931370239136308139469819336315694589750685505516139712723149734511902721 from rfl]
  have hfb : nttForward xPoly = unpackPoly 19265574399884986505649292318168160270791100414997061420077565310137985047399464019357317174908052456249377912227802773635845969314039300275755273786645044128534840116687854831332421408685924400745090544819434337683248359011510611329449882624171345155260945288059040800671027293635137361847331012241430730770572249126856858787089776093581798700298813391605842678429498326462939087779145503492316161598185489306991917334854836298318454797044847992718470897519836072092835326031081105284524935250391795729972316033485324382608771607439401360495209189368473390912419133007088660269254137943607904657022171254960746883907475801520290337278291057042905858477338926883735237877328402058124304042259354589501658745901377333436633220624547119788451753989088473353911790519981839669433418109781740257220034310209724958364056734815953612489917357885221943227348500151456508316348043841514346646833428082696143518567598387726209436480377940698699366113948169325860029346231072138578427354491160656754185274406017546785613011228423679284548129254243140144709565439966056855682767556840403675963162593650463034008928085414252728999455514609847706192164763789946202704881444316350512842696730683931370239136308139469819336315694589750685505516139712723149734511902721 := by
    rw [show nttForward xPoly = unpackPoly (nttForwardStages 8 1 (N / 2) (packPoly xPoly)) from rfl,
        show (N / 2 : ℕ) = 128 from rfl,
        show packPoly xPoly = 4294967296 from by decide,
        hstB]
  have hPW : packPoly ((List.range N).map (fun i => montgomeryReduce ((unpackPoly 1090747747569161675217892032641668726541182782220427402983697711067487549444505831669583228446651778279913104548696814454327743983725805126094327438610787439902317823005560069372391168415297249940861703580653213333845255152621986899367207860804712514742283415952654517924244911674659024763546214179481869609893449498181641819427065349899216648226433099363409549010318465686495137806463014262741177810457480730104748528564762736320737042357483589946879711391576118116865517921364589242984872876884845580069942478022427529600304485627431764621681287450656115812138138943144680436937388496970315210907940832586052166883520926944678846671078084773203480466297811382270348143767861348993138758278612751944102546944908283887839411994031644557505762038312578567973187872882505395690815901944943425504268662595782166550916060344968400237960567820691911678041217760628009379935949951698228716947508362981044054107223859631441579585955912018219891873425398356009890120309991542680829422816488813516092411556204163805116200643059784164929947764885143826690834630834032178017996064122174072219609635007735089013084957013757167553320273140212960121676237541390958717090150625752529729838253054460205086463448308835640003450374977871518229421487272343839711089366904559663187819501251097235727796055186440630700971089300718921069389725285747600451509950896167389487068274025059184360572309414761748354184413579334360804037728838502934548605952876908475307551423454453279668993177726274359921362978258177803672940315489132513245649261719939732671481718567495438136793029721155943432390365699786395452901582556404529876065777028453249365197566383846959372991281529144981824704195894152893939914581660422780514011631123799212699374031019619581990397080205270937029149322278473697187703957155228698836892063168128418684649615115096864885139636739338617098253451858846787651600479733541446360161992067813516272960745293045831361122907406086446392114867390398130478568316852594308634451587187932057137545607931906118060385610299597492110374559381588477380830418973929203944515133633738523818265162181030919849619283612257168444976529787292536362271394566221962280227085335289726534733477894673623600442128046473334174437109317457182079679841630651529934712824402302588677506082064644941743922202564676330094988800104364380370817096384007971454105587664646239423061298037027752493465306334192525593987455283118055633305115138087402684692118826457867710488929163246295546448735635169607682).getD i 0 * (unpackPoly 19265574399884986505649292318168160270791100414997061420077565310137985047399464019357317174908052456249377912227802773635845969314039300275755273786645044128534840116687854831332421408685924400745090544819434337683248359011510611329449882624171345155260945288059040800671027293635137361847331012241430730770572249126856858787089776093581798700298813391605842678429498326462939087779145503492316161598185489306991917334854836298318454797044847992718470897519836072092835326031081105284524935250391795729972316033485324382608771607439401360495209189368473390912419133007088660269254137943607904657022171254960746883907475801520290337278291057042905858477338926883735237877328402058124304042259354589501658745901377333436633220624547119788451753989088473353911790519981839669433418109781740257220034310209724958364056734815953612489917357885221943227348500151456508316348043841514346646833428082696143518567598387726209436480377940698699366113948169325860029346231072138578427354491160656754185274406017546785613011228423679284548129254243140144709565439966056855682767556840403675963162593650463034008928085414252728999455514609847706192164763789946202704881444316350512842696730683931370239136308139469819336315694589750685505516139712723149734511902721).getD i 0))) = 340282211792196260533801599277008420863 := by decide
  have hw1 : nttPass zetasInv 128 1 340282211792196260533801599277008420863 = 340282211792196260552248329052771845448 := by decide
  have hw2 : nttPass zetasInv 64 2 340282211792196260552248329052771845448 = 340282259408321931551328272475284833608 := by decide
  have hw3 : nttPass zetasInv 32 4 340282259408321931551328272475284833608 = 31300498069759000714885160783931580922785812843341210795837446235882824 := by decide
  have hw4 : nttPass zetasInv 16 8 31300498069759000714885160783931580922785812843341210795837446235882824 = 13407804517871433468535843826321213653271771016872316169564196832634675410744322774923325616498660747099703612343782936663426069047820619966866762193962312 := by decide
  have hw5 : nttPass zetasInv 8 16 13407804517871433468535843826321213653271771016872316169564196832634675410744322774923325616498660747099703612343782936663426069047820619966866762193962312 = 502269636073884158850659071198017106690294221235208312251429649415034137648192776162409898602715125424669476488413643582129129955288538581452154150277631358746390182263580133518185702460144036899776240007531801507649923708753822796793435678514063589105860828287884843589678618180411595275038542005576 := by decide
  have hw6 : nttPass zetasInv 4 32 502269636073884158850659071198017106690294221235208312251429649415034137648192776162409898602715125424669476488413643582129129955288538581452154150277631358746390182263580133518185702460144036899776240007531801507649923708753822796793435678514063589105860828287884843589678618180411595275038542005576 = 32317005935872002423055524504714488234782348020890683568157737818245248125007020320955623267020435763858095463919723147664656178871461948992807029180939109191590556107196712046110608941493291810601515636686913794186564143564572731580573439403707462871955842827394390634856053536225843341559298919130673626508519858298429788950712217188947374991068883739807976374374762841626377859437157030266518930635331933976573566141032579432543710651692818804945193097385427525759215501888814316912321873966120692803856225840576304582770451058508595414745880544658578723445652730926538709248162597389517826267956911232637261055304 := by decide
  have hw7 : nttPass zetasInv 2 64 32317005935872002423055524504714488234782348020890683568157737818245248125007020320955623267020435763858095463919723147664656178871461948992807029180939109191590556107196712046110608941493291810601515636686913794186564143564572731580573439403707462871955842827394390634856053536225843341559298919130673626508519858298429788950712217188947374991068883739807976374374762841626377859437157030266518930635331933976573566141032579432543710651692818804945193097385427525759215501888814316912321873966120692803856225840576304582770451058508595414745880544658578723445652730926538709248162597389517826267956911232637261055304 = 1044388187904474749349084319378404879421645316321844025717882544033215542338515851486215064027236065488008599810353598794235652776899676377898849868481941203867081334986884270611233672135544633221590789741881096710133542539996811299614389996415973907405907676888718787754685717288193390300121408542261333091421592520105699841016023933997700252687588509302498876914414745457017577293111397534801734542655727129438579647783302103721220921663710392520058883405718280961407499349208249395143592981035681827372954964211262043424483407120231903806942984802337052474807180819860479526044995024543424421348328016660559695822581604061361676224232779113261549020091222341139378153838368356674355427816199935055510212099785950765575447435243275622357459041133013704268482642004975123016926643996371376080167078731579797834320441497793699965885182338841994137573185499693941746133212382346997918745792456943732661875266253751377996036572999451260891753796158311855071082185657908399127219539007776799644873822024702750092877339304435964631686236171245514679097654678209319819074533141825364745492768462236685391183155992734315817801647940109847989719237391682471770473269663753957603440664226362394622193145489400572621665170466491554383305639240 := by decide
  have hw8 : nttPass zetasInv 1 128 1044388187904474749349084319378404879421645316321844025717882544033215542338515851486215064027236065488008599810353598794235652776899676377898849868481941203867081334986884270611233672135544633221590789741881096710133542539996811299614389996415973907405907676888718787754685717288193390300121408542261333091421592520105699841016023933997700252687588509302498876914414745457017577293111397534801734542655727129438579647783302103721220921663710392520058883405718280961407499349208249395143592981035681827372954964211262043424483407120231903806942984802337052474807180819860479526044995024543424421348328016660559695822581604061361676224232779113261549020091222341139378153838368356674355427816199935055510212099785950765575447435243275622357459041133013704268482642004975123016926643996371376080167078731579797834320441497793699965885182338841994137573185499693941746133212382346997918745792456943732661875266253751377996036572999451260891753796158311855071082185657908399127219539007776799644873822024702750092877339304435964631686236171245514679097654678209319819074533141825364745492768462236685391183155992734315817801647940109847989719237391682471770473269663753957603440664226362394622193145489400572621665170466491554383305639240 = 1090747949974955231788211130935036597130011075864575581059541633262584762063480594927608788632228386769854003149255110629676641424330143626617929372747374501052167259699736692921039318172491244796218858177349483231125022724665306436900584711333291681697780576395697962522382698215902796413505630328057403636137125651201631633398485425286065934890386381324075740383415171720581907883977696859631233649924792679679218537365342737079854157218439955663339168876283990695612122994738414904791824633567335246563366963345268551728959615982747878191501890614406838159967542103530406771720988363821868188443394052907166214353083000496073396588521332178119862507202669191798758305097012665204248193843932568024814224029750633728709072611801973508978686789585284031241442139456507683246769323535351634631224996764434542146623985542601993760710532649003695523979103225353724266392285440351316867743874944416535157672541219336241030926568343660036089823441051105503583052641550731496314456792634784141453596522154714182705324495152114087241948643202438220790979574996609158267244216634638056217308573057011095385299562203526571533289318395262552003728392016996221990431406994875129536649584199022134837760821557783197438480437736496590122831963944811882393251773194895534862232042656857859920710963870726890513627444966280461916441682256337238336336511472209832558420945149670134996462904479055161855616254499280334504591635446810875171647032405156258084342009460784492591639755688218670443850927570493108742926937848659688620991055561158318239568466660510629327086523134642397137271872818899849808420778289371855107145922163029263024662121089192828309581398559886381282493770430597978190998479925326315905266975133844128617108104862832161558910576350985287732248180488954137750590311845470117568620022928421803246895317580160863603770263380895492008326559669550715464122149156491717061545094175798456673480542792953813462673577021325710579022485786313848596475968457583997871864148718175566698665143193596703780702718181753066521570538968732269087485873792339654910455697204834800604190794241420071458246803721641961269325139584245566152195546758231003539169254533153310753210619426931464915777435524931831166985531761677070835088076106924131357439992675040914707032080917515870096131901204777050596952592787048034598679367863505981029322701557749872775918729363267876664194870756230720895370683360007173053409364871864138903157840566247826720813449575346805156300522233249400136 := by decide
  have hstW : nttInverseStages 8 128 1 340282211792196260533801599277008420863 = 1090747949974955231788211130935036597130011075864575581059541633262584762063480594927608788632228386769854003149255110629676641424330143626617929372747374501052167259699736692921039318172491244796218858177349483231125022724665306436900584711333291681697780576395697962522382698215902796413505630328057403636137125651201631633398485425286065934890386381324075740383415171720581907883977696859631233649924792679679218537365342737079854157218439955663339168876283990695612122994738414904791824633567335246563366963345268551728959615982747878191501890614406838159967542103530406771720988363821868188443394052907166214353083000496073396588521332178119862507202669191798758305097012665204248193843932568024814224029750633728709072611801973508978686789585284031241442139456507683246769323535351634631224996764434542146623985542601993760710532649003695523979103225353724266392285440351316867743874944416535157672541219336241030926568343660036089823441051105503583052641550731496314456792634784141453596522154714182705324495152114087241948643202438220790979574996609158267244216634638056217308573057011095385299562203526571533289318395262552003728392016996221990431406994875129536649584199022134837760821557783197438480437736496590122831963944811882393251773194895534862232042656857859920710963870726890513627444966280461916441682256337238336336511472209832558420945149670134996462904479055161855616254499280334504591635446810875171647032405156258084342009460784492591639755688218670443850927570493108742926937848659688620991055561158318239568466660510629327086523134642397137271872818899849808420778289371855107145922163029263024662121089192828309581398559886381282493770430597978190998479925326315905266975133844128617108104862832161558910576350985287732248180488954137750590311845470117568620022928421803246895317580160863603770263380895492008326559669550715464122149156491717061545094175798456673480542792953813462673577021325710579022485786313848596475968457583997871864148718175566698665143193596703780702718181753066521570538968732269087485873792339654910455697204834800604190794241420071458246803721641961269325139584245566152195546758231003539169254533153310753210619426931464915777435524931831166985531761677070835088076106924131357439992675040914707032080917515870096131901204777050596952592787048034598679367863505981029322701557749872775918729363267876664194870756230720895370683360007173053409364871864138903157840566247826720813449575346805156300522233249400136 := by
    rw [show nttInverseStages 8 128 1 340282211792196260533801599277008420863 = nttInverseStages 7 64 2 (nttPass zetasInv 128 1 340282211792196260533801599277008420863) from rfl,
        hw1,
        show nttInverseStages 7 64 2 340282211792196260552248329052771845448 = nttInverseStages 6 32 4 (nttPass zetasInv 64 2 340282211792196260552248329052771845448) from rfl,
        hw2,
        show nttInverseStages 6 32 4 340282259408321931551328272475284833608 = nttInverseStages 5 16 8 (nttPass zetasInv 32 4 340282259408321931551328272475284833608) from rfl,
        hw3,
        show nttInverseStages 5 16 8 31300498069759000714885160783931580922785812843341210795837446235882824 = nttInverseStages 4 8 16 (nttPass zetasInv 16 8 31300498069759000714885160783931580922785812843341210795837446235882824) from rfl,
        hw4,
        show nttInverseStages 4 8 16 13407804517871433468535843826321213653271771016872316169564196832634675410744322774923325616498660747099703612343782936663426069047820619966866762193962312 = nttInverseStages 3 4 32 (nttPass zetasInv 8 16 13407804517871433468535843826321213653271771016872316169564196832634675410744322774923325616498660747099703612343782936663426069047820619966866762193962312) from rfl,
        hw5,
        show nttInverseStages 3 4 32 502269636073884158850659071198017106690294221235208312251429649415034137648192776162409898602715125424669476488413643582129129955288538581452154150277631358746390182263580133518185702460144036899776240007531801507649923708753822796793435678514063589105860828287884843589678618180411595275038542005576 = nttInverseStages 2 2 64 (nttPass zetasInv 4 32 502269636073884158850659071198017106690294221235208312251429649415034137648192776162409898602715125424669476488413643582129129955288538581452154150277631358746390182263580133518185702460144036899776240007531801507649923708753822796793435678514063589105860828287884843589678618180411595275038542005576) from rfl,
        hw6,
        show nttInverseStages 2 2 64 32317005935872002423055524504714488234782348020890683568157737818245248125007020320955623267020435763858095463919723147664656178871461948992807029180939109191590556107196712046110608941493291810601515636686913794186564143564572731580573439403707462871955842827394390634856053536225843341559298919130673626508519858298429788950712217188947374991068883739807976374374762841626377859437157030266518930635331933976573566141032579432543710651692818804945193097385427525759215501888814316912321873966120692803856225840576304582770451058508595414745880544658578723445652730926538709248162597389517826267956911232637261055304 = nttInverseStages 1 1 128 (nttPass zetasInv 2 64 32317005935872002423055524504714488234782348020890683568157737818245248125007020320955623267020435763858095463919723147664656178871461948992807029180939109191590556107196712046110608941493291810601515636686913794186564143564572731580573439403707462871955842827394390634856053536225843341559298919130673626508519858298429788950712217188947374991068883739807976374374762841626377859437157030266518930635331933976573566141032579432543710651692818804945193097385427525759215501888814316912321873966120692803856225840576304582770451058508595414745880544658578723445652730926538709248162597389517826267956911232637261055304) from rfl,
        hw7,
        show nttInverseStages 1 1 128 1044388187904474749349084319378404879421645316321844025717882544033215542338515851486215064027236065488008599810353598794235652776899676377898849868481941203867081334986884270611233672135544633221590789741881096710133542539996811299614389996415973907405907676888718787754685717288193390300121408542261333091421592520105699841016023933997700252687588509302498876914414745457017577293111397534801734542655727129438579647783302103721220921663710392520058883405718280961407499349208249395143592981035681827372954964211262043424483407120231903806942984802337052474807180819860479526044995024543424421348328016660559695822581604061361676224232779113261549020091222341139378153838368356674355427816199935055510212099785950765575447435243275622357459041133013704268482642004975123016926643996371376080167078731579797834320441497793699965885182338841994137573185499693941746133212382346997918745792456943732661875266253751377996036572999451260891753796158311855071082185657908399127219539007776799644873822024702750092877339304435964631686236171245514679097654678209319819074533141825364745492768462236685391183155992734315817801647940109847989719237391682471770473269663753957603440664226362394622193145489400572621665170466491554383305639240 = nttInverseStages 0 0 256 (nttPass zetasInv 1 128 1044388187904474749349084319378404879421645316321844025717882544033215542338515851486215064027236065488008599810353598794235652776899676377898849868481941203867081334986884270611233672135544633221590789741881096710133542539996811299614389996415973907405907676888718787754685717288193390300121408542261333091421592520105699841016023933997700252687588509302498876914414745457017577293111397534801734542655727129438579647783302103721220921663710392520058883405718280961407499349208249395143592981035681827372954964211262043424483407120231903806942984802337052474807180819860479526044995024543424421348328016660559695822581604061361676224232779113261549020091222341139378153838368356674355427816199935055510212099785950765575447435243275622357459041133013704268482642004975123016926643996371376080167078731579797834320441497793699965885182338841994137573185499693941746133212382346997918745792456943732661875266253751377996036572999451260891753796158311855071082185657908399127219539007776799644873822024702750092877339304435964631686236171245514679097654678209319819074533141825364745492768462236685391183155992734315817801647940109847989719237391682471770473269663753957603440664226362394622193145489400572621665170466491554383305639240) from rfl,
        hw8,
        show nttInverseStages 0 0 256 1090747949974955231788211130935036597130011075864575581059541633262584762063480594927608788632228386769854003149255110629676641424330143626617929372747374501052167259699736692921039318172491244796218858177349483231125022724665306436900584711333291681697780576395697962522382698215902796413505630328057403636137125651201631633398485425286065934890386381324075740383415171720581907883977696859631233649924792679679218537365342737079854157218439955663339168876283990695612122994738414904791824633567335246563366963345268551728959615982747878191501890614406838159967542103530406771720988363821868188443394052907166214353083000496073396588521332178119862507202669191798758305097012665204248193843932568024814224029750633728709072611801973508978686789585284031241442139456507683246769323535351634631224996764434542146623985542601993760710532649003695523979103225353724266392285440351316867743874944416535157672541219336241030926568343660036089823441051105503583052641550731496314456792634784141453596522154714182705324495152114087241948643202438220790979574996609158267244216634638056217308573057011095385299562203526571533289318395262552003728392016996221990431406994875129536649584199022134837760821557783197438480437736496590122831963944811882393251773194895534862232042656857859920710963870726890513627444966280461916441682256337238336336511472209832558420945149670134996462904479055161855616254499280334504591635446810875171647032405156258084342009460784492591639755688218670443850927570493108742926937848659688620991055561158318239568466660510629327086523134642397137271872818899849808420778289371855107145922163029263024662121089192828309581398559886381282493770430597978190998479925326315905266975133844128617108104862832161558910576350985287732248180488954137750590311845470117568620022928421803246895317580160863603770263380895492008326559669550715464122149156491717061545094175798456673480542792953813462673577021325710579022485786313848596475968457583997871864148718175566698665143193596703780702718181753066521570538968732269087485873792339654910455697204834800604190794241420071458246803721641961269325139584245566152195546758231003539169254533153310753210619426931464915777435524931831166985531761677070835088076106924131357439992675040914707032080917515870096131901204777050596952592787048034598679367863505981029322701557749872775918729363267876664194870756230720895370683360007173053409364871864138903157840566247826720813449575346805156300522233249400136 = 1090747949974955231788211130935036597130011075864575581059541633262584762063480594927608788632228386769854003149255110629676641424330143626617929372747374501052167259699736692921039318172491244796218858177349483231125022724665306436900584711333291681697780576395697962522382698215902796413505630328057403636137125651201631633398485425286065934890386381324075740383415171720581907883977696859631233649924792679679218537365342737079854157218439955663339168876283990695612122994738414904791824633567335246563366963345268551728959615982747878191501890614406838159967542103530406771720988363821868188443394052907166214353083000496073396588521332178119862507202669191798758305097012665204248193843932568024814224029750633728709072611801973508978686789585284031241442139456507683246769323535351634631224996764434542146623985542601993760710532649003695523979103225353724266392285440351316867743874944416535157672541219336241030926568343660036089823441051105503583052641550731496314456792634784141453596522154714182705324495152114087241948643202438220790979574996609158267244216634638056217308573057011095385299562203526571533289318395262552003728392016996221990431406994875129536649584199022134837760821557783197438480437736496590122831963944811882393251773194895534862232042656857859920710963870726890513627444966280461916441682256337238336336511472209832558420945149670134996462904479055161855616254499280334504591635446810875171647032405156258084342009460784492591639755688218670443850927570493108742926937848659688620991055561158318239568466660510629327086523134642397137271872818899849808420778289371855107145922163029263024662121089192828309581398559886381282493770430597978190998479925326315905266975133844128617108104862832161558910576350985287732248180488954137750590311845470117568620022928421803246895317580160863603770263380895492008326559669550715464122149156491717061545094175798456673480542792953813462673577021325710579022485786313848596475968457583997871864148718175566698665143193596703780702718181753066521570538968732269087485873792339654910455697204834800604190794241420071458246803721641961269325139584245566152195546758231003539169254533153310753210619426931464915777435524931831166985531761677070835088076106924131357439992675040914707032080917515870096131901204777050596952592787048034598679367863505981029322701557749872775918729363267876664194870756230720895370683360007173053409364871864138903157840566247826720813449575346805156300522233249400136 from rfl]
  have h2 : (nttMultiply onePlusXPow255 xPoly).getD 0 0 = 4294967250 := by
    rw [show nttMultiply onePlusXPow255 xPoly = nttInverse ((List.range N).map (fun i => montgomeryReduce ((nttForward onePlusXPow255).getD i 0 * (nttForward xPoly).getD i 0))) from rfl,
        hfa,
        hfb,
        show nttInverse ((List.range N).map (fun i => montgomeryReduce ((unpackPoly 1090747747569161675217892032641668726541182782220427402983697711067487549444505831669583228446651778279913104548696814454327743983725805126094327438610787439902317823005560069372391168415297249940861703580653213333845255152621986899367207860804712514742283415952654517924244911674659024763546214179481869609893449498181641819427065349899216648226433099363409549010318465686495137806463014262741177810457480730104748528564762736320737042357483589946879711391576118116865517921364589242984872876884845580069942478022427529600304485627431764621681287450656115812138138943144680436937388496970315210907940832586052166883520926944678846671078084773203480466297811382270348143767861348993138758278612751944102546944908283887839411994031644557505762038312578567973187872882505395690815901944943425504268662595782166550916060344968400237960567820691911678041217760628009379935949951698228716947508362981044054107223859631441579585955912018219891873425398356009890120309991542680829422816488813516092411556204163805116200643059784164929947764885143826690834630834032178017996064122174072219609635007735089013084957013757167553320273140212960121676237541390958717090150625752529729838253054460205086463448308835640003450374977871518229421487272343839711089366904559663187819501251097235727796055186440630700971089300718921069389725285747600451509950896167389487068274025059184360572309414761748354184413579334360804037728838502934548605952876908475307551423454453279668993177726274359921362978258177803672940315489132513245649261719939732671481718567495438136793029721155943432390365699786395452901582556404529876065777028453249365197566383846959372991281529144981824704195894152893939914581660422780514011631123799212699374031019619581990397080205270937029149322278473697187703957155228698836892063168128418684649615115096864885139636739338617098253451858846787651600479733541446360161992067813516272960745293045831361122907406086446392114867390398130478568316852594308634451587187932057137545607931906118060385610299597492110374559381588477380830418973929203944515133633738523818265162181030919849619283612257168444976529787292536362271394566221962280227085335289726534733477894673623600442128046473334174437109317457182079679841630651529934712824402302588677506082064644941743922202564676330094988800104364380370817096384007971454105587664646239423061298037027752493465306334192525593987455283118055633305115138087402684692118826457867710488929163246295546448735635169607682).getD i 0 * (unpackPoly 19265574399884986505649292318168160270791100414997061420077565310137985047399464019357317174908052456249377912227802773635845969314039300275755273786645044128534840116687854831332421408685924400745090544819434337683248359011510611329449882624171345155260945288059040800671027293635137361847331012241430730770572249126856858787089776093581798700298813391605842678429498326462939087779145503492316161598185489306991917334854836298318454797044847992718470897519836072092835326031081105284524935250391795729972316033485324382608771607439401360495209189368473390912419133007088660269254137943607904657022171254960746883907475801520290337278291057042905858477338926883735237877328402058124304042259354589501658745901377333436633220624547119788451753989088473353911790519981839669433418109781740257220034310209724958364056734815953612489917357885221943227348500151456508316348043841514346646833428082696143518567598387726209436480377940698699366113948169325860029346231072138578427354491160656754185274406017546785613011228423679284548129254243140144709565439966056855682767556840403675963162593650463034008928085414252728999455514609847706192164763789946202704881444316350512842696730683931370239136308139469819336315694589750685505516139712723149734511902721).getD i 0))) = (List.range N).map (fun i => montgomeryReduce (getW (nttInverseStages 8 (N / 2) 1 (packPoly ((List.range N).map (fun i => montgomeryReduce ((unpackPoly 1090747747569161675217892032641668726541182782220427402983697711067487549444505831669583228446651778279913104548696814454327743983725805126094327438610787439902317823005560069372391168415297249940861703580653213333845255152621986899367207860804712514742283415952654517924244911674659024763546214179481869609893449498181641819427065349899216648226433099363409549010318465686495137806463014262741177810457480730104748528564762736320737042357483589946879711391576118116865517921364589242984872876884845580069942478022427529600304485627431764621681287450656115812138138943144680436937388496970315210907940832586052166883520926944678846671078084773203480466297811382270348143767861348993138758278612751944102546944908283887839411994031644557505762038312578567973187872882505395690815901944943425504268662595782166550916060344968400237960567820691911678041217760628009379935949951698228716947508362981044054107223859631441579585955912018219891873425398356009890120309991542680829422816488813516092411556204163805116200643059784164929947764885143826690834630834032178017996064122174072219609635007735089013084957013757167553320273140212960121676237541390958717090150625752529729838253054460205086463448308835640003450374977871518229421487272343839711089366904559663187819501251097235727796055186440630700971089300718921069389725285747600451509950896167389487068274025059184360572309414761748354184413579334360804037728838502934548605952876908475307551423454453279668993177726274359921362978258177803672940315489132513245649261719939732671481718567495438136793029721155943432390365699786395452901582556404529876065777028453249365197566383846959372991281529144981824704195894152893939914581660422780514011631123799212699374031019619581990397080205270937029149322278473697187703957155228698836892063168128418684649615115096864885139636739338617098253451858846787651600479733541446360161992067813516272960745293045831361122907406086446392114867390398130478568316852594308634451587187932057137545607931906118060385610299597492110374559381588477380830418973929203944515133633738523818265162181030919849619283612257168444976529787292536362271394566221962280227085335289726534733477894673623600442128046473334174437109317457182079679841630651529934712824402302588677506082064644941743922202564676330094988800104364380370817096384007971454105587664646239423061298037027752493465306334192525593987455283118055633305115138087402684692118826457867710488929163246295546448735635169607682).getD i 0 * (unpackPoly 19265574399884986505649292318168160270791100414997061420077565310137985047399464019357317174908052456249377912227802773635845969314039300275755273786645044128534840116687854831332421408685924400745090544819434337683248359011510611329449882624171345155260945288059040800671027293635137361847331012241430730770572249126856858787089776093581798700298813391605842678429498326462939087779145503492316161598185489306991917334854836298318454797044847992718470897519836072092835326031081105284524935250391795729972316033485324382608771607439401360495209189368473390912419133007088660269254137943607904657022171254960746883907475801520290337278291057042905858477338926883735237877328402058124304042259354589501658745901377333436633220624547119788451753989088473353911790519981839669433418109781740257220034310209724958364056734815953612489917357885221943227348500151456508316348043841514346646833428082696143518567598387726209436480377940698699366113948169325860029346231072138578427354491160656754185274406017546785613011228423679284548129254243140144709565439966056855682767556840403675963162593650463034008928085414252728999455514609847706192164763789946202704881444316350512842696730683931370239136308139469819336315694589750685505516139712723149734511902721).getD i 0))))) i * nInv)) from rfl,
        show (N / 2 : ℕ) = 128 from rfl,
        hPW,
        hstW]
    decide
  exact ⟨h1, h2, by rw [h1, h2]; decide⟩

end CLWE
